import Mathlib

/-!
# Arduino_LSM9DS1: register encode/decode and calibrated reads

A shallow embedding of `src/LSM9DS1.cpp`.

* The I2C transport (`TwoWire`, the Arduino Wire library) is not part of the
  driver: it is an interface over an arbitrary bus state `σ`, and every driver
  function threads that state explicitly.
* C `int` values are `Int`; `uint8_t` values are `Nat` reduced modulo 256 at
  every assignment; `&`, `|`, `>>` on `int` are `Int.land`, `Int.lor` and the
  arithmetic shift of `Int`.
* `float` values are embedded twice. Where a property is stated in exact
  arithmetic (C1, C12) or does not depend on the arithmetic, they are exact
  rationals; NaN is a separate value, and a division whose divisor is zero has
  no rational result. Where rounding decides the property (C2, C14), the
  definitions of the namespace `Binary32` embed the same source functions with
  every operation rounded to IEEE 754 binary32, infinities and NaN included.
* A table lookup returns `none` when the index is outside the table (undefined
  behaviour in C).
-/

namespace LSM9DS1

/-! ## Machine integers -/

/-- Conversion of a C `int` to `uint8_t`: reduction modulo 256. -/
def toUInt8 (x : Int) : Nat := (x % 256).toNat

/-- Reinterpretation of a 16-bit pattern as an `int16_t` (two's complement). -/
def toInt16 (n : Nat) : Int :=
  if n % 65536 < 32768 then ((n % 65536 : Nat) : Int) else ((n % 65536 : Nat) : Int) - 65536

/-- The `int16_t` element `i` of a buffer that was filled bytewise through a
`uint8_t*` (little-endian target: low byte first). -/
def int16At (bytes : List Nat) (i : Nat) : Int :=
  toInt16 (bytes.getD (2 * i) 0 + 256 * bytes.getD (2 * i + 1) 0)

/-- Arduino core: `bitRead(value, bit)` is `(((value) >> (bit)) & 0x01)`. -/
def bitRead (value bit : Nat) : Nat := (value >>> bit) &&& 1

/-! ## Register map (the `#define`s of the source) -/

abbrev LSM9DS1_ADDRESS : Nat := 0x6b
abbrev LSM9DS1_WHO_AM_I : Nat := 0x0f
abbrev LSM9DS1_CTRL_REG1_G : Nat := 0x10
abbrev LSM9DS1_STATUS_REG : Nat := 0x17
abbrev LSM9DS1_OUT_X_G : Nat := 0x18
abbrev LSM9DS1_CTRL_REG6_XL : Nat := 0x20
abbrev LSM9DS1_CTRL_REG8 : Nat := 0x22
abbrev LSM9DS1_OUT_X_XL : Nat := 0x28
abbrev LSM9DS1_ADDRESS_M : Nat := 0x1e
abbrev LSM9DS1_CTRL_REG1_M : Nat := 0x20
abbrev LSM9DS1_CTRL_REG2_M : Nat := 0x21
abbrev LSM9DS1_CTRL_REG3_M : Nat := 0x22
abbrev LSM9DS1_STATUS_REG_M : Nat := 0x27
abbrev LSM9DS1_OUT_X_L_M : Nat := 0x28

/-! ## The bus transport -/

/-- The operations of the Wire library the driver calls, over a bus state `σ`.
`endTransmission` returns the library's status byte (0 is success),
`requestFrom` the number of bytes received, `read` the next received byte as
an `int`. -/
structure TwoWire (σ : Type) where
  begin : σ → σ
  end_ : σ → σ
  beginTransmission : Nat → σ → σ
  write : Nat → σ → σ
  endTransmission : Bool → σ → Nat × σ
  requestFrom : Nat → Nat → σ → Nat × σ
  read : σ → Int × σ

variable {σ : Type}

/-- Embeds `LSM9DS1Class::readRegister`. -/
def readRegister (w : TwoWire σ) (slaveAddress address : Nat) (s : σ) : Int × σ :=
  let s := w.beginTransmission slaveAddress s
  let s := w.write address s
  let (e, s) := w.endTransmission true s
  if e ≠ 0 then (-1, s)
  else
    let (n, s) := w.requestFrom slaveAddress 1 s
    if n ≠ 1 then (-1, s)
    else w.read s

/-- The copy loop of `readRegisters`: `length` successive `*data++ = _wire->read()`,
each byte truncated to `uint8_t`. -/
def readLoop (w : TwoWire σ) : Nat → σ → List Nat × σ
  | 0, s => ([], s)
  | n + 1, s =>
    let (b, s) := w.read s
    let (bs, s) := readLoop w n s
    (toUInt8 b :: bs, s)

/-- Embeds `LSM9DS1Class::readRegisters`. `data` is the content of the
caller's buffer on entry; the second component of the result is its content on
return (untouched on both failure paths). -/
def readRegisters (w : TwoWire σ) (slaveAddress address : Nat) (data : List Nat)
    (length : Nat) (s : σ) : Int × List Nat × σ :=
  let s := w.beginTransmission slaveAddress s
  let s := w.write (0x80 ||| address) s
  let (e, s) := w.endTransmission false s
  if e ≠ 0 then (-1, data, s)
  else
    let (n, s) := w.requestFrom slaveAddress length s
    if n ≠ length then (0, data, s)
    else
      let (bytes, s) := readLoop w length s
      (1, bytes ++ data.drop length, s)

/-- Embeds `LSM9DS1Class::writeRegister`. -/
def writeRegister (w : TwoWire σ) (slaveAddress address value : Nat) (s : σ) : Int × σ :=
  let s := w.beginTransmission slaveAddress s
  let s := w.write address s
  let s := w.write value s
  let (e, s) := w.endTransmission true s
  if e ≠ 0 then (0, s) else (1, s)

/-! ## The driver object -/

/-- A `float` result: NaN, or a number (kept exact). -/
inductive FloatVal where
  | nan : FloatVal
  | num (q : ℚ) : FloatVal
  deriving DecidableEq

/-- Float division inside the rationals: no result when the divisor is zero
(the C result is then infinite or NaN). -/
def fdiv (a b : ℚ) : Option ℚ := if b = 0 then none else some (a / b)

/-- The data members of `LSM9DS1Class` that the source file uses (the bus
pointer `_wire` is the `TwoWire` argument of every function). -/
structure LSM9DS1Class where
  continuousMode : Bool
  accelOffset : Fin 3 → ℚ
  accelSlope : Fin 3 → ℚ
  accelUnit : ℚ
  gyroOffset : Fin 3 → ℚ
  gyroSlope : Fin 3 → ℚ
  gyroUnit : ℚ
  magnetOffset : Fin 3 → ℚ
  magnetSlope : Fin 3 → ℚ
  magnetUnit : ℚ

/-- What a `read...(float& x, float& y, float& z)` call hands back: the `int`
it returns and the three output parameters. -/
structure Reading where
  ret : Int
  x : FloatVal
  y : FloatVal
  z : FloatVal
  deriving DecidableEq

/-- Embeds `LSM9DS1Class::end`. -/
def end_ (w : TwoWire σ) (s : σ) : σ :=
  let (_, s) := writeRegister w LSM9DS1_ADDRESS_M LSM9DS1_CTRL_REG3_M 0x03 s
  let (_, s) := writeRegister w LSM9DS1_ADDRESS LSM9DS1_CTRL_REG1_G 0x00 s
  let (_, s) := writeRegister w LSM9DS1_ADDRESS LSM9DS1_CTRL_REG6_XL 0x00 s
  w.end_ s

/-- Embeds `LSM9DS1Class::begin` (`delay(10)` does not touch the bus). -/
def begin (w : TwoWire σ) (s : σ) : Int × σ :=
  let s := w.begin s
  let (_, s) := writeRegister w LSM9DS1_ADDRESS LSM9DS1_CTRL_REG8 0x05 s
  let (_, s) := writeRegister w LSM9DS1_ADDRESS_M LSM9DS1_CTRL_REG2_M 0x0c s
  let (r, s) := readRegister w LSM9DS1_ADDRESS LSM9DS1_WHO_AM_I s
  if r ≠ 0x68 then (0, end_ w s)
  else
    let (r, s) := readRegister w LSM9DS1_ADDRESS_M LSM9DS1_WHO_AM_I s
    if r ≠ 0x3d then (0, end_ w s)
    else
      let (_, s) := writeRegister w LSM9DS1_ADDRESS LSM9DS1_CTRL_REG1_G 0x78 s
      let (_, s) := writeRegister w LSM9DS1_ADDRESS LSM9DS1_CTRL_REG6_XL 0x70 s
      let (_, s) := writeRegister w LSM9DS1_ADDRESS_M LSM9DS1_CTRL_REG1_M 0xb4 s
      let (_, s) := writeRegister w LSM9DS1_ADDRESS_M LSM9DS1_CTRL_REG2_M 0x00 s
      let (_, s) := writeRegister w LSM9DS1_ADDRESS_M LSM9DS1_CTRL_REG3_M 0x00 s
      (1, s)

/-- Embeds the constructor `LSM9DS1Class::LSM9DS1Class`: `continuousMode(false)`;
the calibration members get the values of their declaration, a parameter here. -/
def LSM9DS1Class.new (cal : LSM9DS1Class) : LSM9DS1Class :=
  { cal with continuousMode := false }

/-- Embeds `LSM9DS1Class::setContinuousMode`. -/
def setContinuousMode (w : TwoWire σ) (self : LSM9DS1Class) (s : σ) : LSM9DS1Class × σ :=
  let (_, s) := writeRegister w LSM9DS1_ADDRESS 0x23 0x02 s
  let (_, s) := writeRegister w LSM9DS1_ADDRESS 0x2E 0xC0 s
  ({ self with continuousMode := true }, s)

/-- Embeds `LSM9DS1Class::setOneShotMode`. -/
def setOneShotMode (w : TwoWire σ) (self : LSM9DS1Class) (s : σ) : LSM9DS1Class × σ :=
  let (_, s) := writeRegister w LSM9DS1_ADDRESS 0x23 0x00 s
  let (_, s) := writeRegister w LSM9DS1_ADDRESS 0x2E 0x00 s
  ({ self with continuousMode := false }, s)

/-! ## Accelerometer -/

/-- The table `ranges` of `getAccelFS` (g). -/
def getAccelFS.ranges : List ℚ := [2, 16, 4, 8]

/-- The index `setting` of `getAccelFS`, from the value `readRegister` returned. -/
def getAccelFS.setting (r : Int) : Nat := toUInt8 (Int.land r 0x18 >>> 3)

/-- Embeds `LSM9DS1Class::getAccelFS`. -/
def getAccelFS (w : TwoWire σ) (s : σ) : Option ℚ × σ :=
  let (r, s) := readRegister w LSM9DS1_ADDRESS LSM9DS1_CTRL_REG6_XL s
  (getAccelFS.ranges[getAccelFS.setting r]?, s)

/-- Embeds `LSM9DS1Class::readAccel`, the arithmetic taken exactly. `data` is
the content of the uninitialised local array `int16_t data[3]` (six bytes) on
entry. The result is `none` when the full-scale lookup is out of bounds.
`Binary32.readAccel` is the same function with binary32 rounding. -/
def readAccel (w : TwoWire σ) (self : LSM9DS1Class) (data : List Nat) (s : σ) :
    Option Reading × σ :=
  let (r, data, s) := readRegisters w LSM9DS1_ADDRESS LSM9DS1_OUT_X_XL data 6 s
  if r = 0 then (some ⟨0, .nan, .nan, .nan⟩, s)
  else
    let (fs, s) := getAccelFS w s
    match fs with
    | none => (none, s)
    | some fs =>
      let scale : ℚ := fs / 32768
      (some ⟨1,
        .num (self.accelUnit * self.accelSlope 0 * (scale * int16At data 0 - self.accelOffset 0)),
        .num (self.accelUnit * self.accelSlope 1 * (scale * int16At data 1 - self.accelOffset 1)),
        .num (self.accelUnit * self.accelSlope 2 * (scale * int16At data 2 - self.accelOffset 2))⟩,
       s)

/-- Embeds `LSM9DS1Class::accelAvailable` (a C condition is true when non-zero). -/
def accelAvailable (w : TwoWire σ) (self : LSM9DS1Class) (s : σ) : Int × σ :=
  if self.continuousMode then
    let (r, s) := readRegister w LSM9DS1_ADDRESS 0x2F s
    if Int.land r 63 ≠ 0 then (1, s) else (0, s)
  else
    let (r, s) := readRegister w LSM9DS1_ADDRESS LSM9DS1_STATUS_REG s
    if Int.land r 0x01 ≠ 0 then (1, s) else (0, s)

/-- Embeds `LSM9DS1Class::setAccelOffset`, the arithmetic taken exactly;
`none` when a divisor `accelUnit * accelSlope[i]` is zero, where the code
stores an infinity or NaN on that axis (`Binary32.setAccelOffset` keeps those
values, axis by axis). -/
def setAccelOffset (self : LSM9DS1Class) (x y z : ℚ) : Option LSM9DS1Class := do
  let o0 ← fdiv x (self.accelUnit * self.accelSlope 0)
  let o1 ← fdiv y (self.accelUnit * self.accelSlope 1)
  let o2 ← fdiv z (self.accelUnit * self.accelSlope 2)
  pure { self with accelOffset := ![o0, o1, o2] }

/-- Embeds `LSM9DS1Class::setAccelSlope`. -/
def setAccelSlope (self : LSM9DS1Class) (x y z : ℚ) : LSM9DS1Class :=
  { self with accelSlope := ![x, y, z] }

/-- Embeds `LSM9DS1Class::setAccelODR`. -/
def setAccelODR (w : TwoWire σ) (range : Nat) (s : σ) : Int × σ :=
  let range := (range <<< 5) % 256
  let range := if range = 0b11100000 then 0 else range
  let (r, s) := readRegister w LSM9DS1_ADDRESS LSM9DS1_CTRL_REG6_XL s
  let setting := toUInt8 (Int.lor (Int.land r 0b00011111) range)
  writeRegister w LSM9DS1_ADDRESS LSM9DS1_CTRL_REG6_XL setting s

/-- The table `Ranges` of `getAccelODR` (Hz). -/
def getAccelODR.Ranges : List ℚ := [0, 10, 50, 119, 238, 476, 952, 0]

/-- The index `setting` of `getAccelODR`. -/
def getAccelODR.setting (r : Int) : Nat := toUInt8 (r >>> 5)

/-- Embeds `LSM9DS1Class::getAccelODR`. -/
def getAccelODR (w : TwoWire σ) (s : σ) : Option ℚ × σ :=
  let (r, s) := readRegister w LSM9DS1_ADDRESS LSM9DS1_CTRL_REG6_XL s
  (getAccelODR.Ranges[getAccelODR.setting r]?, s)

/-- Embeds `LSM9DS1Class::setAccelBW`, declared to return `float`: the `int`
of `writeRegister` converted. -/
def setAccelBW (w : TwoWire σ) (range : Nat) (s : σ) : ℚ × σ :=
  let range := (range &&& 0b00000011) % 256
  let (r, s) := readRegister w LSM9DS1_ADDRESS LSM9DS1_CTRL_REG6_XL s
  let RegIs := toUInt8 (Int.land r 0b11111000)
  let RegIs := (RegIs ||| 0b00000100 ||| range) % 256
  let (e, s) := writeRegister w LSM9DS1_ADDRESS LSM9DS1_CTRL_REG6_XL RegIs s
  ((e : ℚ), s)

/-- The table `autoRange` of `getAccelBW`. -/
def getAccelBW.autoRange : List ℚ := [0, 408, 408, 50, 105, 211, 408, 0]

/-- The table `BWXLRange` of `getAccelBW`. -/
def getAccelBW.BWXLRange : List ℚ := [408, 211, 105, 50]

/-- Embeds `LSM9DS1Class::getAccelBW`, the condition being `bitRead(2,RegIs)`
as written. -/
def getAccelBW (w : TwoWire σ) (s : σ) : Option ℚ × σ :=
  let (r, s) := readRegister w LSM9DS1_ADDRESS LSM9DS1_CTRL_REG6_XL s
  let RegIs := toUInt8 r
  if bitRead 2 RegIs ≠ 0 then (getAccelBW.BWXLRange[RegIs &&& 0b00000011]?, s)
  else (getAccelBW.autoRange[RegIs >>> 5]?, s)

/-- Embeds `LSM9DS1Class::setAccelFS`. -/
def setAccelFS (w : TwoWire σ) (range : Nat) (s : σ) : Int × σ :=
  let range := ((range &&& 0b00000011) <<< 3) % 256
  let (r, s) := readRegister w LSM9DS1_ADDRESS LSM9DS1_CTRL_REG6_XL s
  let setting := toUInt8 (Int.lor (Int.land r 0xE7) range)
  writeRegister w LSM9DS1_ADDRESS LSM9DS1_CTRL_REG6_XL setting s

/-! ## Gyroscope -/

/-- The table `Ranges` of `getGyroFS` (dps). -/
def getGyroFS.Ranges : List ℚ := [245, 500, 1000, 2000]

/-- The index `setting` of `getGyroFS`. -/
def getGyroFS.setting (r : Int) : Nat := toUInt8 (Int.land r 0x18 >>> 3)

/-- Embeds `LSM9DS1Class::getGyroFS`. -/
def getGyroFS (w : TwoWire σ) (s : σ) : Option ℚ × σ :=
  let (r, s) := readRegister w LSM9DS1_ADDRESS LSM9DS1_CTRL_REG1_G s
  (getGyroFS.Ranges[getGyroFS.setting r]?, s)

/-- Embeds `LSM9DS1Class::readGyro`, the arithmetic taken exactly; `data` as
in `readAccel`. `Binary32.readGyro` is the same function with binary32
rounding. -/
def readGyro (w : TwoWire σ) (self : LSM9DS1Class) (data : List Nat) (s : σ) :
    Option Reading × σ :=
  let (r, data, s) := readRegisters w LSM9DS1_ADDRESS LSM9DS1_OUT_X_G data 6 s
  if r = 0 then (some ⟨0, .nan, .nan, .nan⟩, s)
  else
    let (fs, s) := getGyroFS w s
    match fs with
    | none => (none, s)
    | some fs =>
      let scale : ℚ := fs / 32768
      (some ⟨1,
        .num (self.gyroUnit * self.gyroSlope 0 * (scale * int16At data 0 - self.gyroOffset 0)),
        .num (self.gyroUnit * self.gyroSlope 1 * (scale * int16At data 1 - self.gyroOffset 1)),
        .num (self.gyroUnit * self.gyroSlope 2 * (scale * int16At data 2 - self.gyroOffset 2))⟩,
       s)

/-- Embeds `LSM9DS1Class::gyroAvailable`. -/
def gyroAvailable (w : TwoWire σ) (s : σ) : Int × σ :=
  let (r, s) := readRegister w LSM9DS1_ADDRESS LSM9DS1_STATUS_REG s
  if Int.land r 0x02 ≠ 0 then (1, s) else (0, s)

/-- Embeds `LSM9DS1Class::setGyroOffset`, the arithmetic taken exactly; `none`
when a divisor is zero (`Binary32.setGyroOffset` keeps the infinity or NaN the
code stores). -/
def setGyroOffset (self : LSM9DS1Class) (x y z : ℚ) : Option LSM9DS1Class := do
  let o0 ← fdiv x (self.gyroUnit * self.gyroSlope 0)
  let o1 ← fdiv y (self.gyroUnit * self.gyroSlope 1)
  let o2 ← fdiv z (self.gyroUnit * self.gyroSlope 2)
  pure { self with gyroOffset := ![o0, o1, o2] }

/-- Embeds `LSM9DS1Class::setGyroSlope`. -/
def setGyroSlope (self : LSM9DS1Class) (x y z : ℚ) : LSM9DS1Class :=
  { self with gyroSlope := ![x, y, z] }

/-- Embeds `LSM9DS1Class::setGyroODR`. -/
def setGyroODR (w : TwoWire σ) (range : Nat) (s : σ) : Int × σ :=
  let range := (range <<< 5) % 256
  let range := if range = 0b11100000 then 0 else range
  let (r, s) := readRegister w LSM9DS1_ADDRESS LSM9DS1_CTRL_REG1_G s
  let setting := toUInt8 (Int.lor (Int.land r 0b00011111) range)
  writeRegister w LSM9DS1_ADDRESS LSM9DS1_CTRL_REG1_G setting s

/-- The table `Ranges` of `getGyroODR` (Hz). -/
def getGyroODR.Ranges : List ℚ := [0, 10, 50, 119, 238, 476, 952, 0]

/-- The index `setting` of `getGyroODR`. -/
def getGyroODR.setting (r : Int) : Nat := toUInt8 (r >>> 5)

/-- Embeds `LSM9DS1Class::getGyroODR`. -/
def getGyroODR (w : TwoWire σ) (s : σ) : Option ℚ × σ :=
  let (r, s) := readRegister w LSM9DS1_ADDRESS LSM9DS1_CTRL_REG1_G s
  (getGyroODR.Ranges[getGyroODR.setting r]?, s)

/-- Embeds `LSM9DS1Class::setGyroBW`. -/
def setGyroBW (w : TwoWire σ) (range : Nat) (s : σ) : Int × σ :=
  let range := (range &&& 0b00000011) % 256
  let (r, s) := readRegister w LSM9DS1_ADDRESS LSM9DS1_CTRL_REG1_G s
  let setting := toUInt8 (Int.land r 0b11111100)
  writeRegister w LSM9DS1_ADDRESS LSM9DS1_CTRL_REG1_G ((setting ||| range) % 256) s

/-- The table `BWtable[ODRrows][BWcols]`, 8 rows of 4. -/
def BWtable : List (List ℚ) :=
  [[0, 0, 0, 0],
   [0, 0, 0, 0],
   [16, 16, 16, 16],
   [14, 31, 31, 31],
   [14, 29, 63, 78],
   [21, 28, 57, 100],
   [33, 40, 58, 100],
   [0, 0, 0, 0]]

/-- Embeds `LSM9DS1Class::getGyroBW`. -/
def getGyroBW (w : TwoWire σ) (s : σ) : Option ℚ × σ :=
  let (r, s) := readRegister w LSM9DS1_ADDRESS LSM9DS1_CTRL_REG1_G s
  let setting := toUInt8 r
  let ODR := setting >>> 5
  let BW := setting &&& 0b00000011
  (BWtable[ODR]?.bind (fun row => row[BW]?), s)

/-- Embeds `LSM9DS1Class::setGyroFS`. -/
def setGyroFS (w : TwoWire σ) (range : Nat) (s : σ) : Int × σ :=
  let range := ((range &&& 0b00000011) <<< 3) % 256
  let (r, s) := readRegister w LSM9DS1_ADDRESS LSM9DS1_CTRL_REG1_G s
  let setting := toUInt8 (Int.lor (Int.land r 0xE7) range)
  writeRegister w LSM9DS1_ADDRESS LSM9DS1_CTRL_REG1_G setting s

/-! ## Magnetic field -/

/-- The table `Ranges` of `getMagnetFS` (µT). -/
def getMagnetFS.Ranges : List ℚ := [400, 800, 1200, 1600]

/-- The index `setting` of `getMagnetFS`. -/
def getMagnetFS.setting (r : Int) : Nat := toUInt8 (r >>> 5)

/-- Embeds `LSM9DS1Class::getMagnetFS`: the register is read from
`LSM9DS1_ADDRESS`, as written in the source. -/
def getMagnetFS (w : TwoWire σ) (s : σ) : Option ℚ × σ :=
  let (r, s) := readRegister w LSM9DS1_ADDRESS LSM9DS1_CTRL_REG2_M s
  (getMagnetFS.Ranges[getMagnetFS.setting r]?, s)

/-- Embeds `LSM9DS1Class::readMagneticField`, the arithmetic taken exactly;
`data` as in `readAccel`. `Binary32.readMagneticField` is the same function
with binary32 rounding. -/
def readMagneticField (w : TwoWire σ) (self : LSM9DS1Class) (data : List Nat) (s : σ) :
    Option Reading × σ :=
  let (r, data, s) := readRegisters w LSM9DS1_ADDRESS_M LSM9DS1_OUT_X_L_M data 6 s
  if r = 0 then (some ⟨0, .nan, .nan, .nan⟩, s)
  else
    let (fs, s) := getMagnetFS w s
    match fs with
    | none => (none, s)
    | some fs =>
      let scale : ℚ := fs / 32768
      (some ⟨1,
        .num (self.magnetUnit * self.magnetSlope 0 *
          (scale * int16At data 0 - self.magnetOffset 0)),
        .num (self.magnetUnit * self.magnetSlope 1 *
          (scale * int16At data 1 - self.magnetOffset 1)),
        .num (self.magnetUnit * self.magnetSlope 2 *
          (scale * int16At data 2 - self.magnetOffset 2))⟩,
       s)

/-- Embeds `LSM9DS1Class::magneticFieldAvailable`. -/
def magneticFieldAvailable (w : TwoWire σ) (s : σ) : Int × σ :=
  let (r, s) := readRegister w LSM9DS1_ADDRESS_M LSM9DS1_STATUS_REG_M s
  if Int.land r 0x08 ≠ 0 then (1, s) else (0, s)

/-- Embeds `LSM9DS1Class::setMagnetOffset`, the arithmetic taken exactly;
`none` when a divisor is zero (`Binary32.setMagnetOffset` keeps the infinity or
NaN the code stores). -/
def setMagnetOffset (self : LSM9DS1Class) (x y z : ℚ) : Option LSM9DS1Class := do
  let o0 ← fdiv x (self.magnetUnit * self.magnetSlope 0)
  let o1 ← fdiv y (self.magnetUnit * self.magnetSlope 1)
  let o2 ← fdiv z (self.magnetUnit * self.magnetSlope 2)
  pure { self with magnetOffset := ![o0, o1, o2] }

/-- Embeds `LSM9DS1Class::setMagnetSlope`. -/
def setMagnetSlope (self : LSM9DS1Class) (x y z : ℚ) : LSM9DS1Class :=
  { self with magnetSlope := ![x, y, z] }

/-- Embeds `LSM9DS1Class::setMagnetFS`: one write to `LSM9DS1_ADDRESS`, with
no preceding read, as written in the source. -/
def setMagnetFS (w : TwoWire σ) (range : Nat) (s : σ) : Int × σ :=
  let range := ((range &&& 0b00000011) <<< 5) % 256
  writeRegister w LSM9DS1_ADDRESS LSM9DS1_CTRL_REG2_M range s

/-- Embeds `LSM9DS1Class::setMagnetODR`. -/
def setMagnetODR (w : TwoWire σ) (range : Nat) (s : σ) : Int × σ :=
  let range := ((range &&& 0b00000111) <<< 2) % 256
  let (r, s) := readRegister w LSM9DS1_ADDRESS_M LSM9DS1_CTRL_REG1_M s
  let setting := toUInt8 (Int.lor (Int.land r 0b11100011) range)
  writeRegister w LSM9DS1_ADDRESS_M LSM9DS1_CTRL_REG1_M setting s

/-- The table `ranges` of `getMagnetODR` (Hz). -/
def getMagnetODR.ranges : List ℚ := [0.625, 1.25, 2.5, 5.0, 10.0, 20.0, 40.0, 80.0]

/-- The index `setting` of `getMagnetODR`. -/
def getMagnetODR.setting (r : Int) : Nat := toUInt8 (Int.land r 0b00011100 >>> 2)

/-- Embeds `LSM9DS1Class::getMagnetODR`. -/
def getMagnetODR (w : TwoWire σ) (s : σ) : Option ℚ × σ :=
  let (r, s) := readRegister w LSM9DS1_ADDRESS_M LSM9DS1_CTRL_REG1_M s
  (getMagnetODR.ranges[getMagnetODR.setting r]?, s)

/-! ## The conversion as the specification words it -/

/-- The specification's `convert`, per axis `i`:
`cal.unit * cal.slope[i] * (scale * raw[i] - cal.offset[i])` with
`scale = fullScaleValue / 32768`. -/
def specConvert (unit : ℚ) (slope offset : Fin 3 → ℚ) (fullScaleValue : ℚ)
    (raw : Fin 3 → Int) (i : Fin 3) : ℚ :=
  unit * slope i * (fullScaleValue / 32768 * raw i - offset i)

/-- The three `int16_t` samples held by a six-byte buffer. -/
def samples (bytes : List Nat) (i : Fin 3) : Int := int16At bytes i.val

/-! ## Observing the bus -/

/-- One call of a Wire operation, with its arguments. -/
inductive WireCall where
  | begin : WireCall
  | end_ : WireCall
  | beginTransmission (address : Nat) : WireCall
  | write (byte : Nat) : WireCall
  | endTransmission (sendStop : Bool) : WireCall
  | requestFrom (address quantity : Nat) : WireCall
  | read : WireCall
  deriving DecidableEq

/-- Any bus, with a record of the calls made on it: each operation behaves as
on `w` and appends itself to the record. -/
def logged (w : TwoWire σ) : TwoWire (σ × List WireCall) where
  begin := fun s => (w.begin s.1, s.2 ++ [.begin])
  end_ := fun s => (w.end_ s.1, s.2 ++ [.end_])
  beginTransmission := fun a s => (w.beginTransmission a s.1, s.2 ++ [.beginTransmission a])
  write := fun b s => (w.write b s.1, s.2 ++ [.write b])
  endTransmission := fun stop s =>
    ((w.endTransmission stop s.1).1, (w.endTransmission stop s.1).2, s.2 ++ [.endTransmission stop])
  requestFrom := fun a n s =>
    ((w.requestFrom a n s.1).1, (w.requestFrom a n s.1).2, s.2 ++ [.requestFrom a n])
  read := fun s => ((w.read s.1).1, (w.read s.1).2, s.2 ++ [.read])

/-- The register writes in a record of calls: every transaction
`beginTransmission(a); write(reg); write(value); endTransmission()`, as
`(a, reg, value)`. -/
def registerWrites : List WireCall → List (Nat × Nat × Nat)
  | .beginTransmission a :: .write reg :: .write value :: .endTransmission stop :: rest =>
    (a, reg, value) :: registerWrites (.endTransmission stop :: rest)
  | _ :: rest => registerWrites rest
  | [] => []

/-! ## A reference bus

Register-file devices behind a Wire front end, used to run the driver on
concrete inputs. A device that does not acknowledge makes `endTransmission`
return 2 (address NACK); a device that does not answer makes `requestFrom`
return 0. -/

/-- State of the reference bus. -/
structure SimBus where
  regs : Nat → Nat → Nat
  acks : Nat → Bool
  answers : Nat → Bool
  txAddress : Nat
  txBuffer : List Nat
  pointer : Nat
  rxBuffer : List Nat

/-- Stores the bytes `vs` at the registers `reg, reg + 1, ...` of device `dev`. -/
def SimBus.store (regs : Nat → Nat → Nat) (dev : Nat) : Nat → List Nat → Nat → Nat → Nat
  | _, [] => regs
  | reg, v :: vs =>
    SimBus.store (fun d r => if d = dev ∧ r = reg then v % 256 else regs d r) dev (reg + 1) vs

/-- The Wire front end of the reference bus. The first byte of a write
transaction is the register address (bit 7, the auto-increment flag, is
dropped); the bytes after it are stored from that register on. -/
def simWire : TwoWire SimBus where
  begin := fun s => s
  end_ := fun s => s
  beginTransmission := fun a s => { s with txAddress := a, txBuffer := [] }
  write := fun b s => { s with txBuffer := s.txBuffer ++ [b % 256] }
  endTransmission := fun _ s =>
    if s.acks s.txAddress then
      match s.txBuffer with
      | [] => (0, s)
      | reg :: vs =>
        (0, { s with pointer := reg % 128,
                     regs := SimBus.store s.regs s.txAddress (reg % 128) vs })
    else (2, s)
  requestFrom := fun a n s =>
    if s.acks a && s.answers a then
      (n, { s with rxBuffer := (List.range n).map (fun k => s.regs a (s.pointer + k) % 256) })
    else (0, { s with rxBuffer := [] })
  read := fun s =>
    match s.rxBuffer with
    | [] => (-1, s)
    | b :: bs => ((b : Int), { s with rxBuffer := bs })

/-- A reference bus at rest with the given register contents and device
behaviour. -/
def SimBus.idle (regs : Nat → Nat → Nat) (acks answers : Nat → Bool) : SimBus :=
  { regs := regs, acks := acks, answers := answers,
    txAddress := 0, txBuffer := [], pointer := 0, rxBuffer := [] }

/-- Identity calibration: unit 1, slopes 1, offsets 0 on all three channels. -/
def identityCal : LSM9DS1Class :=
  { continuousMode := false,
    accelOffset := ![0, 0, 0], accelSlope := ![1, 1, 1], accelUnit := 1,
    gyroOffset := ![0, 0, 0], gyroSlope := ![1, 1, 1], gyroUnit := 1,
    magnetOffset := ![0, 0, 0], magnetSlope := ![1, 1, 1], magnetUnit := 1 }

/-- Register contents for the worked scenarios: accelerometer at ±16 g with
samples `[16384, 0, -16384]`, gyroscope at 245 dps with samples
`[32767, -32768, 0]`, magnetometer samples `[2048, 0, 0]`, and 0 in the
register `getMagnetFS` reads. -/
def scenarioRegs (dev reg : Nat) : Nat :=
  if dev = 0x6b then
    (match reg with
     | 0x0f => 0x68
     | 0x20 => 0x08
     | 0x29 => 0x40
     | 0x2d => 0xc0
     | 0x18 => 0xff
     | 0x19 => 0x7f
     | 0x1b => 0x80
     | _ => 0)
  else if dev = 0x1e then
    (match reg with
     | 0x0f => 0x3d
     | 0x29 => 0x08
     | _ => 0)
  else 0

/-- The reference bus of the worked scenarios, both devices responding. -/
def scenarioBus : SimBus := SimBus.idle scenarioRegs (fun _ => true) (fun _ => true)


/-- Register contents for the zero-point scenario: accelerometer at ±16 g with
samples `[2048, 0, 0]` (1 g on X), gyroscope at 2000 dps with samples
`[4096, 0, 0]` (250 dps on X), magnetometer samples `[2048, 0, 0]` and 0 in
the register `getMagnetFS` reads (25 µT on X). -/
def zeroPointRegs (dev reg : Nat) : Nat :=
  if dev = 0x6b then
    (match reg with
     | 0x20 => 0x08
     | 0x29 => 0x08
     | 0x10 => 0x18
     | 0x19 => 0x10
     | _ => 0)
  else if dev = 0x1e then
    (match reg with
     | 0x29 => 0x08
     | _ => 0)
  else 0

/-- The reference bus of the zero-point scenario, both devices responding. -/
def zeroPointBus : SimBus := SimBus.idle zeroPointRegs (fun _ => true) (fun _ => true)

/-- A reference bus on which no device acknowledges its address. -/
def nackBus : SimBus := SimBus.idle scenarioRegs (fun _ => false) (fun _ => false)

/-- A reference bus on which the magnetometer (0x1e) does not acknowledge while
the accelerometer/gyroscope device responds. -/
def magnetNackBus : SimBus := SimBus.idle scenarioRegs (fun a => a != 0x1e) (fun _ => true)

/-- Some previous content of the stack slot of `int16_t data[3]`: the samples
`[0x1234, 0x5678, -1]`. -/
def staleStack : List Nat := [0x34, 0x12, 0x78, 0x56, 0xff, 0xff]

/-- The bus state in which `begin` performs its first `WHO_AM_I` read: after
`_wire->begin()` and the two reset writes. -/
def begin.afterReset (w : TwoWire σ) (s : σ) : σ :=
  (writeRegister w LSM9DS1_ADDRESS_M LSM9DS1_CTRL_REG2_M 0x0c
    (writeRegister w LSM9DS1_ADDRESS LSM9DS1_CTRL_REG8 0x05 (w.begin s)).2).2

/-- The operating configuration `begin` writes after the identity check:
0x78 to `CTRL_REG1_G`, 0x70 to `CTRL_REG6_XL`, 0xb4 to `CTRL_REG1_M`. -/
def begin.configuration : List (Nat × Nat × Nat) :=
  [(LSM9DS1_ADDRESS, LSM9DS1_CTRL_REG1_G, 0x78),
   (LSM9DS1_ADDRESS, LSM9DS1_CTRL_REG6_XL, 0x70),
   (LSM9DS1_ADDRESS_M, LSM9DS1_CTRL_REG1_M, 0xb4)]

/-- The Wire calls one `readRegister(slaveAddress, address)` makes from the bus
state `s`: it stops after `endTransmission` or after `requestFrom` when that
call reports a failure. -/
def readRegister.calls (w : TwoWire σ) (slaveAddress address : Nat) (s : σ) : List WireCall :=
  let s := w.beginTransmission slaveAddress s
  let s := w.write address s
  let (e, s) := w.endTransmission true s
  if e ≠ 0 then
    [.beginTransmission slaveAddress, .write address, .endTransmission true]
  else
    let (n, _) := w.requestFrom slaveAddress 1 s
    if n ≠ 1 then
      [.beginTransmission slaveAddress, .write address, .endTransmission true,
        .requestFrom slaveAddress 1]
    else
      [.beginTransmission slaveAddress, .write address, .endTransmission true,
        .requestFrom slaveAddress 1, .read]

/-- A reference bus on which the device at 0x6b acknowledges its address but
delivers no byte on request: register reads fail, register writes succeed. -/
def readFaultBus : SimBus := SimBus.idle scenarioRegs (fun _ => true) (fun _ => false)

/-- A reference bus on which register 0x21 of either device holds 0x80 (bit 7
set, full-scale field clear), both devices responding. -/
def highBitBus : SimBus :=
  SimBus.idle (fun _ reg => if reg = 0x21 then 0x80 else 0) (fun _ => true) (fun _ => true)

/-- A reference bus on which every register holds 0xff, both devices
responding. -/
def allOnesBus : SimBus := SimBus.idle (fun _ _ => 0xff) (fun _ => true) (fun _ => true)

/-- A bus whose register writes take effect and whose reads return the last
byte written, on the bus states satisfying `ok` (kept by the operations) and
for 7-bit register addresses: a register reads back the byte just written to
it, and a write to another register does not change what a register reads. -/
structure LastWriteBus (w : TwoWire σ) (ok : σ → Prop) : Prop where
  begin_ok : ∀ s, ok s → ok (w.begin s)
  write_ok : ∀ s a reg v, ok s → ok (writeRegister w a reg v s).2
  read_ok : ∀ s a reg, ok s → ok (readRegister w a reg s).2
  read_written : ∀ s a reg v, ok s → reg < 128 → v < 256 →
    (readRegister w a reg (writeRegister w a reg v s).2).1 = (v : Int)
  read_other : ∀ s a reg a2 reg2 v, ok s → reg < 128 → reg2 < 128 → (a ≠ a2 ∨ reg ≠ reg2) →
    (readRegister w a reg (writeRegister w a2 reg2 v s).2).1 = (readRegister w a reg s).1

/-- Reference bus states in which every device acknowledges and answers. -/
def SimBus.responding (s : SimBus) : Prop :=
  (∀ a, s.acks a = true) ∧ ∀ a, s.answers a = true

/-- A reference bus on which the magnetometer's `CTRL_REG2_M` (device 0x1e,
register 0x21) holds 0x60, full scale code 3, and every other register 0;
both devices responding. -/
def magnetFSBus : SimBus :=
  SimBus.idle (fun dev reg => if dev = 0x1e ∧ reg = 0x21 then 0x60 else 0)
    (fun _ => true) (fun _ => true)

/-! ## Binary32 arithmetic

The source computes in `float`. The definitions below are IEEE 754 binary32
with round-to-nearest, ties-to-even: every operation takes the exact result
as a fraction of naturals and rounds it once. -/

/-- A binary32 value: `fin neg m e` is `(-1)^neg * m * 2^e`, kept with `m`
odd, or `m = 0` and `e = 0` for the two zeros; the infinities; NaN. -/
inductive F32 where
  | fin (neg : Bool) (m : Nat) (e : Int) : F32
  | inf (neg : Bool) : F32
  | nan : F32
  deriving DecidableEq

/-- Number of binary digits of `n` (0 for 0), counted in at most `fuel`
halvings. -/
def F32.bits : Nat → Nat → Nat
  | 0, _ => 0
  | fuel + 1, n => if n = 0 then 0 else F32.bits fuel (n / 2) + 1

/-- Number of binary digits of `n`: `2 ^ (size n - 1) ≤ n < 2 ^ size n` for
positive `n`. -/
def F32.size (n : Nat) : Nat := F32.bits n n

/-- The value `k * 2^q` with the trailing zero bits of `k` moved into the
exponent (`k` at most `2^24`). -/
def F32.normal (neg : Bool) (k : Nat) (q : Int) : F32 :=
  if k = 0 then .fin neg 0 0
  else .fin neg (k / Nat.gcd k (2 ^ 24)) (q + ((F32.size (Nat.gcd k (2 ^ 24)) : Nat) : Int) - 1)

/-- Rounds the exact value `n / d` (`d` positive), of sign `neg`, to binary32:
24 significant bits, quantum at least `2^-149`, nearest with ties to even,
infinity from `2^128` on. -/
def F32.round (neg : Bool) (n d : Nat) : F32 :=
  if n = 0 then .fin neg 0 0
  else
    let E0 : Int := ((F32.size n : Nat) : Int) - ((F32.size d : Nat) : Int)
    let E : Int := if n * 2 ^ (-E0).toNat < d * 2 ^ E0.toNat then E0 - 1 else E0
    let q : Int := max (E - 23) (-149)
    let N := n * 2 ^ (-q).toNat
    let D := d * 2 ^ q.toNat
    let k := N / D
    let r := N % D
    let k := if D < 2 * r ∨ (2 * r = D ∧ k % 2 = 1) then k + 1 else k
    if 2 ^ 128 ≤ k * 2 ^ q.toNat then .inf neg else F32.normal neg k q

/-- Conversion of an integer (an `int16_t` sample, an integer literal). -/
def F32.ofInt (i : Int) : F32 := F32.round (decide (i < 0)) i.natAbs 1

/-- Sign change. -/
def F32.neg : F32 → F32
  | .fin a m e => .fin (!a) m e
  | .inf a => .inf (!a)
  | .nan => .nan

/-- Product in binary32. -/
def F32.mul : F32 → F32 → F32
  | .nan, _ => .nan
  | _, .nan => .nan
  | .inf a, .inf b => .inf (xor a b)
  | .inf a, .fin b m _ => if m = 0 then .nan else .inf (xor a b)
  | .fin a m _, .inf b => if m = 0 then .nan else .inf (xor a b)
  | .fin a m1 e1, .fin b m2 e2 =>
    F32.round (xor a b) (m1 * m2 * 2 ^ (e1 + e2).toNat) (2 ^ (-(e1 + e2)).toNat)

/-- Quotient in binary32. -/
def F32.div : F32 → F32 → F32
  | .nan, _ => .nan
  | _, .nan => .nan
  | .inf _, .inf _ => .nan
  | .inf a, .fin b _ _ => .inf (xor a b)
  | .fin a _ _, .inf b => .fin (xor a b) 0 0
  | .fin a m1 e1, .fin b m2 e2 =>
    if m2 = 0 then (if m1 = 0 then .nan else .inf (xor a b))
    else F32.round (xor a b) (m1 * 2 ^ (e1 - e2).toNat) (m2 * 2 ^ (e2 - e1).toNat)

/-- Sum in binary32; an exact zero sum of opposite signs is `+0`. -/
def F32.add : F32 → F32 → F32
  | .nan, _ => .nan
  | _, .nan => .nan
  | .inf a, .inf b => if a = b then .inf a else .nan
  | .inf a, .fin _ _ _ => .inf a
  | .fin _ _ _, .inf b => .inf b
  | .fin a m1 e1, .fin b m2 e2 =>
    let e := min e1 e2
    let x : Int := (if a then -1 else 1) * ((m1 * 2 ^ (e1 - e).toNat : Nat) : Int)
    let y : Int := (if b then -1 else 1) * ((m2 * 2 ^ (e2 - e).toNat : Nat) : Int)
    if x + y = 0 then .fin (a && b) 0 0
    else F32.round (decide (x + y < 0)) ((x + y).natAbs * 2 ^ e.toNat) (2 ^ (-e).toNat)

/-- Difference in binary32. -/
def F32.sub (a b : F32) : F32 := F32.add a (F32.neg b)

/-- The rational value of a finite binary32 number. -/
def F32.toRat : F32 → Option ℚ
  | .fin a m e => some ((if a then -1 else 1) * (m : ℚ) * (2 : ℚ) ^ e)
  | _ => none

/-- Both zeros. -/
def F32.isZero : F32 → Bool
  | .fin _ m _ => decide (m = 0)
  | _ => false

/-- Finite values. -/
def F32.isFinite : F32 → Bool
  | .fin _ _ _ => true
  | _ => false

/-- Finite values of magnitude at least `2^-126`, the smallest normal
binary32 number: `m * 2^e ≥ 2^-126`, compared as naturals. -/
def F32.isNormal : F32 → Bool
  | .fin _ m e => decide (2 ^ (-(e + 126)).toNat ≤ m * 2 ^ (e + 126).toNat)
  | _ => false

/-! ## The calibrated channels in binary32

The same source functions as above with every `float` operation rounded to
binary32, in place of exact rationals. `getAccelFS() / 32768.0` is a `double`
division stored into a `float`: the `double` quotient is exact, so the stored
value is the quotient rounded once to binary32. For every table full-scale
value and every `int16_t` sample the product `scale * data[i]` is exact, so a
fused multiply-subtract would give the same result as the two operations. -/

namespace Binary32

/-- The calibration members of `LSM9DS1Class`, as `float`s. -/
structure LSM9DS1Class where
  continuousMode : Bool
  accelOffset : Fin 3 → F32
  accelSlope : Fin 3 → F32
  accelUnit : F32
  gyroOffset : Fin 3 → F32
  gyroSlope : Fin 3 → F32
  gyroUnit : F32
  magnetOffset : Fin 3 → F32
  magnetSlope : Fin 3 → F32
  magnetUnit : F32

/-- What a `read...(float& x, float& y, float& z)` call hands back. -/
structure Reading where
  ret : Int
  x : F32
  y : F32
  z : F32
  deriving DecidableEq

/-- Output `x`, `y` or `z` of a reading, by axis number. -/
def Reading.axis (r : Reading) (i : Fin 3) : F32 := ![r.x, r.y, r.z] i

/-- The table `ranges` of `getAccelFS` (g). -/
def getAccelFS.ranges : List F32 := [F32.ofInt 2, F32.ofInt 16, F32.ofInt 4, F32.ofInt 8]

/-- Embeds `LSM9DS1Class::getAccelFS`. -/
def getAccelFS (w : TwoWire σ) (s : σ) : Option F32 × σ :=
  let (r, s) := readRegister w LSM9DS1_ADDRESS LSM9DS1_CTRL_REG6_XL s
  (getAccelFS.ranges[LSM9DS1.getAccelFS.setting r]?, s)

/-- The scaled sample `scale * data[i]` of the read functions, with
`scale = fs / 32768.0`. -/
def scaled (fs : F32) (sample : Int) : F32 :=
  F32.mul (F32.div fs (F32.ofInt 32768)) (F32.ofInt sample)

/-- The offset-corrected sample `scale * data[i] - offset` of the read
functions. -/
def corrected (fs : F32) (sample : Int) (offset : F32) : F32 :=
  F32.sub (scaled fs sample) offset

/-- Embeds `LSM9DS1Class::readAccel`; `data` is the content of the
uninitialised local array on entry. -/
def readAccel (w : TwoWire σ) (self : LSM9DS1Class) (data : List Nat) (s : σ) :
    Option Reading × σ :=
  let (r, data, s) := readRegisters w LSM9DS1_ADDRESS LSM9DS1_OUT_X_XL data 6 s
  if r = 0 then (some ⟨0, .nan, .nan, .nan⟩, s)
  else
    let (fs, s) := getAccelFS w s
    match fs with
    | none => (none, s)
    | some fs =>
      (some ⟨1,
        F32.mul (F32.mul self.accelUnit (self.accelSlope 0))
          (corrected fs (int16At data 0) (self.accelOffset 0)),
        F32.mul (F32.mul self.accelUnit (self.accelSlope 1))
          (corrected fs (int16At data 1) (self.accelOffset 1)),
        F32.mul (F32.mul self.accelUnit (self.accelSlope 2))
          (corrected fs (int16At data 2) (self.accelOffset 2))⟩,
       s)

/-- Embeds `LSM9DS1Class::setAccelOffset`: three assignments, each a division
by `accelUnit * accelSlope[i]`. -/
def setAccelOffset (self : LSM9DS1Class) (x y z : F32) : LSM9DS1Class :=
  { self with accelOffset :=
      ![F32.div x (F32.mul self.accelUnit (self.accelSlope 0)),
        F32.div y (F32.mul self.accelUnit (self.accelSlope 1)),
        F32.div z (F32.mul self.accelUnit (self.accelSlope 2))] }

/-- Embeds `LSM9DS1Class::setAccelSlope`. -/
def setAccelSlope (self : LSM9DS1Class) (x y z : F32) : LSM9DS1Class :=
  { self with accelSlope := ![x, y, z] }

/-- The table `Ranges` of `getGyroFS` (dps). -/
def getGyroFS.Ranges : List F32 :=
  [F32.ofInt 245, F32.ofInt 500, F32.ofInt 1000, F32.ofInt 2000]

/-- Embeds `LSM9DS1Class::getGyroFS`. -/
def getGyroFS (w : TwoWire σ) (s : σ) : Option F32 × σ :=
  let (r, s) := readRegister w LSM9DS1_ADDRESS LSM9DS1_CTRL_REG1_G s
  (getGyroFS.Ranges[LSM9DS1.getGyroFS.setting r]?, s)

/-- Embeds `LSM9DS1Class::readGyro`. -/
def readGyro (w : TwoWire σ) (self : LSM9DS1Class) (data : List Nat) (s : σ) :
    Option Reading × σ :=
  let (r, data, s) := readRegisters w LSM9DS1_ADDRESS LSM9DS1_OUT_X_G data 6 s
  if r = 0 then (some ⟨0, .nan, .nan, .nan⟩, s)
  else
    let (fs, s) := getGyroFS w s
    match fs with
    | none => (none, s)
    | some fs =>
      (some ⟨1,
        F32.mul (F32.mul self.gyroUnit (self.gyroSlope 0))
          (corrected fs (int16At data 0) (self.gyroOffset 0)),
        F32.mul (F32.mul self.gyroUnit (self.gyroSlope 1))
          (corrected fs (int16At data 1) (self.gyroOffset 1)),
        F32.mul (F32.mul self.gyroUnit (self.gyroSlope 2))
          (corrected fs (int16At data 2) (self.gyroOffset 2))⟩,
       s)

/-- Embeds `LSM9DS1Class::setGyroOffset`. -/
def setGyroOffset (self : LSM9DS1Class) (x y z : F32) : LSM9DS1Class :=
  { self with gyroOffset :=
      ![F32.div x (F32.mul self.gyroUnit (self.gyroSlope 0)),
        F32.div y (F32.mul self.gyroUnit (self.gyroSlope 1)),
        F32.div z (F32.mul self.gyroUnit (self.gyroSlope 2))] }

/-- Embeds `LSM9DS1Class::setGyroSlope`. -/
def setGyroSlope (self : LSM9DS1Class) (x y z : F32) : LSM9DS1Class :=
  { self with gyroSlope := ![x, y, z] }

/-- The table `Ranges` of `getMagnetFS` (µT). -/
def getMagnetFS.Ranges : List F32 :=
  [F32.ofInt 400, F32.ofInt 800, F32.ofInt 1200, F32.ofInt 1600]

/-- Embeds `LSM9DS1Class::getMagnetFS` (register read from `LSM9DS1_ADDRESS`,
as written in the source). -/
def getMagnetFS (w : TwoWire σ) (s : σ) : Option F32 × σ :=
  let (r, s) := readRegister w LSM9DS1_ADDRESS LSM9DS1_CTRL_REG2_M s
  (getMagnetFS.Ranges[LSM9DS1.getMagnetFS.setting r]?, s)

/-- Embeds `LSM9DS1Class::readMagneticField`. -/
def readMagneticField (w : TwoWire σ) (self : LSM9DS1Class) (data : List Nat) (s : σ) :
    Option Reading × σ :=
  let (r, data, s) := readRegisters w LSM9DS1_ADDRESS_M LSM9DS1_OUT_X_L_M data 6 s
  if r = 0 then (some ⟨0, .nan, .nan, .nan⟩, s)
  else
    let (fs, s) := getMagnetFS w s
    match fs with
    | none => (none, s)
    | some fs =>
      (some ⟨1,
        F32.mul (F32.mul self.magnetUnit (self.magnetSlope 0))
          (corrected fs (int16At data 0) (self.magnetOffset 0)),
        F32.mul (F32.mul self.magnetUnit (self.magnetSlope 1))
          (corrected fs (int16At data 1) (self.magnetOffset 1)),
        F32.mul (F32.mul self.magnetUnit (self.magnetSlope 2))
          (corrected fs (int16At data 2) (self.magnetOffset 2))⟩,
       s)

/-- Embeds `LSM9DS1Class::setMagnetOffset`. -/
def setMagnetOffset (self : LSM9DS1Class) (x y z : F32) : LSM9DS1Class :=
  { self with magnetOffset :=
      ![F32.div x (F32.mul self.magnetUnit (self.magnetSlope 0)),
        F32.div y (F32.mul self.magnetUnit (self.magnetSlope 1)),
        F32.div z (F32.mul self.magnetUnit (self.magnetSlope 2))] }

/-- Embeds `LSM9DS1Class::setMagnetSlope`. -/
def setMagnetSlope (self : LSM9DS1Class) (x y z : F32) : LSM9DS1Class :=
  { self with magnetSlope := ![x, y, z] }

/-- The calibration `self` with the three offsets of every channel at `+0`. -/
def zeroOffsets (self : LSM9DS1Class) : LSM9DS1Class :=
  { self with
    accelOffset := fun _ => .fin false 0 0,
    gyroOffset := fun _ => .fin false 0 0,
    magnetOffset := fun _ => .fin false 0 0 }

/-- Identity calibration: unit 1, slopes 1, offsets 0 on all three channels. -/
def identityCal : LSM9DS1Class :=
  { continuousMode := false,
    accelOffset := fun _ => F32.ofInt 0, accelSlope := fun _ => F32.ofInt 1,
    accelUnit := F32.ofInt 1,
    gyroOffset := fun _ => F32.ofInt 0, gyroSlope := fun _ => F32.ofInt 1,
    gyroUnit := F32.ofInt 1,
    magnetOffset := fun _ => F32.ofInt 0, magnetSlope := fun _ => F32.ofInt 1,
    magnetUnit := F32.ofInt 1 }

/-- A calibration with unit `9.81f` and slopes `1.1f`, `0.9f`, `1.3f` on every
channel, offsets 0. -/
def skewCal : LSM9DS1Class :=
  { continuousMode := false,
    accelOffset := fun _ => F32.ofInt 0,
    accelSlope := ![F32.round false 11 10, F32.round false 9 10, F32.round false 13 10],
    accelUnit := F32.round false 981 100,
    gyroOffset := fun _ => F32.ofInt 0,
    gyroSlope := ![F32.round false 11 10, F32.round false 9 10, F32.round false 13 10],
    gyroUnit := F32.round false 981 100,
    magnetOffset := fun _ => F32.ofInt 0,
    magnetSlope := ![F32.round false 11 10, F32.round false 9 10, F32.round false 13 10],
    magnetUnit := F32.round false 981 100 }

end Binary32

/-- Register contents for the rounding scenarios: accelerometer at ±16 g with
samples `[-16383, 1000, 6144]`, gyroscope at 2000 dps with samples
`[-128, 1000, 0]`, magnetometer samples `[-655, 1000, 0]` and 0 (400 µT) in
the register `getMagnetFS` reads. -/
def roundingRegs (dev reg : Nat) : Nat :=
  if dev = 0x6b then
    (match reg with
     | 0x20 => 0x08
     | 0x28 => 0x01
     | 0x29 => 0xc0
     | 0x2a => 0xe8
     | 0x2b => 0x03
     | 0x2c => 0x00
     | 0x2d => 0x18
     | 0x10 => 0x18
     | 0x18 => 0x80
     | 0x19 => 0xff
     | 0x1a => 0xe8
     | 0x1b => 0x03
     | _ => 0)
  else if dev = 0x1e then
    (match reg with
     | 0x28 => 0x71
     | 0x29 => 0xfd
     | 0x2a => 0xe8
     | 0x2b => 0x03
     | _ => 0)
  else 0

/-- The reference bus of the rounding scenarios, both devices responding. -/
def roundingBus : SimBus := SimBus.idle roundingRegs (fun _ => true) (fun _ => true)

/-! ## Shared lemmas -/

theorem int_byte_cases {P : Int → Prop} (h : ∀ n : Nat, n < 256 → P (n : Int))
    (r : Int) (h0 : 0 ≤ r) (h1 : r ≤ 255) : P r := by
  obtain ⟨n, rfl⟩ := Int.eq_ofNat_of_zero_le h0
  exact h n (by omega)

theorem readAccel_of_burst (w : TwoWire σ) (self : LSM9DS1Class) (data bytes : List Nat)
    (s s1 : σ) (F : ℚ) (r : Int) (hr : r ≠ 0)
    (hb : readRegisters w LSM9DS1_ADDRESS LSM9DS1_OUT_X_XL data 6 s = (r, bytes, s1))
    (hF : (getAccelFS w s1).1 = some F) :
    (readAccel w self data s).1 = some ⟨1,
      .num (specConvert self.accelUnit self.accelSlope self.accelOffset F (samples bytes) 0),
      .num (specConvert self.accelUnit self.accelSlope self.accelOffset F (samples bytes) 1),
      .num (specConvert self.accelUnit self.accelSlope self.accelOffset F (samples bytes) 2)⟩ := by
  rcases hg : getAccelFS w s1 with ⟨fs, s2⟩
  rw [hg] at hF
  simp only at hF
  subst hF
  simp [readAccel, hb, hg, hr, specConvert, samples]

theorem readGyro_of_burst (w : TwoWire σ) (self : LSM9DS1Class) (data bytes : List Nat)
    (s s1 : σ) (F : ℚ) (r : Int) (hr : r ≠ 0)
    (hb : readRegisters w LSM9DS1_ADDRESS LSM9DS1_OUT_X_G data 6 s = (r, bytes, s1))
    (hF : (getGyroFS w s1).1 = some F) :
    (readGyro w self data s).1 = some ⟨1,
      .num (specConvert self.gyroUnit self.gyroSlope self.gyroOffset F (samples bytes) 0),
      .num (specConvert self.gyroUnit self.gyroSlope self.gyroOffset F (samples bytes) 1),
      .num (specConvert self.gyroUnit self.gyroSlope self.gyroOffset F (samples bytes) 2)⟩ := by
  rcases hg : getGyroFS w s1 with ⟨fs, s2⟩
  rw [hg] at hF
  simp only at hF
  subst hF
  simp [readGyro, hb, hg, hr, specConvert, samples]

theorem readMagneticField_of_burst (w : TwoWire σ) (self : LSM9DS1Class)
    (data bytes : List Nat) (s s1 : σ) (F : ℚ) (r : Int) (hr : r ≠ 0)
    (hb : readRegisters w LSM9DS1_ADDRESS_M LSM9DS1_OUT_X_L_M data 6 s = (r, bytes, s1))
    (hF : (getMagnetFS w s1).1 = some F) :
    (readMagneticField w self data s).1 = some ⟨1,
      .num (specConvert self.magnetUnit self.magnetSlope self.magnetOffset F (samples bytes) 0),
      .num (specConvert self.magnetUnit self.magnetSlope self.magnetOffset F (samples bytes) 1),
      .num (specConvert self.magnetUnit self.magnetSlope self.magnetOffset F (samples bytes) 2)⟩ := by
  rcases hg : getMagnetFS w s1 with ⟨fs, s2⟩
  rw [hg] at hF
  simp only at hF
  subst hF
  simp [readMagneticField, hb, hg, hr, specConvert, samples]

/-! ## Binary32: shared lemmas -/

theorem F32.sub_self_fin (a : Bool) (m : Nat) (e : Int) :
    F32.sub (.fin a m e) (.fin a m e) = .fin false 0 0 := by
  cases a <;> simp [F32.sub, F32.neg, F32.add]

theorem F32.mul_isZero (M d : F32) (hM : M.isFinite = true) (hd : d.isZero = true) :
    (F32.mul M d).isZero = true := by
  cases M with
  | fin a m1 e1 =>
    cases d with
    | fin b m2 e2 =>
      have h0 : m2 = 0 := by simpa [F32.isZero] using hd
      subst h0
      simp [F32.mul, F32.round, F32.isZero]
    | inf b => simp [F32.isZero] at hd
    | nan => simp [F32.isZero] at hd
  | inf a => simp [F32.isFinite] at hM
  | nan => simp [F32.isFinite] at hM

theorem F32.sub_self_isZero (x : F32) (hx : x.isFinite = true) :
    (F32.sub x x).isZero = true := by
  cases x with
  | fin a m e => rw [F32.sub_self_fin]; rfl
  | inf a => simp [F32.isFinite] at hx
  | nan => simp [F32.isFinite] at hx

theorem Binary32.readAccel_of_burst32 (w : TwoWire σ) (self : Binary32.LSM9DS1Class)
    (data bytes : List Nat) (s s1 : σ) (F : F32)
    (hb : readRegisters w LSM9DS1_ADDRESS LSM9DS1_OUT_X_XL data 6 s = (1, bytes, s1))
    (hF : (Binary32.getAccelFS w s1).1 = some F) :
    (Binary32.readAccel w self data s).1 = some ⟨1,
      F32.mul (F32.mul self.accelUnit (self.accelSlope 0))
        (Binary32.corrected F (samples bytes 0) (self.accelOffset 0)),
      F32.mul (F32.mul self.accelUnit (self.accelSlope 1))
        (Binary32.corrected F (samples bytes 1) (self.accelOffset 1)),
      F32.mul (F32.mul self.accelUnit (self.accelSlope 2))
        (Binary32.corrected F (samples bytes 2) (self.accelOffset 2))⟩ := by
  rcases hg : Binary32.getAccelFS w s1 with ⟨fs, s2⟩
  rw [hg] at hF
  simp only at hF
  subst hF
  simp [Binary32.readAccel, hb, hg, samples]

theorem Binary32.readGyro_of_burst32 (w : TwoWire σ) (self : Binary32.LSM9DS1Class)
    (data bytes : List Nat) (s s1 : σ) (F : F32)
    (hb : readRegisters w LSM9DS1_ADDRESS LSM9DS1_OUT_X_G data 6 s = (1, bytes, s1))
    (hF : (Binary32.getGyroFS w s1).1 = some F) :
    (Binary32.readGyro w self data s).1 = some ⟨1,
      F32.mul (F32.mul self.gyroUnit (self.gyroSlope 0))
        (Binary32.corrected F (samples bytes 0) (self.gyroOffset 0)),
      F32.mul (F32.mul self.gyroUnit (self.gyroSlope 1))
        (Binary32.corrected F (samples bytes 1) (self.gyroOffset 1)),
      F32.mul (F32.mul self.gyroUnit (self.gyroSlope 2))
        (Binary32.corrected F (samples bytes 2) (self.gyroOffset 2))⟩ := by
  rcases hg : Binary32.getGyroFS w s1 with ⟨fs, s2⟩
  rw [hg] at hF
  simp only at hF
  subst hF
  simp [Binary32.readGyro, hb, hg, samples]

theorem Binary32.readMagneticField_of_burst32 (w : TwoWire σ) (self : Binary32.LSM9DS1Class)
    (data bytes : List Nat) (s s1 : σ) (F : F32)
    (hb : readRegisters w LSM9DS1_ADDRESS_M LSM9DS1_OUT_X_L_M data 6 s = (1, bytes, s1))
    (hF : (Binary32.getMagnetFS w s1).1 = some F) :
    (Binary32.readMagneticField w self data s).1 = some ⟨1,
      F32.mul (F32.mul self.magnetUnit (self.magnetSlope 0))
        (Binary32.corrected F (samples bytes 0) (self.magnetOffset 0)),
      F32.mul (F32.mul self.magnetUnit (self.magnetSlope 1))
        (Binary32.corrected F (samples bytes 1) (self.magnetOffset 1)),
      F32.mul (F32.mul self.magnetUnit (self.magnetSlope 2))
        (Binary32.corrected F (samples bytes 2) (self.magnetOffset 2))⟩ := by
  rcases hg : Binary32.getMagnetFS w s1 with ⟨fs, s2⟩
  rw [hg] at hF
  simp only at hF
  subst hF
  simp [Binary32.readMagneticField, hb, hg, samples]

set_option maxRecDepth 100000 in
theorem roundingBus_accel_burst :
    readRegisters simWire LSM9DS1_ADDRESS LSM9DS1_OUT_X_XL [0, 0, 0, 0, 0, 0] 6 roundingBus
      = (1, [0x01, 0xc0, 0xe8, 0x03, 0x00, 0x18],
          (readRegisters simWire LSM9DS1_ADDRESS LSM9DS1_OUT_X_XL [0, 0, 0, 0, 0, 0] 6
            roundingBus).2.2)
    ∧ (Binary32.getAccelFS simWire (readRegisters simWire LSM9DS1_ADDRESS LSM9DS1_OUT_X_XL
        [0, 0, 0, 0, 0, 0] 6 roundingBus).2.2).1 = some (F32.ofInt 16)
    ∧ samples [0x01, 0xc0, 0xe8, 0x03, 0x00, 0x18] = ![-16383, 1000, 6144] := by
  refine ⟨rfl, by decide!, ?_⟩
  funext i
  fin_cases i <;> decide

set_option maxRecDepth 100000 in
theorem zeroPointBus_bursts :
    (readRegisters simWire LSM9DS1_ADDRESS LSM9DS1_OUT_X_XL [0, 0, 0, 0, 0, 0] 6 zeroPointBus
        = (1, [0x00, 0x08, 0x00, 0x00, 0x00, 0x00],
            (readRegisters simWire LSM9DS1_ADDRESS LSM9DS1_OUT_X_XL [0, 0, 0, 0, 0, 0] 6
              zeroPointBus).2.2)
      ∧ (Binary32.getAccelFS simWire (readRegisters simWire LSM9DS1_ADDRESS LSM9DS1_OUT_X_XL
          [0, 0, 0, 0, 0, 0] 6 zeroPointBus).2.2).1 = some (F32.ofInt 16))
    ∧ (readRegisters simWire LSM9DS1_ADDRESS LSM9DS1_OUT_X_G [0, 0, 0, 0, 0, 0] 6 zeroPointBus
        = (1, [0x00, 0x10, 0x00, 0x00, 0x00, 0x00],
            (readRegisters simWire LSM9DS1_ADDRESS LSM9DS1_OUT_X_G [0, 0, 0, 0, 0, 0] 6
              zeroPointBus).2.2)
      ∧ (Binary32.getGyroFS simWire (readRegisters simWire LSM9DS1_ADDRESS LSM9DS1_OUT_X_G
          [0, 0, 0, 0, 0, 0] 6 zeroPointBus).2.2).1 = some (F32.ofInt 2000))
    ∧ (readRegisters simWire LSM9DS1_ADDRESS_M LSM9DS1_OUT_X_L_M [0, 0, 0, 0, 0, 0] 6
          zeroPointBus
        = (1, [0x00, 0x08, 0x00, 0x00, 0x00, 0x00],
            (readRegisters simWire LSM9DS1_ADDRESS_M LSM9DS1_OUT_X_L_M [0, 0, 0, 0, 0, 0] 6
              zeroPointBus).2.2)
      ∧ (Binary32.getMagnetFS simWire (readRegisters simWire LSM9DS1_ADDRESS_M
          LSM9DS1_OUT_X_L_M [0, 0, 0, 0, 0, 0] 6 zeroPointBus).2.2).1 = some (F32.ofInt 400)) := by
  refine ⟨⟨rfl, by decide!⟩, ⟨rfl, by decide!⟩, ⟨rfl, by decide!⟩⟩

/-! ## Binary32: the error of one rounded operation

`F32.round` returns the neighbour of the exact value: when the result is a
normal number, it differs from the exact value by at most `2^-24` times its
own magnitude (`F32.round_error`), and so do the results of `F32.mul`,
`F32.div`, `F32.add` and `F32.sub`. -/

theorem F32.bits_spec : ∀ (fuel n : Nat), n ≤ fuel → 0 < n →
    2 ^ (F32.bits fuel n - 1) ≤ n ∧ n < 2 ^ F32.bits fuel n := by
  intro fuel
  induction fuel with
  | zero => intro n h1 h2; omega
  | succ f ih =>
    intro n h1 h2
    have hn : n ≠ 0 := by omega
    simp only [F32.bits, if_neg hn, Nat.add_sub_cancel]
    by_cases h : n / 2 = 0
    · have h1n : n = 1 := by omega
      subst h1n
      cases f <;> simp [F32.bits]
    · have hpos : 0 < n / 2 := Nat.pos_of_ne_zero h
      have hle : n / 2 ≤ f := by omega
      obtain ⟨ih1, ih2⟩ := ih (n / 2) hle hpos
      have hb : 1 ≤ F32.bits f (n / 2) := by
        by_contra hc
        have : F32.bits f (n / 2) = 0 := by omega
        rw [this] at ih2
        simp at ih2
        omega
      have e1 : 2 ^ F32.bits f (n / 2) = 2 * 2 ^ (F32.bits f (n / 2) - 1) := by
        rw [← pow_succ']
        congr 1
        omega
      constructor
      · rw [e1]; omega
      · rw [pow_succ]; omega

theorem F32.size_spec (n : Nat) (h : 0 < n) :
    2 ^ (F32.size n - 1) ≤ n ∧ n < 2 ^ F32.size n :=
  F32.bits_spec n n le_rfl h

theorem F32.size_pos (n : Nat) (h : 0 < n) : 1 ≤ F32.size n := by
  by_contra hc
  have h0 : F32.size n = 0 := by omega
  have := (F32.size_spec n h).2
  rw [h0] at this
  simp at this
  omega

theorem F32.size_two_pow (t : Nat) : F32.size (2 ^ t) = t + 1 := by
  obtain ⟨h1, h2⟩ := F32.size_spec (2 ^ t) (by positivity)
  have a : F32.size (2 ^ t) - 1 ≤ t := (Nat.pow_le_pow_iff_right (by norm_num)).1 h1
  have b : t < F32.size (2 ^ t) := (Nat.pow_lt_pow_iff_right (by norm_num)).1 h2
  omega

theorem F32.two_zpow (z : Int) :
    (2 : ℚ) ^ z = (2 : ℚ) ^ z.toNat / (2 : ℚ) ^ (-z).toNat := by
  rcases le_total 0 z with h | h
  · have h1 : (-z).toNat = 0 := Int.toNat_eq_zero.2 (by omega)
    have h2 : z = (z.toNat : Int) := (Int.toNat_of_nonneg h).symm
    rw [h1, pow_zero, div_one]
    conv_lhs => rw [h2]
    exact zpow_natCast 2 _
  · have h1 : z.toNat = 0 := Int.toNat_eq_zero.2 h
    have h2 : -z = ((-z).toNat : Int) := (Int.toNat_of_nonneg (by omega)).symm
    rw [h1, pow_zero, one_div, ← zpow_natCast, ← h2, zpow_neg, inv_inv]

theorem F32.nearest (N D : Nat) (hD : 0 < D) :
    |(((if D < 2 * (N % D) ∨ (2 * (N % D) = D ∧ N / D % 2 = 1) then N / D + 1 else N / D : Nat) : ℚ))
        - (N : ℚ) / D| ≤ 1 / 2
    ∧ N / D ≤ (if D < 2 * (N % D) ∨ (2 * (N % D) = D ∧ N / D % 2 = 1) then N / D + 1 else N / D) := by
  have hDq : (0 : ℚ) < D := by exact_mod_cast hD
  have hr : N % D < D := Nat.mod_lt _ hD
  have hN : (N : ℚ) = (D : ℚ) * ((N / D : Nat) : ℚ) + ((N % D : Nat) : ℚ) := by
    exact_mod_cast (Nat.div_add_mod N D).symm
  have hq : (N : ℚ) / D = ((N / D : Nat) : ℚ) + ((N % D : Nat) : ℚ) / D := by
    rw [hN]; field_simp; ring
  have hr0 : (0 : ℚ) ≤ ((N % D : Nat) : ℚ) / D := by positivity
  split_ifs with h
  · refine ⟨?_, Nat.le_succ _⟩
    have h2 : D ≤ 2 * (N % D) := by rcases h with h | h <;> omega
    have h2q : (D : ℚ) ≤ 2 * ((N % D : Nat) : ℚ) := by exact_mod_cast h2
    have hrq : ((N % D : Nat) : ℚ) < D := by exact_mod_cast hr
    have h3 : (1 : ℚ) / 2 ≤ ((N % D : Nat) : ℚ) / D := by
      rw [div_le_div_iff₀ (by norm_num) hDq]; linarith
    have h4 : ((N % D : Nat) : ℚ) / D < 1 := by
      rw [div_lt_one hDq]; exact hrq
    rw [hq, Nat.cast_add, Nat.cast_one, abs_le]
    constructor <;> linarith
  · refine ⟨?_, le_rfl⟩
    have h2 : 2 * (N % D) ≤ D := by
      by_contra hc
      exact h (Or.inl (by omega))
    have h2q : 2 * ((N % D : Nat) : ℚ) ≤ D := by exact_mod_cast h2
    have h3 : ((N % D : Nat) : ℚ) / D ≤ 1 / 2 := by
      rw [div_le_div_iff₀ hDq (by norm_num)]; linarith
    rw [hq, abs_le]
    constructor <;> linarith

theorem F32.normal_value (neg : Bool) (k : Nat) (q : Int) (hk : k ≠ 0) :
    ∃ m e, F32.normal neg k q = .fin neg m e ∧ (m : ℚ) * (2 : ℚ) ^ e = (k : ℚ) * (2 : ℚ) ^ q := by
  obtain ⟨t, -, ht⟩ := (Nat.dvd_prime_pow Nat.prime_two).1 (Nat.gcd_dvd_right k (2 ^ 24))
  have hdvd : 2 ^ t ∣ k := ht ▸ Nat.gcd_dvd_left k (2 ^ 24)
  refine ⟨k / 2 ^ t, q + t, ?_, ?_⟩
  · simp only [F32.normal, if_neg hk, ht, F32.size_two_pow]
    congr 1
    push_cast
    ring
  · obtain ⟨c, hc⟩ := hdvd
    have h2 : (2 : ℚ) ≠ 0 := by norm_num
    rw [hc, Nat.mul_div_cancel_left _ (by positivity), zpow_add₀ h2, zpow_natCast]
    push_cast
    ring

theorem F32.exponent_le (n d : Nat) (hn : 0 < n) (hd : 0 < d) (E0 : Int)
    (hE0 : E0 = ((F32.size n : Nat) : Int) - ((F32.size d : Nat) : Int)) :
    (2 : ℚ) ^ (if n * 2 ^ (-E0).toNat < d * 2 ^ E0.toNat then E0 - 1 else E0) ≤ (n : ℚ) / d := by
  have hdq : (0 : ℚ) < d := by exact_mod_cast hd
  have h2 : (2 : ℚ) ≠ 0 := by norm_num
  split_ifs with h
  · obtain ⟨hn1, -⟩ := F32.size_spec n hn
    obtain ⟨-, hd2⟩ := F32.size_spec d hd
    have hsn := F32.size_pos n hn
    have e1 : E0 - 1 = (((F32.size n - 1 : Nat) : Int)) - ((F32.size d : Nat) : Int) := by
      rw [hE0]; push_cast [hsn]; ring
    rw [e1, zpow_sub₀ h2, zpow_natCast, zpow_natCast, div_le_div_iff₀ (by positivity) hdq]
    have hn1q : (2 : ℚ) ^ (F32.size n - 1) ≤ n := by exact_mod_cast hn1
    have hd2q : (d : ℚ) ≤ 2 ^ F32.size d := by exact_mod_cast hd2.le
    have hnq : (0 : ℚ) ≤ n := by positivity
    calc (2 : ℚ) ^ (F32.size n - 1) * d ≤ n * d := by gcongr
      _ ≤ n * 2 ^ F32.size d := by gcongr
  · have h' : d * 2 ^ E0.toNat ≤ n * 2 ^ (-E0).toNat := Nat.le_of_not_lt h
    have hq : (d : ℚ) * 2 ^ E0.toNat ≤ n * 2 ^ (-E0).toNat := by exact_mod_cast h'
    rw [F32.two_zpow, div_le_div_iff₀ (by positivity) hdq]
    linarith

theorem F32.round_error (neg : Bool) (n d : Nat) (hn : 0 < n) (hd : 0 < d)
    (a : Bool) (m : Nat) (e : Int) (h : F32.round neg n d = .fin a m e)
    (hN : (2 : ℚ) ^ (-126 : Int) ≤ (m : ℚ) * (2 : ℚ) ^ e) :
    a = neg ∧ |(m : ℚ) * (2 : ℚ) ^ e - (n : ℚ) / d| ≤ (m : ℚ) * (2 : ℚ) ^ e / 2 ^ 24 := by
  have hn0 : n ≠ 0 := by omega
  unfold F32.round at h
  rw [if_neg hn0] at h
  set E0 : Int := ((F32.size n : Nat) : Int) - ((F32.size d : Nat) : Int) with hE0
  set E : Int := if n * 2 ^ (-E0).toNat < d * 2 ^ E0.toNat then E0 - 1 else E0 with hEdef
  set q : Int := max (E - 23) (-149) with hq
  set N : Nat := n * 2 ^ (-q).toNat with hNdef
  set D : Nat := d * 2 ^ q.toNat with hDdef
  set k0 : Nat := N / D with hk0
  set k : Nat := if D < 2 * (N % D) ∨ (2 * (N % D) = D ∧ k0 % 2 = 1) then k0 + 1 else k0
    with hkdef
  have h2 : (if 2 ^ 128 ≤ k * 2 ^ q.toNat then F32.inf neg else F32.normal neg k q)
      = F32.fin a m e := h
  clear h
  have hE : (2 : ℚ) ^ E ≤ (n : ℚ) / d := F32.exponent_le n d hn hd E0 rfl
  have hDpos : 0 < D := by positivity
  obtain ⟨hk1, hk2⟩ := F32.nearest N D hDpos
  change |((k : Nat) : ℚ) - (N : ℚ) / D| ≤ 1 / 2 at hk1
  change k0 ≤ k at hk2
  have hND : (N : ℚ) / D = (n : ℚ) / d / (2 : ℚ) ^ q := by
    have hdq : (d : ℚ) ≠ 0 := by positivity
    rw [F32.two_zpow q]
    simp only [N, D]
    push_cast
    field_simp
  split_ifs at h2 with hov
  by_cases hk : k = 0
  · exfalso
    simp only [F32.normal, if_pos hk] at h2
    injection h2 with _ hm he
    rw [← hm, Nat.cast_zero, zero_mul] at hN
    exact absurd hN (not_le.2 (by positivity))
  · obtain ⟨m', e', hm', hval⟩ := F32.normal_value neg k q hk
    rw [hm'] at h2
    injection h2 with ha hm he
    subst ha hm he
    refine ⟨rfl, ?_⟩
    rw [hval]
    have hq2 : (0 : ℚ) < (2 : ℚ) ^ q := by positivity
    have herr : |(k : ℚ) * (2 : ℚ) ^ q - (n : ℚ) / d| ≤ (2 : ℚ) ^ q / 2 := by
      have : (k : ℚ) * (2 : ℚ) ^ q - (n : ℚ) / d = ((k : ℚ) - (N : ℚ) / D) * (2 : ℚ) ^ q := by
        rw [hND]; field_simp; ring
      rw [this, abs_mul, abs_of_pos hq2]
      calc |(k : ℚ) - (N : ℚ) / D| * (2 : ℚ) ^ q ≤ 1 / 2 * (2 : ℚ) ^ q := by gcongr
        _ = (2 : ℚ) ^ q / 2 := by ring
    have hk23 : (2 : ℚ) ^ 23 ≤ (k : ℚ) := by
      rcases le_total (E - 23) (-149) with hc | hc
      · have hqv : q = -149 := max_eq_right hc
        rw [hval, hqv] at hN
        have h3 : (2 : ℚ) ^ (-126 : Int) = (2 : ℚ) ^ 23 * (2 : ℚ) ^ (-149 : Int) := by
          rw [← zpow_natCast, ← zpow_add₀ (by norm_num)]; norm_num
        rw [h3] at hN
        exact le_of_mul_le_mul_right hN (by positivity)
      · have hqv : q = E - 23 := max_eq_left hc
        have h4 : (2 : ℚ) ^ 23 ≤ (N : ℚ) / D := by
          rw [hND, hqv, le_div_iff₀ (by positivity), ← zpow_natCast, ← zpow_add₀ (by norm_num)]
          have : ((23 : Nat) : Int) + (E - 23) = E := by push_cast; ring
          rw [this]
          exact hE
        have hDq : (0 : ℚ) < D := by exact_mod_cast hDpos
        rw [le_div_iff₀ hDq] at h4
        have h5 : 2 ^ 23 * D ≤ N := by exact_mod_cast h4
        have h6 : 2 ^ 23 ≤ k0 := (Nat.le_div_iff_mul_le hDpos).2 h5
        have h7 : 2 ^ 23 ≤ k := le_trans h6 hk2
        exact_mod_cast h7
    calc |(k : ℚ) * (2 : ℚ) ^ q - (n : ℚ) / d| ≤ (2 : ℚ) ^ q / 2 := herr
      _ = (2 : ℚ) ^ 23 * (2 : ℚ) ^ q / 2 ^ 24 := by ring
      _ ≤ (k : ℚ) * (2 : ℚ) ^ q / 2 ^ 24 := by gcongr

theorem F32.isNormal_fin (a : Bool) (m : Nat) (e : Int) (h : (F32.fin a m e).isNormal = true) :
    (2 : ℚ) ^ (-126 : Int) ≤ (m : ℚ) * (2 : ℚ) ^ e := by
  simp only [F32.isNormal, decide_eq_true_eq] at h
  have hq : (2 : ℚ) ^ (-(e + 126)).toNat ≤ (m : ℚ) * (2 : ℚ) ^ (e + 126).toNat := by
    exact_mod_cast h
  have h2 : (2 : ℚ) ≠ 0 := by norm_num
  have e1 : (2 : ℚ) ^ e = (2 : ℚ) ^ (e + 126) * (2 : ℚ) ^ (-126 : Int) := by
    rw [← zpow_add₀ h2]; congr 1; ring
  rw [e1, F32.two_zpow (e + 126), ← mul_assoc]
  have hp : (0 : ℚ) < (2 : ℚ) ^ (-(e + 126)).toNat := by positivity
  have hz : (0 : ℚ) < (2 : ℚ) ^ (-126 : Int) := by positivity
  have : (1 : ℚ) ≤ (m : ℚ) * ((2 : ℚ) ^ (e + 126).toNat / (2 : ℚ) ^ (-(e + 126)).toNat) := by
    rw [← mul_div_assoc, le_div_iff₀ hp]; linarith
  calc (2 : ℚ) ^ (-126 : Int) = 1 * (2 : ℚ) ^ (-126 : Int) := (one_mul _).symm
    _ ≤ _ := by gcongr

theorem F32.isNormal_cases (x : F32) (h : x.isNormal = true) :
    ∃ a m e, x = .fin a m e ∧ (2 : ℚ) ^ (-126 : Int) ≤ (m : ℚ) * (2 : ℚ) ^ e := by
  cases x with
  | fin a m e => exact ⟨a, m, e, rfl, F32.isNormal_fin a m e h⟩
  | inf a => simp [F32.isNormal] at h
  | nan => simp [F32.isNormal] at h

theorem F32.sign_mul (a b : Bool) :
    ((if a then -1 else 1 : ℚ)) * (if b then -1 else 1) = if xor a b then -1 else 1 := by
  cases a <;> cases b <;> simp

theorem F32.sign_abs (a : Bool) (x : ℚ) : |(if a then -1 else 1 : ℚ) * x| = |x| := by
  cases a <;> simp

theorem F32.round_zero_not_normal (neg : Bool) (d : Nat) :
    (F32.round neg 0 d).isNormal = false := by
  simp [F32.round, F32.isNormal]

theorem F32.round_normal_error (neg : Bool) (n d : Nat) (hd : 0 < d)
    (h : (F32.round neg n d).isNormal = true) :
    ∃ m e, F32.round neg n d = .fin neg m e
      ∧ |(m : ℚ) * (2 : ℚ) ^ e - (n : ℚ) / d| ≤ (m : ℚ) * (2 : ℚ) ^ e / 2 ^ 24 := by
  have hn : 0 < n := by
    rcases Nat.eq_zero_or_pos n with h0 | h0
    · subst h0
      rw [F32.round_zero_not_normal] at h
      exact absurd h (by simp)
    · exact h0
  obtain ⟨a, m, e, hx, hN⟩ := F32.isNormal_cases _ h
  obtain ⟨ha, herr⟩ := F32.round_error neg n d hn hd a m e hx hN
  subst ha
  exact ⟨m, e, hx, herr⟩

theorem F32.mul_error (x y : F32) (h : (F32.mul x y).isNormal = true) :
    ∃ vx vy vr : ℚ, F32.toRat x = some vx ∧ F32.toRat y = some vy
      ∧ F32.toRat (F32.mul x y) = some vr ∧ |vr - vx * vy| ≤ |vr| / 2 ^ 24 := by
  cases x with
  | nan => simp [F32.mul, F32.isNormal] at h
  | inf a =>
    cases y with
    | nan => simp [F32.mul, F32.isNormal] at h
    | inf b => simp [F32.mul, F32.isNormal] at h
    | fin b m2 e2 =>
      simp only [F32.mul] at h
      split_ifs at h <;> simp [F32.isNormal] at h
  | fin a m1 e1 =>
    cases y with
    | nan => simp [F32.mul, F32.isNormal] at h
    | inf b =>
      simp only [F32.mul] at h
      split_ifs at h <;> simp [F32.isNormal] at h
    | fin b m2 e2 =>
      simp only [F32.mul] at h ⊢
      obtain ⟨m, e, hr, herr⟩ := F32.round_normal_error _ _ _ (by positivity) h
      rw [hr]
      refine ⟨_, _, _, rfl, rfl, rfl, ?_⟩
      have h2 : (2 : ℚ) ≠ 0 := by norm_num
      have hv : ((m1 * m2 * 2 ^ (e1 + e2).toNat : Nat) : ℚ) / ((2 ^ (-(e1 + e2)).toNat : Nat) : ℚ)
          = (m1 : ℚ) * (2 : ℚ) ^ e1 * ((m2 : ℚ) * (2 : ℚ) ^ e2) := by
        have := F32.two_zpow (e1 + e2)
        rw [zpow_add₀ h2] at this
        push_cast
        rw [mul_div_assoc, ← this]
        ring
      rw [hv] at herr
      have hpos : (0 : ℚ) ≤ (m : ℚ) * (2 : ℚ) ^ e := by positivity
      have e3 : (if xor a b then -1 else 1 : ℚ) * (m : ℚ) * (2 : ℚ) ^ e
          - (if a then -1 else 1 : ℚ) * (m1 : ℚ) * (2 : ℚ) ^ e1
            * ((if b then -1 else 1 : ℚ) * (m2 : ℚ) * (2 : ℚ) ^ e2)
          = (if xor a b then -1 else 1 : ℚ)
            * ((m : ℚ) * (2 : ℚ) ^ e - (m1 : ℚ) * (2 : ℚ) ^ e1 * ((m2 : ℚ) * (2 : ℚ) ^ e2)) := by
        rw [← F32.sign_mul]; ring
      have habs : |(if xor a b then -1 else 1 : ℚ) * (m : ℚ) * (2 : ℚ) ^ e|
          = (m : ℚ) * (2 : ℚ) ^ e := by
        rw [mul_assoc, F32.sign_abs, abs_of_nonneg hpos]
      rw [e3, F32.sign_abs, habs]
      exact herr

theorem F32.div_error (x y : F32) (h : (F32.div x y).isNormal = true) :
    ∃ vx vy vr : ℚ, F32.toRat x = some vx ∧ F32.toRat y = some vy ∧ vy ≠ 0
      ∧ F32.toRat (F32.div x y) = some vr ∧ |vr - vx / vy| ≤ |vr| / 2 ^ 24 := by
  cases x with
  | nan => simp [F32.div, F32.isNormal] at h
  | inf a =>
    cases y <;> simp [F32.div, F32.isNormal] at h
  | fin a m1 e1 =>
    cases y with
    | nan => simp [F32.div, F32.isNormal] at h
    | inf b => simp [F32.div, F32.isNormal] at h
    | fin b m2 e2 =>
      simp only [F32.div] at h ⊢
      by_cases hm2 : m2 = 0
      · rw [if_pos hm2] at h
        split_ifs at h <;> simp [F32.isNormal] at h
      · rw [if_neg hm2] at h ⊢
        have hm2pos : 0 < m2 := Nat.pos_of_ne_zero hm2
        obtain ⟨m, e, hr, herr⟩ := F32.round_normal_error _ _ _ (by positivity) h
        rw [hr]
        have h2 : (2 : ℚ) ≠ 0 := by norm_num
        have hm2q : (m2 : ℚ) ≠ 0 := by exact_mod_cast hm2
        have hsb : (if b then -1 else 1 : ℚ) ≠ 0 := by cases b <;> simp
        refine ⟨_, _, _, rfl, rfl, ?_, rfl, ?_⟩
        · exact mul_ne_zero (mul_ne_zero hsb hm2q) (zpow_ne_zero _ h2)
        have hv : ((m1 * 2 ^ (e1 - e2).toNat : Nat) : ℚ) / ((m2 * 2 ^ (e2 - e1).toNat : Nat) : ℚ)
            = (m1 : ℚ) * (2 : ℚ) ^ e1 / ((m2 : ℚ) * (2 : ℚ) ^ e2) := by
          have := F32.two_zpow (e1 - e2)
          rw [zpow_sub₀ h2, neg_sub] at this
          push_cast
          have hz : (2 : ℚ) ^ e2 ≠ 0 := zpow_ne_zero _ h2
          have hp : (2 : ℚ) ^ (e2 - e1).toNat ≠ 0 := pow_ne_zero _ h2
          rw [div_eq_div_iff (mul_ne_zero hm2q hp) (mul_ne_zero hm2q hz)]
          rw [div_eq_div_iff hz hp] at this
          linear_combination (m1 : ℚ) * (m2 : ℚ) * this.symm
        rw [hv] at herr
        have hpos : (0 : ℚ) ≤ (m : ℚ) * (2 : ℚ) ^ e := by positivity
        have e3 : (if xor a b then -1 else 1 : ℚ) * (m : ℚ) * (2 : ℚ) ^ e
            - (if a then -1 else 1 : ℚ) * (m1 : ℚ) * (2 : ℚ) ^ e1
              / ((if b then -1 else 1 : ℚ) * (m2 : ℚ) * (2 : ℚ) ^ e2)
            = (if xor a b then -1 else 1 : ℚ)
              * ((m : ℚ) * (2 : ℚ) ^ e - (m1 : ℚ) * (2 : ℚ) ^ e1 / ((m2 : ℚ) * (2 : ℚ) ^ e2)) := by
          cases a <;> cases b <;> simp <;> field_simp <;> ring
        have habs : |(if xor a b then -1 else 1 : ℚ) * (m : ℚ) * (2 : ℚ) ^ e|
            = (m : ℚ) * (2 : ℚ) ^ e := by
          rw [mul_assoc, F32.sign_abs, abs_of_nonneg hpos]
        rw [e3, F32.sign_abs, habs]
        exact herr

theorem F32.shift_value (m : Nat) (e1 e : Int) (h : e ≤ e1) :
    ((m * 2 ^ (e1 - e).toNat : Nat) : ℚ) * (2 : ℚ) ^ e = (m : ℚ) * (2 : ℚ) ^ e1 := by
  have h2 : (2 : ℚ) ≠ 0 := by norm_num
  have h3 : ((e1 - e).toNat : Int) = e1 - e := Int.toNat_of_nonneg (by omega)
  push_cast
  rw [mul_assoc, ← zpow_natCast, h3, ← zpow_add₀ h2]
  congr 2
  ring

theorem F32.add_error (x y : F32) (h : (F32.add x y).isNormal = true) :
    ∃ vx vy vr : ℚ, F32.toRat x = some vx ∧ F32.toRat y = some vy
      ∧ F32.toRat (F32.add x y) = some vr ∧ |vr - (vx + vy)| ≤ |vr| / 2 ^ 24 := by
  cases x with
  | nan => simp [F32.add, F32.isNormal] at h
  | inf a =>
    cases y with
    | nan => simp [F32.add, F32.isNormal] at h
    | inf b =>
      simp only [F32.add] at h
      split_ifs at h <;> simp [F32.isNormal] at h
    | fin b m2 e2 => simp [F32.add, F32.isNormal] at h
  | fin a m1 e1 =>
    cases y with
    | nan => simp [F32.add, F32.isNormal] at h
    | inf b => simp [F32.add, F32.isNormal] at h
    | fin b m2 e2 =>
      unfold F32.add at h ⊢
      set e : Int := min e1 e2 with he
      set X : Int := (if a then -1 else 1) * ((m1 * 2 ^ (e1 - e).toNat : Nat) : Int) with hX
      set Y : Int := (if b then -1 else 1) * ((m2 * 2 ^ (e2 - e).toNat : Nat) : Int) with hY
      have h' : (if X + Y = 0 then F32.fin (a && b) 0 0
          else F32.round (decide (X + Y < 0)) ((X + Y).natAbs * 2 ^ e.toNat)
            (2 ^ (-e).toNat)).isNormal = true := h
      have hgoal : ∀ R : F32, R = (if X + Y = 0 then F32.fin (a && b) 0 0
          else F32.round (decide (X + Y < 0)) ((X + Y).natAbs * 2 ^ e.toNat) (2 ^ (-e).toNat)) →
          ∃ vx vy vr : ℚ, F32.toRat (.fin a m1 e1) = some vx ∧ F32.toRat (.fin b m2 e2) = some vy
            ∧ F32.toRat R = some vr ∧ |vr - (vx + vy)| ≤ |vr| / 2 ^ 24 := by
        intro R hR
        by_cases h0 : X + Y = 0
        · rw [if_pos h0] at h'
          simp [F32.isNormal] at h'
        · rw [if_neg h0] at h' hR
          obtain ⟨m, ee, hr, herr⟩ := F32.round_normal_error _ _ _ (by positivity) h'
          rw [hR, hr]
          refine ⟨_, _, _, rfl, rfl, rfl, ?_⟩
          have h2 : (2 : ℚ) ≠ 0 := by norm_num
          have hv : (((X + Y).natAbs * 2 ^ e.toNat : Nat) : ℚ) / ((2 ^ (-e).toNat : Nat) : ℚ)
              = |((X + Y : Int) : ℚ)| * (2 : ℚ) ^ e := by
            push_cast
            rw [mul_div_assoc, ← F32.two_zpow, Nat.cast_natAbs]
            push_cast
            rfl
          rw [hv] at herr
          have hxv : (if a then -1 else 1 : ℚ) * (m1 : ℚ) * (2 : ℚ) ^ e1 = (X : ℚ) * (2 : ℚ) ^ e := by
            rw [hX]
            push_cast
            rw [mul_assoc, mul_assoc, ← F32.shift_value m1 e1 e (min_le_left _ _)]
            push_cast
            cases a <;> simp
          have hyv : (if b then -1 else 1 : ℚ) * (m2 : ℚ) * (2 : ℚ) ^ e2 = (Y : ℚ) * (2 : ℚ) ^ e := by
            rw [hY]
            push_cast
            rw [mul_assoc, mul_assoc, ← F32.shift_value m2 e2 e (min_le_right _ _)]
            push_cast
            cases b <;> simp
          have hpos : (0 : ℚ) ≤ (m : ℚ) * (2 : ℚ) ^ ee := by positivity
          have habs : |(if decide (X + Y < 0) then -1 else 1 : ℚ) * (m : ℚ) * (2 : ℚ) ^ ee|
              = (m : ℚ) * (2 : ℚ) ^ ee := by
            rw [mul_assoc, F32.sign_abs, abs_of_nonneg hpos]
          rw [habs, hxv, hyv]
          by_cases hneg : X + Y < 0
          · have hq : ((X + Y : Int) : ℚ) < 0 := by exact_mod_cast hneg
            rw [abs_of_neg hq] at herr
            have e3 : (if decide (X + Y < 0) then -1 else 1 : ℚ) * (m : ℚ) * (2 : ℚ) ^ ee
                - ((X : ℚ) * (2 : ℚ) ^ e + (Y : ℚ) * (2 : ℚ) ^ e)
                = -((m : ℚ) * (2 : ℚ) ^ ee - -((X + Y : Int) : ℚ) * (2 : ℚ) ^ e) := by
              simp only [hneg, decide_True, if_true]
              push_cast
              ring
            rw [e3, abs_neg]
            exact herr
          · have hq : (0 : ℚ) ≤ ((X + Y : Int) : ℚ) := by exact_mod_cast (not_lt.1 hneg)
            rw [abs_of_nonneg hq] at herr
            have e3 : (if decide (X + Y < 0) then -1 else 1 : ℚ) * (m : ℚ) * (2 : ℚ) ^ ee
                - ((X : ℚ) * (2 : ℚ) ^ e + (Y : ℚ) * (2 : ℚ) ^ e)
                = (m : ℚ) * (2 : ℚ) ^ ee - ((X + Y : Int) : ℚ) * (2 : ℚ) ^ e := by
              simp only [hneg, decide_False]
              push_cast
              ring
            rw [e3]
            exact herr
      exact hgoal _ rfl

theorem F32.toRat_neg (y : F32) (vy : ℚ) (h : F32.toRat y = some vy) :
    F32.toRat (F32.neg y) = some (-vy) := by
  cases y with
  | fin b m e =>
    simp only [F32.toRat, Option.some.injEq] at h
    subst h
    cases b <;> simp [F32.neg, F32.toRat]
  | inf b => simp [F32.toRat] at h
  | nan => simp [F32.toRat] at h

theorem F32.neg_neg (y : F32) : F32.neg (F32.neg y) = y := by
  cases y <;> simp [F32.neg]

theorem F32.sub_error (x y : F32) (h : (F32.sub x y).isNormal = true) :
    ∃ vx vy vr : ℚ, F32.toRat x = some vx ∧ F32.toRat y = some vy
      ∧ F32.toRat (F32.sub x y) = some vr ∧ |vr - (vx - vy)| ≤ |vr| / 2 ^ 24 := by
  obtain ⟨vx, vy', vr, hx, hy, hr, herr⟩ := F32.add_error x (F32.neg y) h
  refine ⟨vx, -vy', vr, hx, ?_, hr, ?_⟩
  · have := F32.toRat_neg _ _ hy
    rwa [F32.neg_neg] at this
  · rw [sub_neg_eq_add]
    exact herr

theorem F32.abs_le_of_near (x y c : ℚ) (h : |x - y| ≤ c) : |y| ≤ |x| + c := by
  have := abs_sub_abs_le_abs_sub y x
  rw [abs_sub_comm] at this
  linarith

theorem F32.scaled_near (k x y z : ℚ) (h : |x - y| ≤ |z| / 2 ^ 24) :
    |k * x - k * y| ≤ |k * z| / 2 ^ 24 := by
  rw [← mul_sub, abs_mul, abs_mul]
  calc |k| * |x - y| ≤ |k| * (|z| / 2 ^ 24) := by gcongr
    _ = |k| * |z| / 2 ^ 24 := by ring

theorem F32.zero_point_chain (vM vA vA1 vp vo vd vr : ℚ) (hM : vM ≠ 0)
    (ha : |vA1 - (vA - 0)| ≤ |vA1| / 2 ^ 24)
    (hb : |vp - vM * vA1| ≤ |vp| / 2 ^ 24)
    (hc : |vo - vp / vM| ≤ |vo| / 2 ^ 24)
    (hd : |vd - (vA - vo)| ≤ |vd| / 2 ^ 24)
    (he : |vr - vM * vd| ≤ |vr| / 2 ^ 24) :
    |vr| ≤ |vp| / 2 ^ 22 := by
  rw [sub_zero] at ha
  have hX1 : |vM * vA1| ≤ |vp| + |vp| / 2 ^ 24 := F32.abs_le_of_near _ _ _ hb
  have hA : |vM * vA1 - vM * vA| ≤ |vM * vA1| / 2 ^ 24 := F32.scaled_near vM vA1 vA vA1 ha
  have hC : |vM * vo - vp| ≤ |vM * vo| / 2 ^ 24 := by
    have := F32.scaled_near vM vo (vp / vM) vo hc
    rwa [mul_div_cancel₀ _ hM] at this
  have hX2 : |vM * vo| ≤ |vp| + |vM * vo| / 2 ^ 24 := by
    have := F32.abs_le_of_near (vp) (vM * vo) (|vM * vo| / 2 ^ 24) (by rwa [abs_sub_comm])
    exact this
  have hT : |vM * (vA - vo)| ≤ |vM * vA1 - vM * vA| + |vp - vM * vA1| + |vM * vo - vp| := by
    have e : vM * (vA - vo) = -(vM * vA1 - vM * vA) + -(vp - vM * vA1) + -(vM * vo - vp) := by
      ring
    rw [e]
    calc |-(vM * vA1 - vM * vA) + -(vp - vM * vA1) + -(vM * vo - vp)|
        ≤ |-(vM * vA1 - vM * vA) + -(vp - vM * vA1)| + |-(vM * vo - vp)| := abs_add _ _
      _ ≤ |-(vM * vA1 - vM * vA)| + |-(vp - vM * vA1)| + |-(vM * vo - vp)| := by
          gcongr; exact abs_add _ _
      _ = _ := by rw [abs_neg, abs_neg, abs_neg]
  have hD : |vM * vd - vM * (vA - vo)| ≤ |vM * vd| / 2 ^ 24 :=
    F32.scaled_near vM vd (vA - vo) vd hd
  have hY : |vM * vd| ≤ |vM * (vA - vo)| + |vM * vd| / 2 ^ 24 := by
    have := F32.abs_le_of_near (vM * (vA - vo)) (vM * vd) (|vM * vd| / 2 ^ 24)
      (by rwa [abs_sub_comm])
    exact this
  have hR : |vr| ≤ |vM * vd| + |vr| / 2 ^ 24 := by
    have := F32.abs_le_of_near (vM * vd) vr (|vr| / 2 ^ 24) (by rwa [abs_sub_comm])
    exact this
  have hP := abs_nonneg vp
  linarith

theorem F32.slope_ratio_chain (vu vs vs' vM vM' vd vb va : ℚ) (hs : vs ≠ 0)
    (h1 : |vM - vu * vs| ≤ |vM| / 2 ^ 24)
    (h2 : |vb - vM * vd| ≤ |vb| / 2 ^ 24)
    (h1' : |vM' - vu * vs'| ≤ |vM'| / 2 ^ 24)
    (h2' : |va - vM' * vd| ≤ |va| / 2 ^ 24) :
    |va - vs' / vs * vb| ≤ |va| / 2 ^ 21 := by
  have hB' : |vM' * vd| ≤ |va| + |va| / 2 ^ 24 := F32.abs_le_of_near _ _ _ h2'
  have hE1' : |vd * vM' - vd * (vu * vs')| ≤ |vd * vM'| / 2 ^ 24 :=
    F32.scaled_near vd vM' (vu * vs') vM' h1'
  rw [mul_comm vd vM'] at hE1'
  have hQ0 : |vs' / vs * vb - vs' / vs * (vM * vd)| ≤ |vs' / vs * vb| / 2 ^ 24 :=
    F32.scaled_near (vs' / vs) vb (vM * vd) vb h2
  have hQ : |vs' / vs * (vM * vd)| ≤ |vs' / vs * vb| + |vs' / vs * vb| / 2 ^ 24 :=
    F32.abs_le_of_near _ _ _ hQ0
  have hG0 : |vs' / vs * vd * vM - vs' / vs * vd * (vu * vs)| ≤ |vs' / vs * vd * vM| / 2 ^ 24 :=
    F32.scaled_near (vs' / vs * vd) vM (vu * vs) vM h1
  have e1 : vs' / vs * vd * vM = vs' / vs * (vM * vd) := by ring
  have e2 : vs' / vs * vd * (vu * vs) = vd * (vu * vs') := by field_simp; ring
  rw [e1, e2] at hG0
  have hZ : |va - vs' / vs * vb| ≤ |va - vM' * vd| + |vM' * vd - vd * (vu * vs')|
      + |vs' / vs * (vM * vd) - vd * (vu * vs')| + |vs' / vs * vb - vs' / vs * (vM * vd)| := by
    have e : va - vs' / vs * vb = (va - vM' * vd) + (vM' * vd - vd * (vu * vs'))
        + -(vs' / vs * (vM * vd) - vd * (vu * vs'))
        + -(vs' / vs * vb - vs' / vs * (vM * vd)) := by ring
    rw [e]
    calc _ ≤ |(va - vM' * vd) + (vM' * vd - vd * (vu * vs'))
              + -(vs' / vs * (vM * vd) - vd * (vu * vs'))|
            + |-(vs' / vs * vb - vs' / vs * (vM * vd))| := abs_add _ _
      _ ≤ |(va - vM' * vd) + (vM' * vd - vd * (vu * vs'))|
            + |-(vs' / vs * (vM * vd) - vd * (vu * vs'))|
            + |-(vs' / vs * vb - vs' / vs * (vM * vd))| := by gcongr; exact abs_add _ _
      _ ≤ |va - vM' * vd| + |vM' * vd - vd * (vu * vs')|
            + |-(vs' / vs * (vM * vd) - vd * (vu * vs'))|
            + |-(vs' / vs * vb - vs' / vs * (vM * vd))| := by gcongr; exact abs_add _ _
      _ = _ := by rw [abs_neg, abs_neg]
  have hW : |vs' / vs * vb| ≤ |va| + |va - vs' / vs * vb| :=
    F32.abs_le_of_near va (vs' / vs * vb) _ le_rfl
  have hP := abs_nonneg va
  linarith

theorem F32.toRat_of_isZero (x : F32) (h : x.isZero = true) : F32.toRat x = some 0 := by
  cases x with
  | fin a m e =>
    have h0 : m = 0 := by simpa [F32.isZero] using h
    subst h0
    simp [F32.toRat]
  | inf a => simp [F32.isZero] at h
  | nan => simp [F32.isZero] at h

theorem F32.toRat_ne_zero_of_isNormal (x : F32) (v : ℚ) (h : x.isNormal = true)
    (hv : F32.toRat x = some v) : v ≠ 0 := by
  obtain ⟨a, m, e, hx, hN⟩ := F32.isNormal_cases x h
  subst hx
  simp only [F32.toRat, Option.some.injEq] at hv
  subst hv
  have hz : (0 : ℚ) < (2 : ℚ) ^ (-126 : Int) := by positivity
  have hpos : (0 : ℚ) < (m : ℚ) * (2 : ℚ) ^ e := lt_of_lt_of_le hz hN
  have hs : (if a then -1 else 1 : ℚ) ≠ 0 := by cases a <;> simp
  rw [mul_assoc]
  exact mul_ne_zero hs hpos.ne'

/-! ## C1: the calibrated read -/

set_option maxRecDepth 100000 in
theorem skewCal_accel_products :
    F32.mul Binary32.skewCal.accelUnit (Binary32.skewCal.accelSlope 0)
      = .fin false 707199 (-16)
    ∧ F32.mul Binary32.skewCal.accelUnit (Binary32.skewCal.accelSlope 1)
      = .fin false 4628939 (-19)
    ∧ F32.mul Binary32.skewCal.accelUnit (Binary32.skewCal.accelSlope 2)
      = .fin false 6686245 (-19) := by
  decide!

set_option maxRecDepth 100000 in
theorem skewCal_zero_offset_values :
    (some (⟨1,
      F32.mul (F32.mul (Binary32.zeroOffsets Binary32.skewCal).accelUnit
          ((Binary32.zeroOffsets Binary32.skewCal).accelSlope 0))
        (Binary32.corrected (F32.ofInt 16) (samples [0x01, 0xc0, 0xe8, 0x03, 0x00, 0x18] 0)
          ((Binary32.zeroOffsets Binary32.skewCal).accelOffset 0)),
      F32.mul (F32.mul (Binary32.zeroOffsets Binary32.skewCal).accelUnit
          ((Binary32.zeroOffsets Binary32.skewCal).accelSlope 1))
        (Binary32.corrected (F32.ofInt 16) (samples [0x01, 0xc0, 0xe8, 0x03, 0x00, 0x18] 1)
          ((Binary32.zeroOffsets Binary32.skewCal).accelOffset 1)),
      F32.mul (F32.mul (Binary32.zeroOffsets Binary32.skewCal).accelUnit
          ((Binary32.zeroOffsets Binary32.skewCal).accelSlope 2))
        (Binary32.corrected (F32.ofInt 16) (samples [0x01, 0xc0, 0xe8, 0x03, 0x00, 0x18] 2)
          ((Binary32.zeroOffsets Binary32.skewCal).accelOffset 2))⟩ : Binary32.Reading)
      = some ⟨1, .fin true 11314493 (-17), .fin false 8829 (-11), .fin false 1253671 (-15)⟩) := by
  decide!

set_option maxRecDepth 100000 in
theorem skewCal_residue_values :
    (some (⟨1,
      F32.mul (F32.mul (Binary32.setAccelOffset Binary32.skewCal (.fin true 11314493 (-17))
            (.fin false 8829 (-11)) (.fin false 1253671 (-15))).accelUnit
          ((Binary32.setAccelOffset Binary32.skewCal (.fin true 11314493 (-17))
            (.fin false 8829 (-11)) (.fin false 1253671 (-15))).accelSlope 0))
        (Binary32.corrected (F32.ofInt 16) (samples [0x01, 0xc0, 0xe8, 0x03, 0x00, 0x18] 0)
          ((Binary32.setAccelOffset Binary32.skewCal (.fin true 11314493 (-17))
            (.fin false 8829 (-11)) (.fin false 1253671 (-15))).accelOffset 0)),
      F32.mul (F32.mul (Binary32.setAccelOffset Binary32.skewCal (.fin true 11314493 (-17))
            (.fin false 8829 (-11)) (.fin false 1253671 (-15))).accelUnit
          ((Binary32.setAccelOffset Binary32.skewCal (.fin true 11314493 (-17))
            (.fin false 8829 (-11)) (.fin false 1253671 (-15))).accelSlope 1))
        (Binary32.corrected (F32.ofInt 16) (samples [0x01, 0xc0, 0xe8, 0x03, 0x00, 0x18] 1)
          ((Binary32.setAccelOffset Binary32.skewCal (.fin true 11314493 (-17))
            (.fin false 8829 (-11)) (.fin false 1253671 (-15))).accelOffset 1)),
      F32.mul (F32.mul (Binary32.setAccelOffset Binary32.skewCal (.fin true 11314493 (-17))
            (.fin false 8829 (-11)) (.fin false 1253671 (-15))).accelUnit
          ((Binary32.setAccelOffset Binary32.skewCal (.fin true 11314493 (-17))
            (.fin false 8829 (-11)) (.fin false 1253671 (-15))).accelSlope 2))
        (Binary32.corrected (F32.ofInt 16) (samples [0x01, 0xc0, 0xe8, 0x03, 0x00, 0x18] 2)
          ((Binary32.setAccelOffset Binary32.skewCal (.fin true 11314493 (-17))
            (.fin false 8829 (-11)) (.fin false 1253671 (-15))).accelOffset 2))⟩ :
        Binary32.Reading)
      = some ⟨1, .fin true 707199 (-37), .fin false 4628939 (-44), .fin true 6686245 (-41)⟩) := by
  decide!

/-- C2 fails on the binary32 code: unit `9.81f`, slopes `1.1f, 0.9f, 1.3f`
(every `unit * slope[i]` non-zero), accelerometer at 16 g with samples
`[-16383, 1000, 6144]`. The reading at zero offset is `p`; after
`setAccelOffset(p[0], p[1], p[2])` a read of the same samples returns 1 with
`-707199 / 2^37`, `4628939 / 2^44` and `-6686245 / 2^41`, none of them 0. -/
theorem offset_roundtrip_leaves_residue :
    (readRegisters simWire LSM9DS1_ADDRESS LSM9DS1_OUT_X_XL [0, 0, 0, 0, 0, 0] 6 roundingBus).1
      = 1
    ∧ samples (readRegisters simWire LSM9DS1_ADDRESS LSM9DS1_OUT_X_XL [0, 0, 0, 0, 0, 0] 6
        roundingBus).2.1 = ![-16383, 1000, 6144]
    ∧ F32.mul Binary32.skewCal.accelUnit (Binary32.skewCal.accelSlope 0)
        = .fin false 707199 (-16)
    ∧ F32.mul Binary32.skewCal.accelUnit (Binary32.skewCal.accelSlope 1)
        = .fin false 4628939 (-19)
    ∧ F32.mul Binary32.skewCal.accelUnit (Binary32.skewCal.accelSlope 2)
        = .fin false 6686245 (-19)
    ∧ (Binary32.readAccel simWire (Binary32.zeroOffsets Binary32.skewCal) [0, 0, 0, 0, 0, 0]
        roundingBus).1
        = some ⟨1, .fin true 11314493 (-17), .fin false 8829 (-11), .fin false 1253671 (-15)⟩
    ∧ (Binary32.readAccel simWire
        (Binary32.setAccelOffset Binary32.skewCal (.fin true 11314493 (-17))
          (.fin false 8829 (-11)) (.fin false 1253671 (-15)))
        [0, 0, 0, 0, 0, 0] roundingBus).1
        = some ⟨1, .fin true 707199 (-37), .fin false 4628939 (-44), .fin true 6686245 (-41)⟩
    ∧ F32.toRat (.fin true 707199 (-37)) = some (-707199 / 137438953472)
    ∧ F32.isZero (.fin true 707199 (-37)) = false
    ∧ F32.isZero (.fin false 4628939 (-44)) = false
    ∧ F32.isZero (.fin true 6686245 (-41)) = false := by
  refine ⟨rfl, roundingBus_accel_burst.2.2, skewCal_accel_products.1,
    skewCal_accel_products.2.1, skewCal_accel_products.2.2,
    (Binary32.readAccel_of_burst32 simWire _ _ _ _ _ _ roundingBus_accel_burst.1
      roundingBus_accel_burst.2.1).trans skewCal_zero_offset_values,
    (Binary32.readAccel_of_burst32 simWire _ _ _ _ _ _ roundingBus_accel_burst.1
      roundingBus_accel_burst.2.1).trans skewCal_residue_values, ?_, rfl, rfl, rfl⟩
  simp only [F32.toRat]
  norm_num

theorem F32.zero_point_axis (M A p : F32) (hM : M.isFinite = true) (hA : A.isFinite = true)
    (h : F32.div p M = A) :
    (F32.mul M (F32.sub A (F32.div p M))).isZero = true := by
  rw [h]
  exact F32.mul_isZero M _ hM (F32.sub_self_isZero A hA)

theorem F32.zero_point_tolerance (M A : F32)
    (h1 : (F32.sub A (.fin false 0 0)).isNormal = true)
    (h2 : (F32.mul M (F32.sub A (.fin false 0 0))).isNormal = true)
    (h3 : (F32.div (F32.mul M (F32.sub A (.fin false 0 0))) M).isNormal = true)
    (h4 : (F32.mul M (F32.sub A
            (F32.div (F32.mul M (F32.sub A (.fin false 0 0))) M))).isZero = true
          ∨ ((F32.sub A (F32.div (F32.mul M (F32.sub A (.fin false 0 0))) M)).isNormal = true
            ∧ (F32.mul M (F32.sub A
                (F32.div (F32.mul M (F32.sub A (.fin false 0 0))) M))).isNormal = true)) :
    ∃ rv pv : ℚ,
      F32.toRat (F32.mul M (F32.sub A
        (F32.div (F32.mul M (F32.sub A (.fin false 0 0))) M))) = some rv
      ∧ F32.toRat (F32.mul M (F32.sub A (.fin false 0 0))) = some pv
      ∧ |rv| ≤ |pv| / 2 ^ 22 := by
  obtain ⟨vA, v0, vA1, hA, h0, hA1, ea⟩ := F32.sub_error _ _ h1
  obtain ⟨vM, vA1', vp, hM, hA1', hp, eb⟩ := F32.mul_error _ _ h2
  obtain ⟨vp', vM', vo, hp', hM', hMne, ho, ec⟩ := F32.div_error _ _ h3
  have e0 : v0 = 0 := by
    simp only [F32.toRat, Option.some.injEq] at h0
    rw [← h0]; simp
  have e1 : vA1' = vA1 := Option.some.inj (hA1'.symm.trans hA1)
  have e2 : vp' = vp := Option.some.inj (hp'.symm.trans hp)
  have e3 : vM' = vM := Option.some.inj (hM'.symm.trans hM)
  subst e0 e1 e2 e3
  rcases h4 with hz | ⟨h4, h5⟩
  · refine ⟨0, vp', F32.toRat_of_isZero _ hz, hp, ?_⟩
    rw [abs_zero]
    positivity
  · obtain ⟨vA', vo', vd, hA', ho', hd, ed⟩ := F32.sub_error _ _ h4
    obtain ⟨vM'', vd', vr, hM'', hd', hr, ee⟩ := F32.mul_error _ _ h5
    have e4 : vA' = vA := Option.some.inj (hA'.symm.trans hA)
    have e5 : vo' = vo := Option.some.inj (ho'.symm.trans ho)
    have e6 : vM'' = vM' := Option.some.inj (hM''.symm.trans hM)
    have e7 : vd' = vd := Option.some.inj (hd'.symm.trans hd)
    subst e4 e5 e6 e7
    exact ⟨vr, vp', hr, hp, F32.zero_point_chain _ _ _ _ _ _ _ hMne ea eb ec ed ee⟩

/-- C2, as the binary32 code computes it, channel by channel and axis by axis:
when the channel's burst read returns 1 with the buffer `bytes` and the
full-scale getter decodes `F`, let `p` be the reading taken with zero offsets.
After `setOffset(p.x, p.y, p.z)` a read of the same samples returns 1 and
gives on axis `i` the rounded product of `unit * slope[i]` and
`scale * raw[i] - p[i] / (unit * slope[i])`, every operation rounded to
binary32. That value is zero on axis `i` whenever the stored quotient
`p[i] / (unit * slope[i])` is again the scaled sample `scale * raw[i]`, both
`unit * slope[i]` and the scaled sample being finite. In general it is zero
up to rounding: when the scaled sample, `p[i]` and the stored quotient are
normal numbers, and the final difference and product are normal unless the
result is zero (no overflow, no underflow), the magnitude of the result is at
most `2^-22` times that of `p[i]`. Nothing is assumed about the other channels
or the other axes. -/
theorem offset_roundtrip_binary32 (w : TwoWire σ) (self : Binary32.LSM9DS1Class)
    (data : List Nat) (s : σ) :
    (∀ (bytes : List Nat) (s1 : σ) (F : F32),
      readRegisters w LSM9DS1_ADDRESS LSM9DS1_OUT_X_XL data 6 s = (1, bytes, s1) →
      (Binary32.getAccelFS w s1).1 = some F →
      ∃ p r : Binary32.Reading,
        (Binary32.readAccel w (Binary32.zeroOffsets self) data s).1 = some p ∧ p.ret = 1
        ∧ (Binary32.readAccel w (Binary32.setAccelOffset self p.x p.y p.z) data s).1 = some r
        ∧ r.ret = 1
        ∧ ∀ i : Fin 3,
            r.axis i = F32.mul (F32.mul self.accelUnit (self.accelSlope i))
              (F32.sub (Binary32.scaled F (samples bytes i))
                (F32.div (p.axis i) (F32.mul self.accelUnit (self.accelSlope i))))
            ∧ ((F32.mul self.accelUnit (self.accelSlope i)).isFinite = true →
                (Binary32.scaled F (samples bytes i)).isFinite = true →
                F32.div (p.axis i) (F32.mul self.accelUnit (self.accelSlope i))
                  = (Binary32.scaled F (samples bytes i)) →
                (r.axis i).isZero = true)
            ∧ ((F32.sub (Binary32.scaled F (samples bytes i)) (.fin false 0 0)).isNormal = true →
                (p.axis i).isNormal = true →
                (F32.div (p.axis i) (F32.mul self.accelUnit (self.accelSlope i))).isNormal = true →
                ((r.axis i).isZero = true
                  ∨ ((F32.sub (Binary32.scaled F (samples bytes i))
                        (F32.div (p.axis i) (F32.mul self.accelUnit (self.accelSlope i)))).isNormal = true
                    ∧ (r.axis i).isNormal = true)) →
                ∃ rv pv : ℚ, F32.toRat (r.axis i) = some rv ∧ F32.toRat (p.axis i) = some pv
                  ∧ |rv| ≤ |pv| / 2 ^ 22))
    ∧ (∀ (bytes : List Nat) (s1 : σ) (F : F32),
      readRegisters w LSM9DS1_ADDRESS LSM9DS1_OUT_X_G data 6 s = (1, bytes, s1) →
      (Binary32.getGyroFS w s1).1 = some F →
      ∃ p r : Binary32.Reading,
        (Binary32.readGyro w (Binary32.zeroOffsets self) data s).1 = some p ∧ p.ret = 1
        ∧ (Binary32.readGyro w (Binary32.setGyroOffset self p.x p.y p.z) data s).1 = some r
        ∧ r.ret = 1
        ∧ ∀ i : Fin 3,
            r.axis i = F32.mul (F32.mul self.gyroUnit (self.gyroSlope i))
              (F32.sub (Binary32.scaled F (samples bytes i))
                (F32.div (p.axis i) (F32.mul self.gyroUnit (self.gyroSlope i))))
            ∧ ((F32.mul self.gyroUnit (self.gyroSlope i)).isFinite = true →
                (Binary32.scaled F (samples bytes i)).isFinite = true →
                F32.div (p.axis i) (F32.mul self.gyroUnit (self.gyroSlope i))
                  = (Binary32.scaled F (samples bytes i)) →
                (r.axis i).isZero = true)
            ∧ ((F32.sub (Binary32.scaled F (samples bytes i)) (.fin false 0 0)).isNormal = true →
                (p.axis i).isNormal = true →
                (F32.div (p.axis i) (F32.mul self.gyroUnit (self.gyroSlope i))).isNormal = true →
                ((r.axis i).isZero = true
                  ∨ ((F32.sub (Binary32.scaled F (samples bytes i))
                        (F32.div (p.axis i) (F32.mul self.gyroUnit (self.gyroSlope i)))).isNormal = true
                    ∧ (r.axis i).isNormal = true)) →
                ∃ rv pv : ℚ, F32.toRat (r.axis i) = some rv ∧ F32.toRat (p.axis i) = some pv
                  ∧ |rv| ≤ |pv| / 2 ^ 22))
    ∧ (∀ (bytes : List Nat) (s1 : σ) (F : F32),
      readRegisters w LSM9DS1_ADDRESS_M LSM9DS1_OUT_X_L_M data 6 s = (1, bytes, s1) →
      (Binary32.getMagnetFS w s1).1 = some F →
      ∃ p r : Binary32.Reading,
        (Binary32.readMagneticField w (Binary32.zeroOffsets self) data s).1 = some p ∧ p.ret = 1
        ∧ (Binary32.readMagneticField w (Binary32.setMagnetOffset self p.x p.y p.z) data s).1 = some r
        ∧ r.ret = 1
        ∧ ∀ i : Fin 3,
            r.axis i = F32.mul (F32.mul self.magnetUnit (self.magnetSlope i))
              (F32.sub (Binary32.scaled F (samples bytes i))
                (F32.div (p.axis i) (F32.mul self.magnetUnit (self.magnetSlope i))))
            ∧ ((F32.mul self.magnetUnit (self.magnetSlope i)).isFinite = true →
                (Binary32.scaled F (samples bytes i)).isFinite = true →
                F32.div (p.axis i) (F32.mul self.magnetUnit (self.magnetSlope i))
                  = (Binary32.scaled F (samples bytes i)) →
                (r.axis i).isZero = true)
            ∧ ((F32.sub (Binary32.scaled F (samples bytes i)) (.fin false 0 0)).isNormal = true →
                (p.axis i).isNormal = true →
                (F32.div (p.axis i) (F32.mul self.magnetUnit (self.magnetSlope i))).isNormal = true →
                ((r.axis i).isZero = true
                  ∨ ((F32.sub (Binary32.scaled F (samples bytes i))
                        (F32.div (p.axis i) (F32.mul self.magnetUnit (self.magnetSlope i)))).isNormal = true
                    ∧ (r.axis i).isNormal = true)) →
                ∃ rv pv : ℚ, F32.toRat (r.axis i) = some rv ∧ F32.toRat (p.axis i) = some pv
                  ∧ |rv| ≤ |pv| / 2 ^ 22)) := by
  refine ⟨?_, ?_, ?_⟩
  · intro bytes s1 F hb hF
    refine ⟨_, _, Binary32.readAccel_of_burst32 w _ data bytes s s1 F hb hF, rfl,
      Binary32.readAccel_of_burst32 w _ data bytes s s1 F hb hF, rfl, ?_⟩
    intro i
    fin_cases i
    · exact ⟨rfl, fun hM hA h => F32.zero_point_axis _ _ _ hM hA h,
        fun h1 h2 h3 h4 => F32.zero_point_tolerance _ _ h1 h2 h3 h4⟩
    · exact ⟨rfl, fun hM hA h => F32.zero_point_axis _ _ _ hM hA h,
        fun h1 h2 h3 h4 => F32.zero_point_tolerance _ _ h1 h2 h3 h4⟩
    · exact ⟨rfl, fun hM hA h => F32.zero_point_axis _ _ _ hM hA h,
        fun h1 h2 h3 h4 => F32.zero_point_tolerance _ _ h1 h2 h3 h4⟩
  · intro bytes s1 F hb hF
    refine ⟨_, _, Binary32.readGyro_of_burst32 w _ data bytes s s1 F hb hF, rfl,
      Binary32.readGyro_of_burst32 w _ data bytes s s1 F hb hF, rfl, ?_⟩
    intro i
    fin_cases i
    · exact ⟨rfl, fun hM hA h => F32.zero_point_axis _ _ _ hM hA h,
        fun h1 h2 h3 h4 => F32.zero_point_tolerance _ _ h1 h2 h3 h4⟩
    · exact ⟨rfl, fun hM hA h => F32.zero_point_axis _ _ _ hM hA h,
        fun h1 h2 h3 h4 => F32.zero_point_tolerance _ _ h1 h2 h3 h4⟩
    · exact ⟨rfl, fun hM hA h => F32.zero_point_axis _ _ _ hM hA h,
        fun h1 h2 h3 h4 => F32.zero_point_tolerance _ _ h1 h2 h3 h4⟩
  · intro bytes s1 F hb hF
    refine ⟨_, _, Binary32.readMagneticField_of_burst32 w _ data bytes s s1 F hb hF, rfl,
      Binary32.readMagneticField_of_burst32 w _ data bytes s s1 F hb hF, rfl, ?_⟩
    intro i
    fin_cases i
    · exact ⟨rfl, fun hM hA h => F32.zero_point_axis _ _ _ hM hA h,
        fun h1 h2 h3 h4 => F32.zero_point_tolerance _ _ h1 h2 h3 h4⟩
    · exact ⟨rfl, fun hM hA h => F32.zero_point_axis _ _ _ hM hA h,
        fun h1 h2 h3 h4 => F32.zero_point_tolerance _ _ h1 h2 h3 h4⟩
    · exact ⟨rfl, fun hM hA h => F32.zero_point_axis _ _ _ hM hA h,
        fun h1 h2 h3 h4 => F32.zero_point_tolerance _ _ h1 h2 h3 h4⟩

set_option maxRecDepth 100000 in
theorem zeroPoint_accel_values :
    (some (⟨1,
      F32.mul (F32.mul (Binary32.zeroOffsets Binary32.identityCal).accelUnit
          ((Binary32.zeroOffsets Binary32.identityCal).accelSlope 0))
        (Binary32.corrected (F32.ofInt 16) (samples [0x00, 0x08, 0x00, 0x00, 0x00, 0x00] 0)
          ((Binary32.zeroOffsets Binary32.identityCal).accelOffset 0)),
      F32.mul (F32.mul (Binary32.zeroOffsets Binary32.identityCal).accelUnit
          ((Binary32.zeroOffsets Binary32.identityCal).accelSlope 1))
        (Binary32.corrected (F32.ofInt 16) (samples [0x00, 0x08, 0x00, 0x00, 0x00, 0x00] 1)
          ((Binary32.zeroOffsets Binary32.identityCal).accelOffset 1)),
      F32.mul (F32.mul (Binary32.zeroOffsets Binary32.identityCal).accelUnit
          ((Binary32.zeroOffsets Binary32.identityCal).accelSlope 2))
        (Binary32.corrected (F32.ofInt 16) (samples [0x00, 0x08, 0x00, 0x00, 0x00, 0x00] 2)
          ((Binary32.zeroOffsets Binary32.identityCal).accelOffset 2))⟩ : Binary32.Reading)
      = some ⟨1, .fin false 1 0, .fin false 0 0, .fin false 0 0⟩) := by
  decide!

set_option maxRecDepth 100000 in
theorem zeroPoint_gyro_values :
    (some (⟨1,
      F32.mul (F32.mul (Binary32.zeroOffsets Binary32.identityCal).gyroUnit
          ((Binary32.zeroOffsets Binary32.identityCal).gyroSlope 0))
        (Binary32.corrected (F32.ofInt 2000) (samples [0x00, 0x10, 0x00, 0x00, 0x00, 0x00] 0)
          ((Binary32.zeroOffsets Binary32.identityCal).gyroOffset 0)),
      F32.mul (F32.mul (Binary32.zeroOffsets Binary32.identityCal).gyroUnit
          ((Binary32.zeroOffsets Binary32.identityCal).gyroSlope 1))
        (Binary32.corrected (F32.ofInt 2000) (samples [0x00, 0x10, 0x00, 0x00, 0x00, 0x00] 1)
          ((Binary32.zeroOffsets Binary32.identityCal).gyroOffset 1)),
      F32.mul (F32.mul (Binary32.zeroOffsets Binary32.identityCal).gyroUnit
          ((Binary32.zeroOffsets Binary32.identityCal).gyroSlope 2))
        (Binary32.corrected (F32.ofInt 2000) (samples [0x00, 0x10, 0x00, 0x00, 0x00, 0x00] 2)
          ((Binary32.zeroOffsets Binary32.identityCal).gyroOffset 2))⟩ : Binary32.Reading)
      = some ⟨1, .fin false 125 1, .fin false 0 0, .fin false 0 0⟩) := by
  decide!

set_option maxRecDepth 100000 in
theorem zeroPoint_magnet_values :
    (some (⟨1,
      F32.mul (F32.mul (Binary32.zeroOffsets Binary32.identityCal).magnetUnit
          ((Binary32.zeroOffsets Binary32.identityCal).magnetSlope 0))
        (Binary32.corrected (F32.ofInt 400) (samples [0x00, 0x08, 0x00, 0x00, 0x00, 0x00] 0)
          ((Binary32.zeroOffsets Binary32.identityCal).magnetOffset 0)),
      F32.mul (F32.mul (Binary32.zeroOffsets Binary32.identityCal).magnetUnit
          ((Binary32.zeroOffsets Binary32.identityCal).magnetSlope 1))
        (Binary32.corrected (F32.ofInt 400) (samples [0x00, 0x08, 0x00, 0x00, 0x00, 0x00] 1)
          ((Binary32.zeroOffsets Binary32.identityCal).magnetOffset 1)),
      F32.mul (F32.mul (Binary32.zeroOffsets Binary32.identityCal).magnetUnit
          ((Binary32.zeroOffsets Binary32.identityCal).magnetSlope 2))
        (Binary32.corrected (F32.ofInt 400) (samples [0x00, 0x08, 0x00, 0x00, 0x00, 0x00] 2)
          ((Binary32.zeroOffsets Binary32.identityCal).magnetOffset 2))⟩ : Binary32.Reading)
      = some ⟨1, .fin false 25 0, .fin false 0 0, .fin false 0 0⟩) := by
  decide!

/-- C2 on the reference bus, each channel on its own, identity calibration
(unit 1, slopes 1): the accelerometer at 16 g with samples `[2048, 0, 0]` reads
1, 0, 0 at zero offset, and after `setAccelOffset(1, 0, 0)` the same samples
read zero on every axis; likewise the gyroscope (250 dps on X at 2000 dps) and
the magnetometer (25 µT on X at 400 µT). With unit `9.81f` and slopes `1.1f`,
`0.9f`, `1.3f`, accelerometer at 16 g with samples `[-16383, 1000, 6144]`,
where the round trip leaves `-707199 / 2^37`, `4628939 / 2^44` and
`-6686245 / 2^41`, each of them is within `2^-22` of the size of the reading
the offset was taken from. -/
theorem offset_roundtrip_binary32_witness :
    ((readRegisters simWire LSM9DS1_ADDRESS LSM9DS1_OUT_X_XL [0, 0, 0, 0, 0, 0] 6
          zeroPointBus).1 = 1
      ∧ (Binary32.getAccelFS simWire (readRegisters simWire LSM9DS1_ADDRESS LSM9DS1_OUT_X_XL
          [0, 0, 0, 0, 0, 0] 6 zeroPointBus).2.2).1 = some (F32.ofInt 16)
      ∧ (Binary32.readAccel simWire (Binary32.zeroOffsets Binary32.identityCal)
          [0, 0, 0, 0, 0, 0] zeroPointBus).1
          = some ⟨1, .fin false 1 0, .fin false 0 0, .fin false 0 0⟩
      ∧ ∃ r : Binary32.Reading,
          (Binary32.readAccel simWire
            (Binary32.setAccelOffset Binary32.identityCal (.fin false 1 0) (.fin false 0 0)
              (.fin false 0 0)) [0, 0, 0, 0, 0, 0] zeroPointBus).1 = some r
          ∧ r.ret = 1 ∧ ∀ i : Fin 3, (r.axis i).isZero = true)
    ∧ ((readRegisters simWire LSM9DS1_ADDRESS LSM9DS1_OUT_X_G [0, 0, 0, 0, 0, 0] 6
          zeroPointBus).1 = 1
      ∧ (Binary32.getGyroFS simWire (readRegisters simWire LSM9DS1_ADDRESS LSM9DS1_OUT_X_G
          [0, 0, 0, 0, 0, 0] 6 zeroPointBus).2.2).1 = some (F32.ofInt 2000)
      ∧ (Binary32.readGyro simWire (Binary32.zeroOffsets Binary32.identityCal)
          [0, 0, 0, 0, 0, 0] zeroPointBus).1
          = some ⟨1, .fin false 125 1, .fin false 0 0, .fin false 0 0⟩
      ∧ ∃ r : Binary32.Reading,
          (Binary32.readGyro simWire
            (Binary32.setGyroOffset Binary32.identityCal (.fin false 125 1) (.fin false 0 0)
              (.fin false 0 0)) [0, 0, 0, 0, 0, 0] zeroPointBus).1 = some r
          ∧ r.ret = 1 ∧ ∀ i : Fin 3, (r.axis i).isZero = true)
    ∧ ((readRegisters simWire LSM9DS1_ADDRESS_M LSM9DS1_OUT_X_L_M [0, 0, 0, 0, 0, 0] 6
          zeroPointBus).1 = 1
      ∧ (Binary32.getMagnetFS simWire (readRegisters simWire LSM9DS1_ADDRESS_M
          LSM9DS1_OUT_X_L_M [0, 0, 0, 0, 0, 0] 6 zeroPointBus).2.2).1 = some (F32.ofInt 400)
      ∧ (Binary32.readMagneticField simWire (Binary32.zeroOffsets Binary32.identityCal)
          [0, 0, 0, 0, 0, 0] zeroPointBus).1
          = some ⟨1, .fin false 25 0, .fin false 0 0, .fin false 0 0⟩
      ∧ ∃ r : Binary32.Reading,
          (Binary32.readMagneticField simWire
            (Binary32.setMagnetOffset Binary32.identityCal (.fin false 25 0) (.fin false 0 0)
              (.fin false 0 0)) [0, 0, 0, 0, 0, 0] zeroPointBus).1 = some r
          ∧ r.ret = 1 ∧ ∀ i : Fin 3, (r.axis i).isZero = true)
    ∧ ((readRegisters simWire LSM9DS1_ADDRESS LSM9DS1_OUT_X_XL [0, 0, 0, 0, 0, 0] 6
          roundingBus).1 = 1
      ∧ (Binary32.getAccelFS simWire (readRegisters simWire LSM9DS1_ADDRESS LSM9DS1_OUT_X_XL
          [0, 0, 0, 0, 0, 0] 6 roundingBus).2.2).1 = some (F32.ofInt 16)
      ∧ (Binary32.readAccel simWire (Binary32.zeroOffsets Binary32.skewCal)
          [0, 0, 0, 0, 0, 0] roundingBus).1
          = some ⟨1, .fin true 11314493 (-17), .fin false 8829 (-11), .fin false 1253671 (-15)⟩
      ∧ (Binary32.readAccel simWire
          (Binary32.setAccelOffset Binary32.skewCal (.fin true 11314493 (-17))
            (.fin false 8829 (-11)) (.fin false 1253671 (-15)))
          [0, 0, 0, 0, 0, 0] roundingBus).1
          = some ⟨1, .fin true 707199 (-37), .fin false 4628939 (-44), .fin true 6686245 (-41)⟩
      ∧ (∃ rv pv : ℚ, F32.toRat (.fin true 707199 (-37)) = some rv
          ∧ F32.toRat (.fin true 11314493 (-17)) = some pv ∧ |rv| ≤ |pv| / 2 ^ 22)
      ∧ (∃ rv pv : ℚ, F32.toRat (.fin false 4628939 (-44)) = some rv
          ∧ F32.toRat (.fin false 8829 (-11)) = some pv ∧ |rv| ≤ |pv| / 2 ^ 22)
      ∧ (∃ rv pv : ℚ, F32.toRat (.fin true 6686245 (-41)) = some rv
          ∧ F32.toRat (.fin false 1253671 (-15)) = some pv ∧ |rv| ≤ |pv| / 2 ^ 22)) := by
  have h := offset_roundtrip_binary32 simWire Binary32.identityCal [0, 0, 0, 0, 0, 0]
    zeroPointBus
  refine ⟨?_, ?_, ?_, ?_⟩
  · have h0 := (Binary32.readAccel_of_burst32 simWire (Binary32.zeroOffsets Binary32.identityCal)
      _ _ _ _ _ zeroPointBus_bursts.1.1 zeroPointBus_bursts.1.2).trans zeroPoint_accel_values
    obtain ⟨p, r, hp, -, hr, hrr, hax⟩ :=
      h.1 _ _ _ zeroPointBus_bursts.1.1 zeroPointBus_bursts.1.2
    have hp0 := Option.some.inj (hp.symm.trans h0)
    subst hp0
    refine ⟨rfl, zeroPointBus_bursts.1.2, h0, r, hr, hrr, ?_⟩
    intro i
    fin_cases i
    · exact (hax 0).2.1 (by decide!) (by decide!) (by decide!)
    · exact (hax 1).2.1 (by decide!) (by decide!) (by decide!)
    · exact (hax 2).2.1 (by decide!) (by decide!) (by decide!)
  · have h0 := (Binary32.readGyro_of_burst32 simWire (Binary32.zeroOffsets Binary32.identityCal)
      _ _ _ _ _ zeroPointBus_bursts.2.1.1 zeroPointBus_bursts.2.1.2).trans zeroPoint_gyro_values
    obtain ⟨p, r, hp, -, hr, hrr, hax⟩ :=
      h.2.1 _ _ _ zeroPointBus_bursts.2.1.1 zeroPointBus_bursts.2.1.2
    have hp0 := Option.some.inj (hp.symm.trans h0)
    subst hp0
    refine ⟨rfl, zeroPointBus_bursts.2.1.2, h0, r, hr, hrr, ?_⟩
    intro i
    fin_cases i
    · exact (hax 0).2.1 (by decide!) (by decide!) (by decide!)
    · exact (hax 1).2.1 (by decide!) (by decide!) (by decide!)
    · exact (hax 2).2.1 (by decide!) (by decide!) (by decide!)
  · have h0 := (Binary32.readMagneticField_of_burst32 simWire
      (Binary32.zeroOffsets Binary32.identityCal)
      _ _ _ _ _ zeroPointBus_bursts.2.2.1 zeroPointBus_bursts.2.2.2).trans
        zeroPoint_magnet_values
    obtain ⟨p, r, hp, -, hr, hrr, hax⟩ :=
      h.2.2 _ _ _ zeroPointBus_bursts.2.2.1 zeroPointBus_bursts.2.2.2
    have hp0 := Option.some.inj (hp.symm.trans h0)
    subst hp0
    refine ⟨rfl, zeroPointBus_bursts.2.2.2, h0, r, hr, hrr, ?_⟩
    intro i
    fin_cases i
    · exact (hax 0).2.1 (by decide!) (by decide!) (by decide!)
    · exact (hax 1).2.1 (by decide!) (by decide!) (by decide!)
    · exact (hax 2).2.1 (by decide!) (by decide!) (by decide!)
  · have h0 := (Binary32.readAccel_of_burst32 simWire (Binary32.zeroOffsets Binary32.skewCal)
      _ _ _ _ _ roundingBus_accel_burst.1 roundingBus_accel_burst.2.1).trans
        skewCal_zero_offset_values
    have h1 := (Binary32.readAccel_of_burst32 simWire
      (Binary32.setAccelOffset Binary32.skewCal (.fin true 11314493 (-17))
        (.fin false 8829 (-11)) (.fin false 1253671 (-15)))
      _ _ _ _ _ roundingBus_accel_burst.1 roundingBus_accel_burst.2.1).trans
        skewCal_residue_values
    obtain ⟨p, r, hp, -, hr, -, hax⟩ :=
      (offset_roundtrip_binary32 simWire Binary32.skewCal [0, 0, 0, 0, 0, 0] roundingBus).1
        _ _ _ roundingBus_accel_burst.1 roundingBus_accel_burst.2.1
    have hp0 := Option.some.inj (hp.symm.trans h0)
    subst hp0
    have hr0 := Option.some.inj (hr.symm.trans h1)
    subst hr0
    exact ⟨rfl, roundingBus_accel_burst.2.1, h0, h1,
      (hax 0).2.2 (by decide!) (by decide!) (by decide!) (Or.inr ⟨by decide!, by decide!⟩),
      (hax 1).2.2 (by decide!) (by decide!) (by decide!) (Or.inr ⟨by decide!, by decide!⟩),
      (hax 2).2.2 (by decide!) (by decide!) (by decide!) (Or.inr ⟨by decide!, by decide!⟩)⟩

/-! ## Unfolding lemmas for the setters and getters -/

theorem toUInt8_lt (x : Int) : toUInt8 x < 256 := by
  unfold toUInt8
  omega

theorem setAccelFS_eq (w : TwoWire σ) (range : Nat) (s : σ) :
    setAccelFS w range s = writeRegister w LSM9DS1_ADDRESS LSM9DS1_CTRL_REG6_XL
      (toUInt8 (Int.lor (Int.land (readRegister w LSM9DS1_ADDRESS LSM9DS1_CTRL_REG6_XL s).1 0xE7)
        ((((range &&& 0b00000011) <<< 3) % 256 : Nat) : Int)))
      (readRegister w LSM9DS1_ADDRESS LSM9DS1_CTRL_REG6_XL s).2 := rfl

theorem setGyroFS_eq (w : TwoWire σ) (range : Nat) (s : σ) :
    setGyroFS w range s = writeRegister w LSM9DS1_ADDRESS LSM9DS1_CTRL_REG1_G
      (toUInt8 (Int.lor (Int.land (readRegister w LSM9DS1_ADDRESS LSM9DS1_CTRL_REG1_G s).1 0xE7)
        ((((range &&& 0b00000011) <<< 3) % 256 : Nat) : Int)))
      (readRegister w LSM9DS1_ADDRESS LSM9DS1_CTRL_REG1_G s).2 := rfl

theorem setMagnetFS_eq (w : TwoWire σ) (range : Nat) (s : σ) :
    setMagnetFS w range s = writeRegister w LSM9DS1_ADDRESS LSM9DS1_CTRL_REG2_M
      (((range &&& 0b00000011) <<< 5) % 256) s := rfl

theorem getAccelFS_fst (w : TwoWire σ) (s : σ) :
    (getAccelFS w s).1 = getAccelFS.ranges[getAccelFS.setting
      (readRegister w LSM9DS1_ADDRESS LSM9DS1_CTRL_REG6_XL s).1]? := rfl

theorem getGyroFS_fst (w : TwoWire σ) (s : σ) :
    (getGyroFS w s).1 = getGyroFS.Ranges[getGyroFS.setting
      (readRegister w LSM9DS1_ADDRESS LSM9DS1_CTRL_REG1_G s).1]? := rfl

theorem getMagnetFS_fst (w : TwoWire σ) (s : σ) :
    (getMagnetFS w s).1 = getMagnetFS.Ranges[getMagnetFS.setting
      (readRegister w LSM9DS1_ADDRESS LSM9DS1_CTRL_REG2_M s).1]? := rfl

/-! ## C3: full-scale round trip -/

set_option maxRecDepth 100000 in
theorem accelFS_field_roundtrip : ∀ n : Nat, n < 256 → ∀ i : Nat, i < 4 →
    getAccelFS.setting ((toUInt8 (Int.lor (Int.land (n : Int) 0xE7)
      ((((i &&& 0b00000011) <<< 3) % 256 : Nat) : Int)) : Nat) : Int) = i := by
  decide

set_option maxRecDepth 100000 in
theorem gyroFS_field_roundtrip : ∀ n : Nat, n < 256 → ∀ i : Nat, i < 4 →
    getGyroFS.setting ((toUInt8 (Int.lor (Int.land (n : Int) 0xE7)
      ((((i &&& 0b00000011) <<< 3) % 256 : Nat) : Int)) : Nat) : Int) = i := by
  decide

theorem magnetFS_field_roundtrip : ∀ i : Nat, i < 4 →
    getMagnetFS.setting ((((i &&& 0b00000011) <<< 5) % 256 : Nat) : Int) = i := by
  decide

/-- C3: for every index `i` in 0..3 and every byte previously held by the
control register (the register read succeeds), on a bus where a register reads
back the byte last written to it, `setAccelFS(i)` followed by `getAccelFS`
returns `[2, 16, 4, 8][i]`, `setGyroFS(i)` followed by `getGyroFS` returns
`[245, 500, 1000, 2000][i]`, and `setMagnetFS(i)` followed by `getMagnetFS`
returns `[400, 800, 1200, 1600][i]`. -/
theorem full_scale_roundtrip (w : TwoWire σ) (s : σ) (i : Nat) (hi : i < 4)
    (hrA : 0 ≤ (readRegister w LSM9DS1_ADDRESS LSM9DS1_CTRL_REG6_XL s).1
      ∧ (readRegister w LSM9DS1_ADDRESS LSM9DS1_CTRL_REG6_XL s).1 ≤ 255)
    (hbA : ∀ b, b < 256 → (readRegister w LSM9DS1_ADDRESS LSM9DS1_CTRL_REG6_XL
      (writeRegister w LSM9DS1_ADDRESS LSM9DS1_CTRL_REG6_XL b
        (readRegister w LSM9DS1_ADDRESS LSM9DS1_CTRL_REG6_XL s).2).2).1 = (b : Int))
    (hrG : 0 ≤ (readRegister w LSM9DS1_ADDRESS LSM9DS1_CTRL_REG1_G s).1
      ∧ (readRegister w LSM9DS1_ADDRESS LSM9DS1_CTRL_REG1_G s).1 ≤ 255)
    (hbG : ∀ b, b < 256 → (readRegister w LSM9DS1_ADDRESS LSM9DS1_CTRL_REG1_G
      (writeRegister w LSM9DS1_ADDRESS LSM9DS1_CTRL_REG1_G b
        (readRegister w LSM9DS1_ADDRESS LSM9DS1_CTRL_REG1_G s).2).2).1 = (b : Int))
    (hbM : ∀ b, b < 256 → (readRegister w LSM9DS1_ADDRESS LSM9DS1_CTRL_REG2_M
      (writeRegister w LSM9DS1_ADDRESS LSM9DS1_CTRL_REG2_M b s).2).1 = (b : Int)) :
    (getAccelFS w (setAccelFS w i s).2).1 = ([2, 16, 4, 8] : List ℚ)[i]?
    ∧ (getGyroFS w (setGyroFS w i s).2).1 = ([245, 500, 1000, 2000] : List ℚ)[i]?
    ∧ (getMagnetFS w (setMagnetFS w i s).2).1 = ([400, 800, 1200, 1600] : List ℚ)[i]? := by
  refine ⟨?_, ?_, ?_⟩
  · rw [getAccelFS_fst, setAccelFS_eq, hbA _ (toUInt8_lt _)]
    have h := int_byte_cases
      (P := fun r => getAccelFS.setting ((toUInt8 (Int.lor (Int.land r 0xE7)
        ((((i &&& 0b00000011) <<< 3) % 256 : Nat) : Int)) : Nat) : Int) = i)
      (fun n hn => accelFS_field_roundtrip n hn i hi) _ hrA.1 hrA.2
    rw [h]
    rfl
  · rw [getGyroFS_fst, setGyroFS_eq, hbG _ (toUInt8_lt _)]
    have h := int_byte_cases
      (P := fun r => getGyroFS.setting ((toUInt8 (Int.lor (Int.land r 0xE7)
        ((((i &&& 0b00000011) <<< 3) % 256 : Nat) : Int)) : Nat) : Int) = i)
      (fun n hn => gyroFS_field_roundtrip n hn i hi) _ hrG.1 hrG.2
    rw [h]
    rfl
  · rw [getMagnetFS_fst, setMagnetFS_eq, hbM _ (Nat.mod_lt _ (by norm_num)),
      magnetFS_field_roundtrip i hi]
    rfl

set_option maxRecDepth 100000 in
theorem scenarioBus_reads_back :
    (∀ b, b < 256 → (readRegister simWire LSM9DS1_ADDRESS LSM9DS1_CTRL_REG6_XL
      (writeRegister simWire LSM9DS1_ADDRESS LSM9DS1_CTRL_REG6_XL b
        (readRegister simWire LSM9DS1_ADDRESS LSM9DS1_CTRL_REG6_XL scenarioBus).2).2).1 = (b : Int))
    ∧ (∀ b, b < 256 → (readRegister simWire LSM9DS1_ADDRESS LSM9DS1_CTRL_REG1_G
      (writeRegister simWire LSM9DS1_ADDRESS LSM9DS1_CTRL_REG1_G b
        (readRegister simWire LSM9DS1_ADDRESS LSM9DS1_CTRL_REG1_G scenarioBus).2).2).1 = (b : Int))
    ∧ (∀ b, b < 256 → (readRegister simWire LSM9DS1_ADDRESS LSM9DS1_CTRL_REG2_M
      (writeRegister simWire LSM9DS1_ADDRESS LSM9DS1_CTRL_REG2_M b scenarioBus).2).1 = (b : Int))
    ∧ (∀ b, b < 256 → (readRegister simWire LSM9DS1_ADDRESS_M LSM9DS1_CTRL_REG1_M
      (writeRegister simWire LSM9DS1_ADDRESS_M LSM9DS1_CTRL_REG1_M b
        (readRegister simWire LSM9DS1_ADDRESS_M LSM9DS1_CTRL_REG1_M scenarioBus).2).2).1
          = (b : Int)) := by
  refine ⟨?_, ?_, ?_, ?_⟩ <;> decide

/-- C3 on the reference bus: index 1 selects 16 g, 500 dps and 800 µT. -/
theorem full_scale_roundtrip_witness :
    ((1 : Nat) < 4
      ∧ (readRegister simWire LSM9DS1_ADDRESS LSM9DS1_CTRL_REG6_XL scenarioBus).1 = 0x08
      ∧ (readRegister simWire LSM9DS1_ADDRESS LSM9DS1_CTRL_REG1_G scenarioBus).1 = 0x00
      ∧ (setAccelFS simWire 1 scenarioBus).1 = 1
      ∧ (setGyroFS simWire 1 scenarioBus).1 = 1
      ∧ (setMagnetFS simWire 1 scenarioBus).1 = 1)
    ∧ (getAccelFS simWire (setAccelFS simWire 1 scenarioBus).2).1 = some 16
    ∧ (getGyroFS simWire (setGyroFS simWire 1 scenarioBus).2).1 = some 500
    ∧ (getMagnetFS simWire (setMagnetFS simWire 1 scenarioBus).2).1 = some 800 :=
  ⟨⟨by decide, rfl, rfl, rfl, rfl, rfl⟩,
   full_scale_roundtrip simWire scenarioBus 1 (by decide)
    (by decide) scenarioBus_reads_back.1 (by decide) scenarioBus_reads_back.2.1
    scenarioBus_reads_back.2.2.1⟩

theorem setAccelODR_eq (w : TwoWire σ) (range : Nat) (s : σ) :
    setAccelODR w range s = writeRegister w LSM9DS1_ADDRESS LSM9DS1_CTRL_REG6_XL
      (toUInt8 (Int.lor
        (Int.land (readRegister w LSM9DS1_ADDRESS LSM9DS1_CTRL_REG6_XL s).1 0b00011111)
        ((if (range <<< 5) % 256 = 0b11100000 then 0 else (range <<< 5) % 256 : Nat) : Int)))
      (readRegister w LSM9DS1_ADDRESS LSM9DS1_CTRL_REG6_XL s).2 := rfl

theorem setGyroODR_eq (w : TwoWire σ) (range : Nat) (s : σ) :
    setGyroODR w range s = writeRegister w LSM9DS1_ADDRESS LSM9DS1_CTRL_REG1_G
      (toUInt8 (Int.lor
        (Int.land (readRegister w LSM9DS1_ADDRESS LSM9DS1_CTRL_REG1_G s).1 0b00011111)
        ((if (range <<< 5) % 256 = 0b11100000 then 0 else (range <<< 5) % 256 : Nat) : Int)))
      (readRegister w LSM9DS1_ADDRESS LSM9DS1_CTRL_REG1_G s).2 := rfl

theorem setMagnetODR_eq (w : TwoWire σ) (range : Nat) (s : σ) :
    setMagnetODR w range s = writeRegister w LSM9DS1_ADDRESS_M LSM9DS1_CTRL_REG1_M
      (toUInt8 (Int.lor
        (Int.land (readRegister w LSM9DS1_ADDRESS_M LSM9DS1_CTRL_REG1_M s).1 0b11100011)
        ((((range &&& 0b00000111) <<< 2) % 256 : Nat) : Int)))
      (readRegister w LSM9DS1_ADDRESS_M LSM9DS1_CTRL_REG1_M s).2 := rfl

theorem getAccelODR_fst (w : TwoWire σ) (s : σ) :
    (getAccelODR w s).1 = getAccelODR.Ranges[getAccelODR.setting
      (readRegister w LSM9DS1_ADDRESS LSM9DS1_CTRL_REG6_XL s).1]? := rfl

theorem getGyroODR_fst (w : TwoWire σ) (s : σ) :
    (getGyroODR w s).1 = getGyroODR.Ranges[getGyroODR.setting
      (readRegister w LSM9DS1_ADDRESS LSM9DS1_CTRL_REG1_G s).1]? := rfl

theorem getMagnetODR_fst (w : TwoWire σ) (s : σ) :
    (getMagnetODR w s).1 = getMagnetODR.ranges[getMagnetODR.setting
      (readRegister w LSM9DS1_ADDRESS_M LSM9DS1_CTRL_REG1_M s).1]? := rfl

/-! ## C4: data-rate round trip -/

set_option maxRecDepth 100000 in
theorem accelODR_field_roundtrip : ∀ n : Nat, n < 256 → ∀ i : Nat, i < 8 →
    getAccelODR.setting ((toUInt8 (Int.lor (Int.land (n : Int) 0b00011111)
      ((if (i <<< 5) % 256 = 0b11100000 then 0 else (i <<< 5) % 256 : Nat) : Int)) : Nat) : Int)
      = if i = 7 then 0 else i := by
  decide

set_option maxRecDepth 100000 in
theorem gyroODR_field_roundtrip : ∀ n : Nat, n < 256 → ∀ i : Nat, i < 8 →
    getGyroODR.setting ((toUInt8 (Int.lor (Int.land (n : Int) 0b00011111)
      ((if (i <<< 5) % 256 = 0b11100000 then 0 else (i <<< 5) % 256 : Nat) : Int)) : Nat) : Int)
      = if i = 7 then 0 else i := by
  decide

set_option maxRecDepth 100000 in
theorem magnetODR_field_roundtrip : ∀ n : Nat, n < 256 → ∀ i : Nat, i < 8 →
    getMagnetODR.setting ((toUInt8 (Int.lor (Int.land (n : Int) 0b11100011)
      ((((i &&& 0b00000111) <<< 2) % 256 : Nat) : Int)) : Nat) : Int) = i := by
  decide

/-- C4: for every index `i` in 0..7 and every byte previously held by the
control register (the register read succeeds), on a bus where a register reads
back the byte last written to it, `setAccelODR(i)` followed by `getAccelODR`
and `setGyroODR(i)` followed by `getGyroODR` return
`[0, 10, 50, 119, 238, 476, 952, 0][i]`, and `setMagnetODR(i)` followed by
`getMagnetODR` returns `[0.625, 1.25, 2.5, 5, 10, 20, 40, 80][i]`. -/
theorem data_rate_roundtrip (w : TwoWire σ) (s : σ) (i : Nat) (hi : i < 8)
    (hrA : 0 ≤ (readRegister w LSM9DS1_ADDRESS LSM9DS1_CTRL_REG6_XL s).1
      ∧ (readRegister w LSM9DS1_ADDRESS LSM9DS1_CTRL_REG6_XL s).1 ≤ 255)
    (hbA : ∀ b, b < 256 → (readRegister w LSM9DS1_ADDRESS LSM9DS1_CTRL_REG6_XL
      (writeRegister w LSM9DS1_ADDRESS LSM9DS1_CTRL_REG6_XL b
        (readRegister w LSM9DS1_ADDRESS LSM9DS1_CTRL_REG6_XL s).2).2).1 = (b : Int))
    (hrG : 0 ≤ (readRegister w LSM9DS1_ADDRESS LSM9DS1_CTRL_REG1_G s).1
      ∧ (readRegister w LSM9DS1_ADDRESS LSM9DS1_CTRL_REG1_G s).1 ≤ 255)
    (hbG : ∀ b, b < 256 → (readRegister w LSM9DS1_ADDRESS LSM9DS1_CTRL_REG1_G
      (writeRegister w LSM9DS1_ADDRESS LSM9DS1_CTRL_REG1_G b
        (readRegister w LSM9DS1_ADDRESS LSM9DS1_CTRL_REG1_G s).2).2).1 = (b : Int))
    (hrM : 0 ≤ (readRegister w LSM9DS1_ADDRESS_M LSM9DS1_CTRL_REG1_M s).1
      ∧ (readRegister w LSM9DS1_ADDRESS_M LSM9DS1_CTRL_REG1_M s).1 ≤ 255)
    (hbM : ∀ b, b < 256 → (readRegister w LSM9DS1_ADDRESS_M LSM9DS1_CTRL_REG1_M
      (writeRegister w LSM9DS1_ADDRESS_M LSM9DS1_CTRL_REG1_M b
        (readRegister w LSM9DS1_ADDRESS_M LSM9DS1_CTRL_REG1_M s).2).2).1 = (b : Int)) :
    (getAccelODR w (setAccelODR w i s).2).1
        = ([0, 10, 50, 119, 238, 476, 952, 0] : List ℚ)[i]?
    ∧ (getGyroODR w (setGyroODR w i s).2).1
        = ([0, 10, 50, 119, 238, 476, 952, 0] : List ℚ)[i]?
    ∧ (getMagnetODR w (setMagnetODR w i s).2).1
        = ([0.625, 1.25, 2.5, 5.0, 10.0, 20.0, 40.0, 80.0] : List ℚ)[i]? := by
  refine ⟨?_, ?_, ?_⟩
  · rw [getAccelODR_fst, setAccelODR_eq, hbA _ (toUInt8_lt _)]
    have h := int_byte_cases
      (P := fun r => getAccelODR.setting ((toUInt8 (Int.lor (Int.land r 0b00011111)
        ((if (i <<< 5) % 256 = 0b11100000 then 0 else (i <<< 5) % 256 : Nat) : Int)) : Nat) : Int)
        = if i = 7 then 0 else i)
      (fun n hn => accelODR_field_roundtrip n hn i hi) _ hrA.1 hrA.2
    rw [h]
    interval_cases i <;> rfl
  · rw [getGyroODR_fst, setGyroODR_eq, hbG _ (toUInt8_lt _)]
    have h := int_byte_cases
      (P := fun r => getGyroODR.setting ((toUInt8 (Int.lor (Int.land r 0b00011111)
        ((if (i <<< 5) % 256 = 0b11100000 then 0 else (i <<< 5) % 256 : Nat) : Int)) : Nat) : Int)
        = if i = 7 then 0 else i)
      (fun n hn => gyroODR_field_roundtrip n hn i hi) _ hrG.1 hrG.2
    rw [h]
    interval_cases i <;> rfl
  · rw [getMagnetODR_fst, setMagnetODR_eq, hbM _ (toUInt8_lt _)]
    have h := int_byte_cases
      (P := fun r => getMagnetODR.setting ((toUInt8 (Int.lor (Int.land r 0b11100011)
        ((((i &&& 0b00000111) <<< 2) % 256 : Nat) : Int)) : Nat) : Int) = i)
      (fun n hn => magnetODR_field_roundtrip n hn i hi) _ hrM.1 hrM.2
    rw [h]
    rfl

/-- C4 on the reference bus: index 7, the reserved code, stores the off code
on the accelerometer and the gyroscope (0 Hz) and selects 80 Hz on the
magnetometer. -/
theorem data_rate_roundtrip_witness :
    ((7 : Nat) < 8
      ∧ (readRegister simWire LSM9DS1_ADDRESS LSM9DS1_CTRL_REG6_XL scenarioBus).1 = 0x08
      ∧ (readRegister simWire LSM9DS1_ADDRESS LSM9DS1_CTRL_REG1_G scenarioBus).1 = 0x00
      ∧ (readRegister simWire LSM9DS1_ADDRESS_M LSM9DS1_CTRL_REG1_M scenarioBus).1 = 0x00
      ∧ (setAccelODR simWire 7 scenarioBus).1 = 1
      ∧ (setGyroODR simWire 7 scenarioBus).1 = 1
      ∧ (setMagnetODR simWire 7 scenarioBus).1 = 1)
    ∧ (getAccelODR simWire (setAccelODR simWire 7 scenarioBus).2).1 = some 0
    ∧ (getGyroODR simWire (setGyroODR simWire 7 scenarioBus).2).1 = some 0
    ∧ (getMagnetODR simWire (setMagnetODR simWire 7 scenarioBus).2).1 = some 80.0 :=
  ⟨⟨by decide, rfl, rfl, rfl, rfl, rfl, rfl⟩,
   data_rate_roundtrip simWire scenarioBus 7 (by decide)
    (by decide) scenarioBus_reads_back.1 (by decide) scenarioBus_reads_back.2.1
    (by decide) scenarioBus_reads_back.2.2.2⟩

/-! ## The failure value -1 under the bit operations -/

theorem land_neg_one (n : Nat) : Int.land (-1) (n : Int) = (n : Int) := by
  show ((Nat.ldiff n 0 : Nat) : Int) = n
  congr 1
  apply Nat.eq_of_testBit_eq
  intro i
  simp [Nat.testBit_ldiff]

theorem getAccelFS_setting_neg_one : getAccelFS.setting (-1) = 3 := by
  unfold getAccelFS.setting
  rw [show (0x18 : Int) = ((0x18 : Nat) : Int) from rfl, land_neg_one]
  decide

theorem getGyroFS_setting_neg_one : getGyroFS.setting (-1) = 3 := by
  unfold getGyroFS.setting
  rw [show (0x18 : Int) = ((0x18 : Nat) : Int) from rfl, land_neg_one]
  decide

theorem getAccelFS_nackBus (s : SimBus)
    (h : (readRegister simWire LSM9DS1_ADDRESS LSM9DS1_CTRL_REG6_XL s).1 = -1) :
    (getAccelFS simWire s).1 = some 8 := by
  rw [getAccelFS_fst, h, getAccelFS_setting_neg_one]
  rfl

theorem getGyroFS_nackBus (s : SimBus)
    (h : (readRegister simWire LSM9DS1_ADDRESS LSM9DS1_CTRL_REG1_G s).1 = -1) :
    (getGyroFS simWire s).1 = some 2000 := by
  rw [getGyroFS_fst, h, getGyroFS_setting_neg_one]
  rfl

/-! ## C5: the burst read's failure results -/

/-- C5 at its failing input: when no device acknowledges, the burst read
returns -1, yet `readAccel` and `readGyro` return 1 with values computed from
the stale buffer; likewise `readMagneticField` when the magnetometer does not
acknowledge. -/
theorem read_nack_reports_success :
    (readRegisters simWire LSM9DS1_ADDRESS LSM9DS1_OUT_X_XL staleStack 6 nackBus).1 = -1
    ∧ (readAccel simWire identityCal staleStack nackBus).1
        = some ⟨1, .num (8 / 32768 * 4660), .num (8 / 32768 * 22136), .num (8 / 32768 * (-1))⟩
    ∧ (readRegisters simWire LSM9DS1_ADDRESS LSM9DS1_OUT_X_G staleStack 6 nackBus).1 = -1
    ∧ (readGyro simWire identityCal staleStack nackBus).1
        = some ⟨1, .num (2000 / 32768 * 4660), .num (2000 / 32768 * 22136),
            .num (2000 / 32768 * (-1))⟩
    ∧ (readRegisters simWire LSM9DS1_ADDRESS_M LSM9DS1_OUT_X_L_M staleStack 6
        magnetNackBus).1 = -1
    ∧ (readMagneticField simWire identityCal staleStack magnetNackBus).1
        = some ⟨1, .num (400 / 32768 * 4660), .num (400 / 32768 * 22136),
            .num (400 / 32768 * (-1))⟩ := by
  refine ⟨rfl, ?_, rfl, ?_, rfl, ?_⟩
  · refine (readAccel_of_burst simWire identityCal staleStack staleStack nackBus
      (readRegisters simWire LSM9DS1_ADDRESS LSM9DS1_OUT_X_XL staleStack 6 nackBus).2.2
      8 (-1) (by decide) rfl (getAccelFS_nackBus _ rfl)).trans ?_
    simp [specConvert, samples, int16At, toInt16, identityCal, staleStack]
  · refine (readGyro_of_burst simWire identityCal staleStack staleStack nackBus
      (readRegisters simWire LSM9DS1_ADDRESS LSM9DS1_OUT_X_G staleStack 6 nackBus).2.2
      2000 (-1) (by decide) rfl (getGyroFS_nackBus _ rfl)).trans ?_
    simp [specConvert, samples, int16At, toInt16, identityCal, staleStack]
  · refine (readMagneticField_of_burst simWire identityCal staleStack staleStack magnetNackBus
      (readRegisters simWire LSM9DS1_ADDRESS_M LSM9DS1_OUT_X_L_M staleStack 6
        magnetNackBus).2.2
      400 (-1) (by decide) rfl rfl).trans ?_
    simp [specConvert, samples, int16At, toInt16, identityCal, staleStack]

/-! ## C6: the identity check of `begin` -/

theorem logged_writeRegister (w : TwoWire σ) (a reg v : Nat) (s : σ) (l : List WireCall) :
    writeRegister (logged w) a reg v (s, l)
      = ((writeRegister w a reg v s).1, (writeRegister w a reg v s).2,
          l ++ [.beginTransmission a, .write reg, .write v, .endTransmission true]) := by
  simp only [writeRegister, logged]
  split_ifs <;> simp

theorem logged_readRegister (w : TwoWire σ) (a reg : Nat) (s : σ) (l : List WireCall) :
    readRegister (logged w) a reg (s, l)
      = ((readRegister w a reg s).1, (readRegister w a reg s).2,
          l ++ readRegister.calls w a reg s) := by
  simp only [readRegister, readRegister.calls, logged]
  split_ifs <;> simp

theorem readRegister_calls_cases (w : TwoWire σ) (a reg : Nat) (s : σ) :
    readRegister.calls w a reg s
        = [.beginTransmission a, .write reg, .endTransmission true]
    ∨ readRegister.calls w a reg s
        = [.beginTransmission a, .write reg, .endTransmission true, .requestFrom a 1]
    ∨ readRegister.calls w a reg s
        = [.beginTransmission a, .write reg, .endTransmission true, .requestFrom a 1, .read] := by
  simp only [readRegister.calls]
  split_ifs <;> simp

theorem begin_fst (w : TwoWire σ) (s : σ) :
    (begin w s).1 =
      if (readRegister w LSM9DS1_ADDRESS LSM9DS1_WHO_AM_I (begin.afterReset w s)).1 ≠ 0x68 then 0
      else if (readRegister w LSM9DS1_ADDRESS_M LSM9DS1_WHO_AM_I
        (readRegister w LSM9DS1_ADDRESS LSM9DS1_WHO_AM_I (begin.afterReset w s)).2).1 ≠ 0x3d then 0
      else 1 := by
  simp only [begin, begin.afterReset]
  split_ifs <;> rfl

theorem begin_logged_log (w : TwoWire σ) (s : σ) :
    (begin (logged w) (s, [])).2.2 =
      [.begin, .beginTransmission 0x6b, .write 0x22, .write 0x05, .endTransmission true,
        .beginTransmission 0x1e, .write 0x21, .write 0x0c, .endTransmission true]
      ++ readRegister.calls w LSM9DS1_ADDRESS LSM9DS1_WHO_AM_I (begin.afterReset w s)
      ++ (if (readRegister w LSM9DS1_ADDRESS LSM9DS1_WHO_AM_I (begin.afterReset w s)).1 ≠ 0x68
          then
            [.beginTransmission 0x1e, .write 0x22, .write 0x03, .endTransmission true,
             .beginTransmission 0x6b, .write 0x10, .write 0x00, .endTransmission true,
             .beginTransmission 0x6b, .write 0x20, .write 0x00, .endTransmission true, .end_]
          else
            readRegister.calls w LSM9DS1_ADDRESS_M LSM9DS1_WHO_AM_I
              (readRegister w LSM9DS1_ADDRESS LSM9DS1_WHO_AM_I (begin.afterReset w s)).2
            ++ (if (readRegister w LSM9DS1_ADDRESS_M LSM9DS1_WHO_AM_I
                  (readRegister w LSM9DS1_ADDRESS LSM9DS1_WHO_AM_I
                    (begin.afterReset w s)).2).1 ≠ 0x3d
                then
                  [.beginTransmission 0x1e, .write 0x22, .write 0x03, .endTransmission true,
                   .beginTransmission 0x6b, .write 0x10, .write 0x00, .endTransmission true,
                   .beginTransmission 0x6b, .write 0x20, .write 0x00, .endTransmission true,
                   .end_]
                else
                  [.beginTransmission 0x6b, .write 0x10, .write 0x78, .endTransmission true,
                   .beginTransmission 0x6b, .write 0x20, .write 0x70, .endTransmission true,
                   .beginTransmission 0x1e, .write 0x20, .write 0xb4, .endTransmission true,
                   .beginTransmission 0x1e, .write 0x21, .write 0x00, .endTransmission true,
                   .beginTransmission 0x1e, .write 0x22, .write 0x00,
                   .endTransmission true])) := by
  have hb : (logged w).begin (s, []) = (w.begin s, [WireCall.begin]) := rfl
  have he : ∀ (t : σ) (l : List WireCall), (logged w).end_ (t, l) = (w.end_ t, l ++ [.end_]) :=
    fun _ _ => rfl
  simp only [begin, end_, begin.afterReset, hb, he, logged_writeRegister, logged_readRegister]
  split_ifs <;> simp

theorem begin_logged_fst (w : TwoWire σ) (s : σ) :
    (begin (logged w) (s, [])).1 = (begin w s).1 := by
  have hb : (logged w).begin (s, []) = (w.begin s, [WireCall.begin]) := rfl
  simp only [begin, hb, logged_writeRegister, logged_readRegister]
  split_ifs <;> rfl

/-- C6: `begin` returns 1 exactly when the `WHO_AM_I` register (0x0f) of the
device at 0x6b reads 0x68 and then that of the device at 0x1e reads 0x3d.
Recording the calls on the bus changes no result, and the record shows: when
`begin` returns 1 the three operating configuration bytes were written; in
every other case it returns 0 and none of the register writes
(0x6b, 0x10, 0x78), (0x6b, 0x20, 0x70), (0x1e, 0x20, 0xb4) occurred. -/
theorem begin_identity_check (w : TwoWire σ) (s : σ) :
    ((begin w s).1 = 1 ↔
      (readRegister w LSM9DS1_ADDRESS LSM9DS1_WHO_AM_I (begin.afterReset w s)).1 = 0x68
      ∧ (readRegister w LSM9DS1_ADDRESS_M LSM9DS1_WHO_AM_I
          (readRegister w LSM9DS1_ADDRESS LSM9DS1_WHO_AM_I (begin.afterReset w s)).2).1 = 0x3d)
    ∧ (begin (logged w) (s, [])).1 = (begin w s).1
    ∧ (((begin w s).1 = 1
          ∧ ∀ x ∈ begin.configuration, x ∈ registerWrites (begin (logged w) (s, [])).2.2)
        ∨ ((begin w s).1 = 0
          ∧ ∀ x ∈ begin.configuration, x ∉ registerWrites (begin (logged w) (s, [])).2.2)) := by
  refine ⟨?_, begin_logged_fst w s, ?_⟩
  · rw [begin_fst]
    split_ifs with h1 h2
    · simp [h1]
    · simp [h2]
    · simp only [ne_eq, not_not] at h1 h2
      simp [h1, h2]
  · rw [begin_logged_log, begin_fst]
    rcases readRegister_calls_cases w LSM9DS1_ADDRESS LSM9DS1_WHO_AM_I (begin.afterReset w s)
      with c1 | c1 | c1 <;>
    rcases readRegister_calls_cases w LSM9DS1_ADDRESS_M LSM9DS1_WHO_AM_I
      (readRegister w LSM9DS1_ADDRESS LSM9DS1_WHO_AM_I (begin.afterReset w s)).2
      with c2 | c2 | c2 <;>
    rw [c1, c2] <;>
    split_ifs <;>
    first
      | (left; exact ⟨rfl, by decide⟩)
      | (right; exact ⟨rfl, by decide⟩)

/-! ## C7: a setter after a failed register read -/

theorem setAccelBW_eq (w : TwoWire σ) (range : Nat) (s : σ) :
    setAccelBW w range s =
      (((writeRegister w LSM9DS1_ADDRESS LSM9DS1_CTRL_REG6_XL
          ((toUInt8 (Int.land (readRegister w LSM9DS1_ADDRESS LSM9DS1_CTRL_REG6_XL s).1
            0b11111000) ||| 0b00000100 ||| (range &&& 0b00000011) % 256) % 256)
          (readRegister w LSM9DS1_ADDRESS LSM9DS1_CTRL_REG6_XL s).2).1 : ℚ),
       (writeRegister w LSM9DS1_ADDRESS LSM9DS1_CTRL_REG6_XL
          ((toUInt8 (Int.land (readRegister w LSM9DS1_ADDRESS LSM9DS1_CTRL_REG6_XL s).1
            0b11111000) ||| 0b00000100 ||| (range &&& 0b00000011) % 256) % 256)
          (readRegister w LSM9DS1_ADDRESS LSM9DS1_CTRL_REG6_XL s).2).2) := rfl

/-- C7 at its failing input: on a bus where the register read fails (-1) and
the write succeeds, `setAccelFS(1)` reports success, returning 1 and not 0, and
has written: the control register, 0x08 before the call, holds 0xef after it
(the field or-ed into the bits of -1). -/
theorem setter_reports_success_after_failed_read :
    (readRegister simWire LSM9DS1_ADDRESS LSM9DS1_CTRL_REG6_XL readFaultBus).1 = -1
    ∧ (setAccelFS simWire 1 readFaultBus).1 = 1
    ∧ (setAccelFS simWire 1 readFaultBus).1 ≠ 0
    ∧ readFaultBus.regs LSM9DS1_ADDRESS LSM9DS1_CTRL_REG6_XL = 0x08
    ∧ (setAccelFS simWire 1 readFaultBus).2.regs LSM9DS1_ADDRESS LSM9DS1_CTRL_REG6_XL = 0xef := by
  refine ⟨rfl, rfl, by decide, rfl, ?_⟩
  rw [setAccelFS_eq]
  have h : (readRegister simWire LSM9DS1_ADDRESS LSM9DS1_CTRL_REG6_XL readFaultBus).1 = -1 := rfl
  rw [h, show (0xE7 : Int) = ((0xE7 : Nat) : Int) from rfl, land_neg_one]
  rfl

/-! ## C8: the setters change their own field only -/

theorem testBit_of_masked_eq (b n M k : Nat) (hb : b < 256) (hn : n < 256)
    (h : b &&& M = n &&& M) (hk : M.testBit k = true ∨ 8 ≤ k) :
    b.testBit k = n.testBit k := by
  rcases hk with hk | hk
  · have e := congrArg (fun x => x.testBit k) h
    simpa [Nat.testBit_and, hk] using e
  · have h2 : (256 : Nat) ≤ 2 ^ k :=
      le_trans (by norm_num) (Nat.pow_le_pow_right (by norm_num : 0 < 2) hk)
    rw [Nat.testBit_eq_false_of_lt (lt_of_lt_of_le hb h2),
      Nat.testBit_eq_false_of_lt (lt_of_lt_of_le hn h2)]

theorem shiftLeft5_mod (range : Nat) : (range <<< 5) % 256 = ((range % 8) <<< 5) % 256 := by
  simp only [Nat.shiftLeft_eq]
  omega

set_option maxRecDepth 100000 in
theorem fs_frame : ∀ n : Nat, n < 256 → ∀ m : Nat, m < 4 →
    toUInt8 (Int.lor (Int.land (n : Int) 0xE7) (((m <<< 3) % 256 : Nat) : Int)) &&& 0xE7
      = n &&& 0xE7 := by
  decide

set_option maxRecDepth 100000 in
theorem odr_frame : ∀ n : Nat, n < 256 → ∀ m : Nat, m < 8 →
    toUInt8 (Int.lor (Int.land (n : Int) 0b00011111)
      ((if (m <<< 5) % 256 = 0b11100000 then 0 else (m <<< 5) % 256 : Nat) : Int)) &&& 0x1F
      = n &&& 0x1F := by
  decide

set_option maxRecDepth 100000 in
theorem magnetODR_frame : ∀ n : Nat, n < 256 → ∀ m : Nat, m < 8 →
    toUInt8 (Int.lor (Int.land (n : Int) 0b11100011) (((m <<< 2) % 256 : Nat) : Int)) &&& 0xE3
      = n &&& 0xE3 := by
  decide

theorem fs_byte_frame (r : Int) (h0 : 0 ≤ r) (h1 : r ≤ 255) (range k : Nat)
    (h3 : k ≠ 3) (h4 : k ≠ 4) :
    (toUInt8 (Int.lor (Int.land r 0xE7)
      ((((range &&& 0b00000011) <<< 3) % 256 : Nat) : Int))).testBit k = r.toNat.testBit k := by
  have hm : range &&& 0b00000011 < 4 := Nat.lt_succ_of_le Nat.and_le_right
  revert hm
  generalize range &&& 0b00000011 = m
  intro hm
  refine int_byte_cases (P := fun r => (toUInt8 (Int.lor (Int.land r 0xE7)
      (((m <<< 3) % 256 : Nat) : Int))).testBit k = r.toNat.testBit k) ?_ r h0 h1
  intro n hn
  rw [Int.toNat_ofNat]
  refine testBit_of_masked_eq _ n 0xE7 k (toUInt8_lt _) hn (fs_frame n hn m hm) ?_
  by_cases hk : 8 ≤ k
  · exact Or.inr hk
  · left
    have hk8 : k < 8 := Nat.lt_of_not_le hk
    interval_cases k <;> first | rfl | exact absurd rfl h3 | exact absurd rfl h4

theorem odr_byte_frame (r : Int) (h0 : 0 ≤ r) (h1 : r ≤ 255) (range k : Nat)
    (h5 : k ≠ 5) (h6 : k ≠ 6) (h7 : k ≠ 7) :
    (toUInt8 (Int.lor (Int.land r 0b00011111)
      ((if (range <<< 5) % 256 = 0b11100000 then 0 else (range <<< 5) % 256 : Nat) : Int))).testBit k
      = r.toNat.testBit k := by
  rw [shiftLeft5_mod]
  have hm : range % 8 < 8 := Nat.mod_lt _ (by norm_num)
  revert hm
  generalize range % 8 = m
  intro hm
  refine int_byte_cases (P := fun r => (toUInt8 (Int.lor (Int.land r 0b00011111)
      ((if (m <<< 5) % 256 = 0b11100000 then 0 else (m <<< 5) % 256 : Nat) : Int))).testBit k
      = r.toNat.testBit k) ?_ r h0 h1
  intro n hn
  rw [Int.toNat_ofNat]
  refine testBit_of_masked_eq _ n 0x1F k (toUInt8_lt _) hn (odr_frame n hn m hm) ?_
  by_cases hk : 8 ≤ k
  · exact Or.inr hk
  · left
    have hk8 : k < 8 := Nat.lt_of_not_le hk
    interval_cases k <;>
      first | rfl | exact absurd rfl h5 | exact absurd rfl h6 | exact absurd rfl h7

theorem magnetODR_byte_frame (r : Int) (h0 : 0 ≤ r) (h1 : r ≤ 255) (range k : Nat)
    (h2 : k ≠ 2) (h3 : k ≠ 3) (h4 : k ≠ 4) :
    (toUInt8 (Int.lor (Int.land r 0b11100011)
      ((((range &&& 0b00000111) <<< 2) % 256 : Nat) : Int))).testBit k = r.toNat.testBit k := by
  have hm : range &&& 0b00000111 < 8 := Nat.lt_succ_of_le Nat.and_le_right
  revert hm
  generalize range &&& 0b00000111 = m
  intro hm
  refine int_byte_cases (P := fun r => (toUInt8 (Int.lor (Int.land r 0b11100011)
      (((m <<< 2) % 256 : Nat) : Int))).testBit k = r.toNat.testBit k) ?_ r h0 h1
  intro n hn
  rw [Int.toNat_ofNat]
  refine testBit_of_masked_eq _ n 0xE3 k (toUInt8_lt _) hn (magnetODR_frame n hn m hm) ?_
  by_cases hk : 8 ≤ k
  · exact Or.inr hk
  · left
    have hk8 : k < 8 := Nat.lt_of_not_le hk
    interval_cases k <;>
      first | rfl | exact absurd rfl h2 | exact absurd rfl h3 | exact absurd rfl h4

/-- C8: for every byte read from the control register (the register read
succeeds) and every argument, each of `setAccelFS`, `setGyroFS`, `setAccelODR`,
`setGyroODR` and `setMagnetODR` is one register write of a byte `b` to its own
control register, and every bit of `b` outside the setter's field (full scale:
bits 4:3; accelerometer and gyroscope data rate: bits 7:5; magnetometer data
rate: bits 4:2) equals the corresponding bit of the byte read. -/
theorem setters_preserve_other_bits (w : TwoWire σ) (s : σ) (range : Nat)
    (hrA : 0 ≤ (readRegister w LSM9DS1_ADDRESS LSM9DS1_CTRL_REG6_XL s).1
      ∧ (readRegister w LSM9DS1_ADDRESS LSM9DS1_CTRL_REG6_XL s).1 ≤ 255)
    (hrG : 0 ≤ (readRegister w LSM9DS1_ADDRESS LSM9DS1_CTRL_REG1_G s).1
      ∧ (readRegister w LSM9DS1_ADDRESS LSM9DS1_CTRL_REG1_G s).1 ≤ 255)
    (hrM : 0 ≤ (readRegister w LSM9DS1_ADDRESS_M LSM9DS1_CTRL_REG1_M s).1
      ∧ (readRegister w LSM9DS1_ADDRESS_M LSM9DS1_CTRL_REG1_M s).1 ≤ 255) :
    (∃ b, setAccelFS w range s = writeRegister w LSM9DS1_ADDRESS LSM9DS1_CTRL_REG6_XL b
        (readRegister w LSM9DS1_ADDRESS LSM9DS1_CTRL_REG6_XL s).2
      ∧ ∀ k, k ≠ 3 → k ≠ 4 → b.testBit k
          = (readRegister w LSM9DS1_ADDRESS LSM9DS1_CTRL_REG6_XL s).1.toNat.testBit k)
    ∧ (∃ b, setGyroFS w range s = writeRegister w LSM9DS1_ADDRESS LSM9DS1_CTRL_REG1_G b
        (readRegister w LSM9DS1_ADDRESS LSM9DS1_CTRL_REG1_G s).2
      ∧ ∀ k, k ≠ 3 → k ≠ 4 → b.testBit k
          = (readRegister w LSM9DS1_ADDRESS LSM9DS1_CTRL_REG1_G s).1.toNat.testBit k)
    ∧ (∃ b, setAccelODR w range s = writeRegister w LSM9DS1_ADDRESS LSM9DS1_CTRL_REG6_XL b
        (readRegister w LSM9DS1_ADDRESS LSM9DS1_CTRL_REG6_XL s).2
      ∧ ∀ k, k ≠ 5 → k ≠ 6 → k ≠ 7 → b.testBit k
          = (readRegister w LSM9DS1_ADDRESS LSM9DS1_CTRL_REG6_XL s).1.toNat.testBit k)
    ∧ (∃ b, setGyroODR w range s = writeRegister w LSM9DS1_ADDRESS LSM9DS1_CTRL_REG1_G b
        (readRegister w LSM9DS1_ADDRESS LSM9DS1_CTRL_REG1_G s).2
      ∧ ∀ k, k ≠ 5 → k ≠ 6 → k ≠ 7 → b.testBit k
          = (readRegister w LSM9DS1_ADDRESS LSM9DS1_CTRL_REG1_G s).1.toNat.testBit k)
    ∧ (∃ b, setMagnetODR w range s = writeRegister w LSM9DS1_ADDRESS_M LSM9DS1_CTRL_REG1_M b
        (readRegister w LSM9DS1_ADDRESS_M LSM9DS1_CTRL_REG1_M s).2
      ∧ ∀ k, k ≠ 2 → k ≠ 3 → k ≠ 4 → b.testBit k
          = (readRegister w LSM9DS1_ADDRESS_M LSM9DS1_CTRL_REG1_M s).1.toNat.testBit k) :=
  ⟨⟨_, setAccelFS_eq w range s, fun k => fs_byte_frame _ hrA.1 hrA.2 range k⟩,
   ⟨_, setGyroFS_eq w range s, fun k => fs_byte_frame _ hrG.1 hrG.2 range k⟩,
   ⟨_, setAccelODR_eq w range s, fun k => odr_byte_frame _ hrA.1 hrA.2 range k⟩,
   ⟨_, setGyroODR_eq w range s, fun k => odr_byte_frame _ hrG.1 hrG.2 range k⟩,
   ⟨_, setMagnetODR_eq w range s, fun k => magnetODR_byte_frame _ hrM.1 hrM.2 range k⟩⟩

/-- C8 on the reference bus with argument 2: the accelerometer control register
reads 0x08, the gyroscope and magnetometer control registers read 0x00. -/
theorem setters_preserve_other_bits_witness :
    ((readRegister simWire LSM9DS1_ADDRESS LSM9DS1_CTRL_REG6_XL scenarioBus).1 = 0x08
      ∧ (readRegister simWire LSM9DS1_ADDRESS LSM9DS1_CTRL_REG1_G scenarioBus).1 = 0x00
      ∧ (readRegister simWire LSM9DS1_ADDRESS_M LSM9DS1_CTRL_REG1_M scenarioBus).1 = 0x00)
    ∧ (∃ b, setAccelFS simWire 2 scenarioBus
          = writeRegister simWire LSM9DS1_ADDRESS LSM9DS1_CTRL_REG6_XL b
              (readRegister simWire LSM9DS1_ADDRESS LSM9DS1_CTRL_REG6_XL scenarioBus).2
        ∧ ∀ k, k ≠ 3 → k ≠ 4 → b.testBit k = (0x08 : Nat).testBit k)
    ∧ (∃ b, setGyroFS simWire 2 scenarioBus
          = writeRegister simWire LSM9DS1_ADDRESS LSM9DS1_CTRL_REG1_G b
              (readRegister simWire LSM9DS1_ADDRESS LSM9DS1_CTRL_REG1_G scenarioBus).2
        ∧ ∀ k, k ≠ 3 → k ≠ 4 → b.testBit k = (0x00 : Nat).testBit k)
    ∧ (∃ b, setAccelODR simWire 2 scenarioBus
          = writeRegister simWire LSM9DS1_ADDRESS LSM9DS1_CTRL_REG6_XL b
              (readRegister simWire LSM9DS1_ADDRESS LSM9DS1_CTRL_REG6_XL scenarioBus).2
        ∧ ∀ k, k ≠ 5 → k ≠ 6 → k ≠ 7 → b.testBit k = (0x08 : Nat).testBit k)
    ∧ (∃ b, setGyroODR simWire 2 scenarioBus
          = writeRegister simWire LSM9DS1_ADDRESS LSM9DS1_CTRL_REG1_G b
              (readRegister simWire LSM9DS1_ADDRESS LSM9DS1_CTRL_REG1_G scenarioBus).2
        ∧ ∀ k, k ≠ 5 → k ≠ 6 → k ≠ 7 → b.testBit k = (0x00 : Nat).testBit k)
    ∧ (∃ b, setMagnetODR simWire 2 scenarioBus
          = writeRegister simWire LSM9DS1_ADDRESS_M LSM9DS1_CTRL_REG1_M b
              (readRegister simWire LSM9DS1_ADDRESS_M LSM9DS1_CTRL_REG1_M scenarioBus).2
        ∧ ∀ k, k ≠ 2 → k ≠ 3 → k ≠ 4 → b.testBit k = (0x00 : Nat).testBit k) :=
  ⟨⟨rfl, rfl, rfl⟩,
   setters_preserve_other_bits simWire scenarioBus 2 (by decide) (by decide) (by decide)⟩

/-! ## C9: `setMagnetFS` and the other bits of the register it writes -/

/-- C9 at its failing input: register 0x21 of the device `setMagnetFS`
addresses holds 0x80; `setMagnetFS(1)` makes no read, writes 0x20 and returns
1, so bit 7, outside the full-scale field 6:5, is cleared. -/
theorem setMagnetFS_overwrites_register :
    highBitBus.regs LSM9DS1_ADDRESS LSM9DS1_CTRL_REG2_M = 0x80
    ∧ (setMagnetFS simWire 1 highBitBus).1 = 1
    ∧ (setMagnetFS simWire 1 highBitBus).2.regs LSM9DS1_ADDRESS LSM9DS1_CTRL_REG2_M = 0x20
    ∧ (0x80 : Nat).testBit 7 = true
    ∧ ((setMagnetFS simWire 1 highBitBus).2.regs LSM9DS1_ADDRESS LSM9DS1_CTRL_REG2_M).testBit 7
        = false
    ∧ (setMagnetFS (logged simWire) 1 (highBitBus, [])).2.2
        = [.beginTransmission 0x6b, .write 0x21, .write 0x20, .endTransmission true]
    ∧ (setMagnetFS simWire 1 highBitBus).2.regs LSM9DS1_ADDRESS_M LSM9DS1_CTRL_REG2_M = 0x80 := by
  refine ⟨rfl, rfl, rfl, by decide, by decide, ?_, rfl⟩
  decide

/-! ## C10: table indices after a successful read -/

theorem getAccelBW_fst (w : TwoWire σ) (s : σ) :
    (getAccelBW w s).1 =
      if bitRead 2 (toUInt8 (readRegister w LSM9DS1_ADDRESS LSM9DS1_CTRL_REG6_XL s).1) ≠ 0 then
        getAccelBW.BWXLRange[toUInt8 (readRegister w LSM9DS1_ADDRESS LSM9DS1_CTRL_REG6_XL s).1
          &&& 0b00000011]?
      else
        getAccelBW.autoRange[toUInt8 (readRegister w LSM9DS1_ADDRESS LSM9DS1_CTRL_REG6_XL s).1
          >>> 5]? := by
  simp only [getAccelBW]
  split_ifs <;> rfl

theorem getGyroBW_fst (w : TwoWire σ) (s : σ) :
    (getGyroBW w s).1 =
      BWtable[toUInt8 (readRegister w LSM9DS1_ADDRESS LSM9DS1_CTRL_REG1_G s).1 >>> 5]?.bind
        (fun row => row[toUInt8 (readRegister w LSM9DS1_ADDRESS LSM9DS1_CTRL_REG1_G s).1
          &&& 0b00000011]?) := rfl

set_option maxRecDepth 100000 in
theorem byte_indices_in_bounds : ∀ n : Nat, n < 256 →
    getAccelFS.setting (n : Int) < getAccelFS.ranges.length
    ∧ getGyroFS.setting (n : Int) < getGyroFS.Ranges.length
    ∧ getAccelODR.setting (n : Int) < getAccelODR.Ranges.length
    ∧ getGyroODR.setting (n : Int) < getGyroODR.Ranges.length
    ∧ getMagnetODR.setting (n : Int) < getMagnetODR.ranges.length
    ∧ toUInt8 (n : Int) &&& 0b00000011 < getAccelBW.BWXLRange.length
    ∧ toUInt8 (n : Int) >>> 5 < getAccelBW.autoRange.length
    ∧ toUInt8 (n : Int) >>> 5 < BWtable.length
    ∧ ∀ row ∈ BWtable, toUInt8 (n : Int) &&& 0b00000011 < row.length := by
  decide

theorem getElem?_isSome_of_lt {l : List ℚ} {i : Nat} (h : i < l.length) :
    l[i]?.isSome = true := by
  simp [h]

set_option maxRecDepth 100000 in
theorem getGyroBW_lookup_isSome : ∀ n : Nat, n < 256 →
    (BWtable[toUInt8 (n : Int) >>> 5]?.bind
      (fun row => row[toUInt8 (n : Int) &&& 0b00000011]?)).isSome = true := by
  decide

/-- C10: whenever the register read succeeds, returning a byte 0..255, the
index each of `getAccelFS`, `getGyroFS`, `getAccelODR`, `getGyroODR`,
`getMagnetODR`, `getAccelBW` (either branch) and `getGyroBW` (row and column)
computes is strictly below the size of the table it indexes (4, 4, 8, 8, 8,
4 or 8, 8 by 4), and the getter returns an entry of its table. -/
theorem table_lookups_in_bounds (w : TwoWire σ) (s : σ)
    (hrA : 0 ≤ (readRegister w LSM9DS1_ADDRESS LSM9DS1_CTRL_REG6_XL s).1
      ∧ (readRegister w LSM9DS1_ADDRESS LSM9DS1_CTRL_REG6_XL s).1 ≤ 255)
    (hrG : 0 ≤ (readRegister w LSM9DS1_ADDRESS LSM9DS1_CTRL_REG1_G s).1
      ∧ (readRegister w LSM9DS1_ADDRESS LSM9DS1_CTRL_REG1_G s).1 ≤ 255)
    (hrM : 0 ≤ (readRegister w LSM9DS1_ADDRESS_M LSM9DS1_CTRL_REG1_M s).1
      ∧ (readRegister w LSM9DS1_ADDRESS_M LSM9DS1_CTRL_REG1_M s).1 ≤ 255) :
    (getAccelFS.setting (readRegister w LSM9DS1_ADDRESS LSM9DS1_CTRL_REG6_XL s).1 < 4
      ∧ getAccelFS.ranges.length = 4 ∧ (getAccelFS w s).1.isSome = true)
    ∧ (getGyroFS.setting (readRegister w LSM9DS1_ADDRESS LSM9DS1_CTRL_REG1_G s).1 < 4
      ∧ getGyroFS.Ranges.length = 4 ∧ (getGyroFS w s).1.isSome = true)
    ∧ (getAccelODR.setting (readRegister w LSM9DS1_ADDRESS LSM9DS1_CTRL_REG6_XL s).1 < 8
      ∧ getAccelODR.Ranges.length = 8 ∧ (getAccelODR w s).1.isSome = true)
    ∧ (getGyroODR.setting (readRegister w LSM9DS1_ADDRESS LSM9DS1_CTRL_REG1_G s).1 < 8
      ∧ getGyroODR.Ranges.length = 8 ∧ (getGyroODR w s).1.isSome = true)
    ∧ (getMagnetODR.setting (readRegister w LSM9DS1_ADDRESS_M LSM9DS1_CTRL_REG1_M s).1 < 8
      ∧ getMagnetODR.ranges.length = 8 ∧ (getMagnetODR w s).1.isSome = true)
    ∧ (toUInt8 (readRegister w LSM9DS1_ADDRESS LSM9DS1_CTRL_REG6_XL s).1 &&& 0b00000011 < 4
      ∧ getAccelBW.BWXLRange.length = 4
      ∧ toUInt8 (readRegister w LSM9DS1_ADDRESS LSM9DS1_CTRL_REG6_XL s).1 >>> 5 < 8
      ∧ getAccelBW.autoRange.length = 8 ∧ (getAccelBW w s).1.isSome = true)
    ∧ (toUInt8 (readRegister w LSM9DS1_ADDRESS LSM9DS1_CTRL_REG1_G s).1 >>> 5 < 8
      ∧ BWtable.length = 8
      ∧ toUInt8 (readRegister w LSM9DS1_ADDRESS LSM9DS1_CTRL_REG1_G s).1 &&& 0b00000011 < 4
      ∧ (∀ row ∈ BWtable, row.length = 4) ∧ (getGyroBW w s).1.isSome = true) := by
  have hA := int_byte_cases (P := fun r =>
      getAccelFS.setting r < getAccelFS.ranges.length
      ∧ getAccelODR.setting r < getAccelODR.Ranges.length
      ∧ toUInt8 r &&& 0b00000011 < getAccelBW.BWXLRange.length
      ∧ toUInt8 r >>> 5 < getAccelBW.autoRange.length)
    (fun n hn => ⟨(byte_indices_in_bounds n hn).1, (byte_indices_in_bounds n hn).2.2.1,
      (byte_indices_in_bounds n hn).2.2.2.2.2.1, (byte_indices_in_bounds n hn).2.2.2.2.2.2.1⟩)
    _ hrA.1 hrA.2
  have hG := int_byte_cases (P := fun r =>
      getGyroFS.setting r < getGyroFS.Ranges.length
      ∧ getGyroODR.setting r < getGyroODR.Ranges.length
      ∧ toUInt8 r >>> 5 < BWtable.length
      ∧ (∀ row ∈ BWtable, toUInt8 r &&& 0b00000011 < row.length)
      ∧ (BWtable[toUInt8 r >>> 5]?.bind
          (fun row => row[toUInt8 r &&& 0b00000011]?)).isSome = true)
    (fun n hn => ⟨(byte_indices_in_bounds n hn).2.1, (byte_indices_in_bounds n hn).2.2.2.1,
      (byte_indices_in_bounds n hn).2.2.2.2.2.2.2.1,
      (byte_indices_in_bounds n hn).2.2.2.2.2.2.2.2, getGyroBW_lookup_isSome n hn⟩)
    _ hrG.1 hrG.2
  have hM := int_byte_cases (P := fun r =>
      getMagnetODR.setting r < getMagnetODR.ranges.length)
    (fun n hn => (byte_indices_in_bounds n hn).2.2.2.2.1) _ hrM.1 hrM.2
  refine ⟨⟨hA.1, rfl, ?_⟩, ⟨hG.1, rfl, ?_⟩, ⟨hA.2.1, rfl, ?_⟩, ⟨hG.2.1, rfl, ?_⟩,
    ⟨hM, rfl, ?_⟩, ⟨hA.2.2.1, rfl, hA.2.2.2, rfl, ?_⟩,
    ⟨hG.2.2.1, rfl, hG.2.2.2.1 [0, 0, 0, 0] (by decide), by decide, ?_⟩⟩
  · rw [getAccelFS_fst]
    exact getElem?_isSome_of_lt hA.1
  · rw [getGyroFS_fst]
    exact getElem?_isSome_of_lt hG.1
  · rw [getAccelODR_fst]
    exact getElem?_isSome_of_lt hA.2.1
  · rw [getGyroODR_fst]
    exact getElem?_isSome_of_lt hG.2.1
  · rw [getMagnetODR_fst]
    exact getElem?_isSome_of_lt hM
  · rw [getAccelBW_fst]
    split_ifs
    · exact getElem?_isSome_of_lt hA.2.2.1
    · exact getElem?_isSome_of_lt hA.2.2.2
  · rw [getGyroBW_fst]
    exact hG.2.2.2.2

/-- C10 on the reference bus whose registers all hold 0xff: the indices are
3, 3, 7, 7, 7, 3 or 7, and (7, 3). -/
theorem table_lookups_in_bounds_witness :
    ((readRegister simWire LSM9DS1_ADDRESS LSM9DS1_CTRL_REG6_XL allOnesBus).1 = 0xff
      ∧ (readRegister simWire LSM9DS1_ADDRESS LSM9DS1_CTRL_REG1_G allOnesBus).1 = 0xff
      ∧ (readRegister simWire LSM9DS1_ADDRESS_M LSM9DS1_CTRL_REG1_M allOnesBus).1 = 0xff)
    ∧ (getAccelFS.setting 0xff = 3 ∧ getGyroFS.setting 0xff = 3
      ∧ getAccelODR.setting 0xff = 7 ∧ getGyroODR.setting 0xff = 7
      ∧ getMagnetODR.setting 0xff = 7)
    ∧ ((getAccelFS.setting (readRegister simWire LSM9DS1_ADDRESS LSM9DS1_CTRL_REG6_XL
          allOnesBus).1 < 4
        ∧ getAccelFS.ranges.length = 4 ∧ (getAccelFS simWire allOnesBus).1.isSome = true)
      ∧ (getGyroFS.setting (readRegister simWire LSM9DS1_ADDRESS LSM9DS1_CTRL_REG1_G
          allOnesBus).1 < 4
        ∧ getGyroFS.Ranges.length = 4 ∧ (getGyroFS simWire allOnesBus).1.isSome = true)
      ∧ (getAccelODR.setting (readRegister simWire LSM9DS1_ADDRESS LSM9DS1_CTRL_REG6_XL
          allOnesBus).1 < 8
        ∧ getAccelODR.Ranges.length = 8 ∧ (getAccelODR simWire allOnesBus).1.isSome = true)
      ∧ (getGyroODR.setting (readRegister simWire LSM9DS1_ADDRESS LSM9DS1_CTRL_REG1_G
          allOnesBus).1 < 8
        ∧ getGyroODR.Ranges.length = 8 ∧ (getGyroODR simWire allOnesBus).1.isSome = true)
      ∧ (getMagnetODR.setting (readRegister simWire LSM9DS1_ADDRESS_M LSM9DS1_CTRL_REG1_M
          allOnesBus).1 < 8
        ∧ getMagnetODR.ranges.length = 8 ∧ (getMagnetODR simWire allOnesBus).1.isSome = true)
      ∧ (toUInt8 (readRegister simWire LSM9DS1_ADDRESS LSM9DS1_CTRL_REG6_XL allOnesBus).1
            &&& 0b00000011 < 4
        ∧ getAccelBW.BWXLRange.length = 4
        ∧ toUInt8 (readRegister simWire LSM9DS1_ADDRESS LSM9DS1_CTRL_REG6_XL allOnesBus).1
            >>> 5 < 8
        ∧ getAccelBW.autoRange.length = 8 ∧ (getAccelBW simWire allOnesBus).1.isSome = true)
      ∧ (toUInt8 (readRegister simWire LSM9DS1_ADDRESS LSM9DS1_CTRL_REG1_G allOnesBus).1
            >>> 5 < 8
        ∧ BWtable.length = 8
        ∧ toUInt8 (readRegister simWire LSM9DS1_ADDRESS LSM9DS1_CTRL_REG1_G allOnesBus).1
            &&& 0b00000011 < 4
        ∧ (∀ row ∈ BWtable, row.length = 4)
        ∧ (getGyroBW simWire allOnesBus).1.isSome = true)) :=
  ⟨⟨rfl, rfl, rfl⟩, ⟨by decide, by decide, by decide, by decide, by decide⟩,
   table_lookups_in_bounds simWire allOnesBus (by decide) (by decide) (by decide)⟩

/-! ## C11: the index of `getMagnetFS` -/

set_option maxRecDepth 100000 in
theorem getMagnetFS_setting_high : ∀ n : Nat, n < 256 → 128 ≤ n →
    ¬ getMagnetFS.setting (n : Int) < 4 := by
  decide

set_option maxRecDepth 100000 in
theorem getMagnetFS_setting_low : ∀ n : Nat, n < 128 → getMagnetFS.setting (n : Int) < 4 := by
  decide

/-- C11 at its failing input: the register `getMagnetFS` reads holds 0x80, a
successful read; the index is `0x80 >> 5 = 4`, not below the table size 4, and
the lookup is out of bounds. Every byte from 0x80 on behaves so, every byte
below 0x80 gives an index below 4. -/
theorem getMagnetFS_index_out_of_bounds :
    (readRegister simWire LSM9DS1_ADDRESS LSM9DS1_CTRL_REG2_M highBitBus).1 = 0x80
    ∧ getMagnetFS.setting 0x80 = 4
    ∧ getMagnetFS.Ranges.length = 4
    ∧ ¬ getMagnetFS.setting 0x80 < getMagnetFS.Ranges.length
    ∧ (getMagnetFS simWire highBitBus).1 = none
    ∧ (∀ n : Nat, n < 256 → 128 ≤ n → ¬ getMagnetFS.setting (n : Int) < 4)
    ∧ (∀ n : Nat, n < 128 → getMagnetFS.setting (n : Int) < 4) := by
  exact ⟨rfl, by decide, rfl, by decide, rfl, getMagnetFS_setting_high,
    getMagnetFS_setting_low⟩

/-! ## C12: the int16 boundaries -/

theorem samples_range (bytes : List Nat) (i : Fin 3) :
    -32768 ≤ samples bytes i ∧ samples bytes i ≤ 32767 := by
  unfold samples int16At toInt16
  split_ifs <;> omega

theorem identity_convert_bounds (F : ℚ) (hF : 0 < F) (raw : Fin 3 → Int) (i : Fin 3)
    (hlo : -32768 ≤ raw i) (hhi : raw i ≤ 32767) :
    specConvert 1 ![1, 1, 1] ![0, 0, 0] F raw i = raw i * F / 32768
    ∧ -F ≤ specConvert 1 ![1, 1, 1] ![0, 0, 0] F raw i
    ∧ specConvert 1 ![1, 1, 1] ![0, 0, 0] F raw i < F
    ∧ (raw i = -32768 → specConvert 1 ![1, 1, 1] ![0, 0, 0] F raw i = -F)
    ∧ (raw i = 32767 → specConvert 1 ![1, 1, 1] ![0, 0, 0] F raw i = F * 32767 / 32768) := by
  have e : specConvert 1 ![1, 1, 1] ![0, 0, 0] F raw i = raw i * F / 32768 := by
    fin_cases i <;> simp [specConvert] <;> ring
  have hlo' : (-32768 : ℚ) ≤ (raw i : ℚ) := by exact_mod_cast hlo
  have hhi' : (raw i : ℚ) ≤ 32767 := by exact_mod_cast hhi
  rw [e]
  refine ⟨rfl, ?_, ?_, ?_, ?_⟩
  · rw [le_div_iff₀ (by norm_num)]
    nlinarith
  · rw [div_lt_iff₀ (by norm_num)]
    nlinarith
  · intro h
    rw [h]
    push_cast
    ring
  · intro h
    rw [h]
    push_cast
    ring

/-- C12: with identity calibration and a full-scale value `F > 0`, every read
whose burst succeeds outputs, on each axis `i`, the number
`raw[i] * F / 32768`, where `raw[i]` is an `int16_t` (-32768..32767); that
number lies in `[-F, F)`, is exactly `-F` for the code -32768 and exactly
`F * 32767 / 32768` for the code 32767. -/
theorem int16_boundaries_no_overflow (w : TwoWire σ) (data : List Nat) (s : σ)
    (bytesA bytesG bytesM : List Nat) (sA sG sM : σ) (FA FG FM : ℚ)
    (hpA : 0 < FA) (hpG : 0 < FG) (hpM : 0 < FM)
    (hA : readRegisters w LSM9DS1_ADDRESS LSM9DS1_OUT_X_XL data 6 s = (1, bytesA, sA))
    (hFA : (getAccelFS w sA).1 = some FA)
    (hG : readRegisters w LSM9DS1_ADDRESS LSM9DS1_OUT_X_G data 6 s = (1, bytesG, sG))
    (hFG : (getGyroFS w sG).1 = some FG)
    (hM : readRegisters w LSM9DS1_ADDRESS_M LSM9DS1_OUT_X_L_M data 6 s = (1, bytesM, sM))
    (hFM : (getMagnetFS w sM).1 = some FM) :
    (∃ v : Fin 3 → ℚ,
        (readAccel w identityCal data s).1 = some ⟨1, .num (v 0), .num (v 1), .num (v 2)⟩
        ∧ ∀ i, v i = samples bytesA i * FA / 32768
          ∧ -32768 ≤ samples bytesA i ∧ samples bytesA i ≤ 32767
          ∧ -FA ≤ v i ∧ v i < FA
          ∧ (samples bytesA i = -32768 → v i = -FA)
          ∧ (samples bytesA i = 32767 → v i = FA * 32767 / 32768))
    ∧ (∃ v : Fin 3 → ℚ,
        (readGyro w identityCal data s).1 = some ⟨1, .num (v 0), .num (v 1), .num (v 2)⟩
        ∧ ∀ i, v i = samples bytesG i * FG / 32768
          ∧ -32768 ≤ samples bytesG i ∧ samples bytesG i ≤ 32767
          ∧ -FG ≤ v i ∧ v i < FG
          ∧ (samples bytesG i = -32768 → v i = -FG)
          ∧ (samples bytesG i = 32767 → v i = FG * 32767 / 32768))
    ∧ (∃ v : Fin 3 → ℚ,
        (readMagneticField w identityCal data s).1
          = some ⟨1, .num (v 0), .num (v 1), .num (v 2)⟩
        ∧ ∀ i, v i = samples bytesM i * FM / 32768
          ∧ -32768 ≤ samples bytesM i ∧ samples bytesM i ≤ 32767
          ∧ -FM ≤ v i ∧ v i < FM
          ∧ (samples bytesM i = -32768 → v i = -FM)
          ∧ (samples bytesM i = 32767 → v i = FM * 32767 / 32768)) := by
  refine ⟨⟨fun i => specConvert 1 ![1, 1, 1] ![0, 0, 0] FA (samples bytesA) i,
      readAccel_of_burst w identityCal data bytesA s sA FA 1 one_ne_zero hA hFA, ?_⟩,
    ⟨fun i => specConvert 1 ![1, 1, 1] ![0, 0, 0] FG (samples bytesG) i,
      readGyro_of_burst w identityCal data bytesG s sG FG 1 one_ne_zero hG hFG, ?_⟩,
    ⟨fun i => specConvert 1 ![1, 1, 1] ![0, 0, 0] FM (samples bytesM) i,
      readMagneticField_of_burst w identityCal data bytesM s sM FM 1 one_ne_zero hM hFM, ?_⟩⟩
  · intro i
    have b := identity_convert_bounds FA hpA (samples bytesA) i
      (samples_range bytesA i).1 (samples_range bytesA i).2
    exact ⟨b.1, (samples_range bytesA i).1, (samples_range bytesA i).2, b.2⟩
  · intro i
    have b := identity_convert_bounds FG hpG (samples bytesG) i
      (samples_range bytesG i).1 (samples_range bytesG i).2
    exact ⟨b.1, (samples_range bytesG i).1, (samples_range bytesG i).2, b.2⟩
  · intro i
    have b := identity_convert_bounds FM hpM (samples bytesM) i
      (samples_range bytesM i).1 (samples_range bytesM i).2
    exact ⟨b.1, (samples_range bytesM i).1, (samples_range bytesM i).2, b.2⟩

theorem scenario_samples :
    samples [0x00, 0x40, 0x00, 0x00, 0x00, 0xc0] = ![16384, 0, -16384]
    ∧ samples [0xff, 0x7f, 0x00, 0x80, 0x00, 0x00] = ![32767, -32768, 0]
    ∧ samples [0x00, 0x08, 0x00, 0x00, 0x00, 0x00] = ![2048, 0, 0] := by
  refine ⟨?_, ?_, ?_⟩ <;> funext i <;> fin_cases i <;> decide

/-- C12 on the reference bus: gyroscope at 245 dps with samples
`[32767, -32768, 0]` reads `245 * 32767 / 32768`, `-245` and `0`. -/
theorem int16_boundaries_no_overflow_witness :
    ((0 : ℚ) < 16 ∧ (0 : ℚ) < 245 ∧ (0 : ℚ) < 400
      ∧ (readRegisters simWire LSM9DS1_ADDRESS LSM9DS1_OUT_X_G [0, 0, 0, 0, 0, 0] 6
          scenarioBus).1 = 1
      ∧ (readRegisters simWire LSM9DS1_ADDRESS LSM9DS1_OUT_X_G [0, 0, 0, 0, 0, 0] 6
          scenarioBus).2.1 = [0xff, 0x7f, 0x00, 0x80, 0x00, 0x00]
      ∧ samples [0xff, 0x7f, 0x00, 0x80, 0x00, 0x00] = ![32767, -32768, 0]
      ∧ (getGyroFS simWire (readRegisters simWire LSM9DS1_ADDRESS LSM9DS1_OUT_X_G
          [0, 0, 0, 0, 0, 0] 6 scenarioBus).2.2).1 = some 245)
    ∧ ∃ v : Fin 3 → ℚ,
        (readGyro simWire identityCal [0, 0, 0, 0, 0, 0] scenarioBus).1
          = some ⟨1, .num (v 0), .num (v 1), .num (v 2)⟩
        ∧ v 0 = 245 * 32767 / 32768 ∧ v 1 = -245 ∧ v 2 = 0
        ∧ ∀ i, -245 ≤ v i ∧ v i < 245 := by
  have h := int16_boundaries_no_overflow simWire [0, 0, 0, 0, 0, 0] scenarioBus
    [0x00, 0x40, 0x00, 0x00, 0x00, 0xc0] [0xff, 0x7f, 0x00, 0x80, 0x00, 0x00]
    [0x00, 0x08, 0x00, 0x00, 0x00, 0x00]
    (readRegisters simWire LSM9DS1_ADDRESS LSM9DS1_OUT_X_XL [0, 0, 0, 0, 0, 0] 6 scenarioBus).2.2
    (readRegisters simWire LSM9DS1_ADDRESS LSM9DS1_OUT_X_G [0, 0, 0, 0, 0, 0] 6 scenarioBus).2.2
    (readRegisters simWire LSM9DS1_ADDRESS_M LSM9DS1_OUT_X_L_M [0, 0, 0, 0, 0, 0] 6
      scenarioBus).2.2
    16 245 400 (by norm_num) (by norm_num) (by norm_num) rfl rfl rfl rfl rfl rfl
  obtain ⟨v, hv, hb⟩ := h.2.1
  refine ⟨⟨by norm_num, by norm_num, by norm_num, rfl, rfl, scenario_samples.2.1, rfl⟩,
    v, hv, ?_, ?_, ?_, fun i => ⟨(hb i).2.2.2.1, (hb i).2.2.2.2.1⟩⟩
  · rw [(hb 0).2.2.2.2.2.2 (by rw [scenario_samples.2.1]; rfl)]
  · exact (hb 1).2.2.2.2.2.1 (by rw [scenario_samples.2.1]; rfl)
  · rw [(hb 2).1, scenario_samples.2.1]
    simp

/-! ## C13: accelerometer bandwidth round trip -/

set_option maxRecDepth 100000 in
theorem bitRead_two_iff : ∀ RegIs : Nat, RegIs < 256 → (bitRead 2 RegIs ≠ 0 ↔ RegIs = 1) := by
  decide

/-- C13 at its failing input: `CTRL_REG6_XL` holds 0x08; `setAccelBW(1)`
returns 1 and stores 0x0d (override bit 2 set, field 01), yet `getAccelBW`
returns the automatic entry `autoRange[0] = 0`, not the selected 211: its
condition `bitRead(2, RegIs)` is `(2 >> RegIs) & 1`, non-zero only for
`RegIs = 1`, and not bit 2 of `RegIs`. -/
theorem getAccelBW_ignores_override :
    scenarioBus.regs LSM9DS1_ADDRESS LSM9DS1_CTRL_REG6_XL = 0x08
    ∧ (setAccelBW simWire 1 scenarioBus).1 = 1
    ∧ (setAccelBW simWire 1 scenarioBus).2.regs LSM9DS1_ADDRESS LSM9DS1_CTRL_REG6_XL = 0x0d
    ∧ (0x0d : Nat).testBit 2 = true
    ∧ bitRead 2 0x0d = 0
    ∧ (getAccelBW simWire (setAccelBW simWire 1 scenarioBus).2).1 = some 0
    ∧ (getAccelBW simWire (setAccelBW simWire 1 scenarioBus).2).1
        ≠ ([408, 211, 105, 50] : List ℚ)[1]?
    ∧ ∀ RegIs : Nat, RegIs < 256 → (bitRead 2 RegIs ≠ 0 ↔ RegIs = 1) := by
  have hget : (getAccelBW simWire (setAccelBW simWire 1 scenarioBus).2).1 = some 0 := rfl
  refine ⟨rfl, ?_, rfl, by decide, by decide, hget, ?_, bitRead_two_iff⟩
  · have h : (writeRegister simWire LSM9DS1_ADDRESS LSM9DS1_CTRL_REG6_XL
        ((toUInt8 (Int.land (readRegister simWire LSM9DS1_ADDRESS LSM9DS1_CTRL_REG6_XL
          scenarioBus).1 0b11111000) ||| 0b00000100 ||| (1 &&& 0b00000011) % 256) % 256)
        (readRegister simWire LSM9DS1_ADDRESS LSM9DS1_CTRL_REG6_XL scenarioBus).2).1 = 1 := rfl
    rw [setAccelBW_eq]
    simp only [h]
    norm_num
  · rw [hget]
    simp

/-! ## C14: offset first, slope afterwards, in binary32 -/

set_option maxRecDepth 100000 in
theorem third_slope_values :
    F32.div (F32.ofInt 1) (F32.ofInt 3) = .fin false 11184811 (-25)
    ∧ (some (⟨1,
      F32.mul (F32.mul
          (Binary32.setAccelOffset Binary32.identityCal (F32.ofInt 0) (F32.ofInt 0)
            (F32.ofInt 0)).accelUnit
          ((Binary32.setAccelOffset Binary32.identityCal (F32.ofInt 0) (F32.ofInt 0)
            (F32.ofInt 0)).accelSlope 0))
        (Binary32.corrected (F32.ofInt 16) (samples [0x01, 0xc0, 0xe8, 0x03, 0x00, 0x18] 0)
          ((Binary32.setAccelOffset Binary32.identityCal (F32.ofInt 0) (F32.ofInt 0)
            (F32.ofInt 0)).accelOffset 0)),
      F32.mul (F32.mul
          (Binary32.setAccelOffset Binary32.identityCal (F32.ofInt 0) (F32.ofInt 0)
            (F32.ofInt 0)).accelUnit
          ((Binary32.setAccelOffset Binary32.identityCal (F32.ofInt 0) (F32.ofInt 0)
            (F32.ofInt 0)).accelSlope 1))
        (Binary32.corrected (F32.ofInt 16) (samples [0x01, 0xc0, 0xe8, 0x03, 0x00, 0x18] 1)
          ((Binary32.setAccelOffset Binary32.identityCal (F32.ofInt 0) (F32.ofInt 0)
            (F32.ofInt 0)).accelOffset 1)),
      F32.mul (F32.mul
          (Binary32.setAccelOffset Binary32.identityCal (F32.ofInt 0) (F32.ofInt 0)
            (F32.ofInt 0)).accelUnit
          ((Binary32.setAccelOffset Binary32.identityCal (F32.ofInt 0) (F32.ofInt 0)
            (F32.ofInt 0)).accelSlope 2))
        (Binary32.corrected (F32.ofInt 16) (samples [0x01, 0xc0, 0xe8, 0x03, 0x00, 0x18] 2)
          ((Binary32.setAccelOffset Binary32.identityCal (F32.ofInt 0) (F32.ofInt 0)
            (F32.ofInt 0)).accelOffset 2))⟩ : Binary32.Reading)
      = some ⟨1, .fin true 16383 (-11), .fin false 125 (-8), .fin false 3 0⟩)
    ∧ (some (⟨1,
      F32.mul (F32.mul
          (Binary32.setAccelSlope
            (Binary32.setAccelOffset Binary32.identityCal (F32.ofInt 0) (F32.ofInt 0)
              (F32.ofInt 0))
            (.fin false 11184811 (-25)) (.fin false 11184811 (-25))
            (.fin false 11184811 (-25))).accelUnit
          ((Binary32.setAccelSlope
            (Binary32.setAccelOffset Binary32.identityCal (F32.ofInt 0) (F32.ofInt 0)
              (F32.ofInt 0))
            (.fin false 11184811 (-25)) (.fin false 11184811 (-25))
            (.fin false 11184811 (-25))).accelSlope 0))
        (Binary32.corrected (F32.ofInt 16) (samples [0x01, 0xc0, 0xe8, 0x03, 0x00, 0x18] 0)
          ((Binary32.setAccelSlope
            (Binary32.setAccelOffset Binary32.identityCal (F32.ofInt 0) (F32.ofInt 0)
              (F32.ofInt 0))
            (.fin false 11184811 (-25)) (.fin false 11184811 (-25))
            (.fin false 11184811 (-25))).accelOffset 0)),
      F32.mul (F32.mul
          (Binary32.setAccelSlope
            (Binary32.setAccelOffset Binary32.identityCal (F32.ofInt 0) (F32.ofInt 0)
              (F32.ofInt 0))
            (.fin false 11184811 (-25)) (.fin false 11184811 (-25))
            (.fin false 11184811 (-25))).accelUnit
          ((Binary32.setAccelSlope
            (Binary32.setAccelOffset Binary32.identityCal (F32.ofInt 0) (F32.ofInt 0)
              (F32.ofInt 0))
            (.fin false 11184811 (-25)) (.fin false 11184811 (-25))
            (.fin false 11184811 (-25))).accelSlope 1))
        (Binary32.corrected (F32.ofInt 16) (samples [0x01, 0xc0, 0xe8, 0x03, 0x00, 0x18] 1)
          ((Binary32.setAccelSlope
            (Binary32.setAccelOffset Binary32.identityCal (F32.ofInt 0) (F32.ofInt 0)
              (F32.ofInt 0))
            (.fin false 11184811 (-25)) (.fin false 11184811 (-25))
            (.fin false 11184811 (-25))).accelOffset 1)),
      F32.mul (F32.mul
          (Binary32.setAccelSlope
            (Binary32.setAccelOffset Binary32.identityCal (F32.ofInt 0) (F32.ofInt 0)
              (F32.ofInt 0))
            (.fin false 11184811 (-25)) (.fin false 11184811 (-25))
            (.fin false 11184811 (-25))).accelUnit
          ((Binary32.setAccelSlope
            (Binary32.setAccelOffset Binary32.identityCal (F32.ofInt 0) (F32.ofInt 0)
              (F32.ofInt 0))
            (.fin false 11184811 (-25)) (.fin false 11184811 (-25))
            (.fin false 11184811 (-25))).accelSlope 2))
        (Binary32.corrected (F32.ofInt 16) (samples [0x01, 0xc0, 0xe8, 0x03, 0x00, 0x18] 2)
          ((Binary32.setAccelSlope
            (Binary32.setAccelOffset Binary32.identityCal (F32.ofInt 0) (F32.ofInt 0)
              (F32.ofInt 0))
            (.fin false 11184811 (-25)) (.fin false 11184811 (-25))
            (.fin false 11184811 (-25))).accelOffset 2))⟩ : Binary32.Reading)
      = some ⟨1, .fin true 5461 (-11), .fin false 10922667 (-26), .fin false 1 0⟩) := by
  refine ⟨by decide!, by decide!, by decide!⟩

/-- C14 fails on the binary32 code: identity calibration, `setAccelOffset(0, 0, 0)`,
accelerometer at 16 g with samples `[-16383, 1000, 6144]`, which read
`-16383/2048`, `125/256` and 3. The slopes are then changed from 1 to
`1.0f / 3.0f = 11184811 / 2^25`. The same samples now read `-5461/2048`,
`10922667 / 2^26` and 1, while `s'/s` times the earlier reading of the third
axis is `33554433 / 33554432`, not 1. -/
theorem slope_ratio_law_rounds :
    (readRegisters simWire LSM9DS1_ADDRESS LSM9DS1_OUT_X_XL [0, 0, 0, 0, 0, 0] 6 roundingBus).1
      = 1
    ∧ samples (readRegisters simWire LSM9DS1_ADDRESS LSM9DS1_OUT_X_XL [0, 0, 0, 0, 0, 0] 6
        roundingBus).2.1 = ![-16383, 1000, 6144]
    ∧ F32.div (F32.ofInt 1) (F32.ofInt 3) = .fin false 11184811 (-25)
    ∧ (Binary32.setAccelOffset Binary32.identityCal (F32.ofInt 0) (F32.ofInt 0)
        (F32.ofInt 0)).accelSlope 2 = .fin false 1 0
    ∧ (Binary32.readAccel simWire
        (Binary32.setAccelOffset Binary32.identityCal (F32.ofInt 0) (F32.ofInt 0) (F32.ofInt 0))
        [0, 0, 0, 0, 0, 0] roundingBus).1
        = some ⟨1, .fin true 16383 (-11), .fin false 125 (-8), .fin false 3 0⟩
    ∧ (Binary32.readAccel simWire
        (Binary32.setAccelSlope
          (Binary32.setAccelOffset Binary32.identityCal (F32.ofInt 0) (F32.ofInt 0)
            (F32.ofInt 0))
          (.fin false 11184811 (-25)) (.fin false 11184811 (-25)) (.fin false 11184811 (-25)))
        [0, 0, 0, 0, 0, 0] roundingBus).1
        = some ⟨1, .fin true 5461 (-11), .fin false 10922667 (-26), .fin false 1 0⟩
    ∧ F32.toRat (.fin false 11184811 (-25)) = some (11184811 / 33554432)
    ∧ F32.toRat (.fin false 1 0) = some 1
    ∧ F32.toRat (.fin false 3 0) = some 3
    ∧ (11184811 / 33554432 : ℚ) / 1 * 3 = 33554433 / 33554432
    ∧ (33554433 / 33554432 : ℚ) ≠ 1 := by
  refine ⟨rfl, roundingBus_accel_burst.2.2, third_slope_values.1, by decide!,
    (Binary32.readAccel_of_burst32 simWire _ _ _ _ _ _ roundingBus_accel_burst.1
      roundingBus_accel_burst.2.1).trans third_slope_values.2.1,
    (Binary32.readAccel_of_burst32 simWire _ _ _ _ _ _ roundingBus_accel_burst.1
      roundingBus_accel_burst.2.1).trans third_slope_values.2.2, ?_, ?_, ?_, ?_, ?_⟩
  · simp only [F32.toRat]
    norm_num
  · simp [F32.toRat]
  · simp [F32.toRat]
  · norm_num
  · norm_num

theorem F32.slope_ratio_tolerance (u s s' d : F32)
    (h1 : (F32.mul u s).isNormal = true)
    (h2 : (F32.mul (F32.mul u s) d).isNormal = true)
    (h1' : (F32.mul u s').isNormal = true)
    (h2' : (F32.mul (F32.mul u s') d).isNormal = true) :
    ∃ vs vs' vb va : ℚ, F32.toRat s = some vs ∧ F32.toRat s' = some vs' ∧ vs ≠ 0
      ∧ F32.toRat (F32.mul (F32.mul u s) d) = some vb
      ∧ F32.toRat (F32.mul (F32.mul u s') d) = some va
      ∧ |va - vs' / vs * vb| ≤ |va| / 2 ^ 21 := by
  obtain ⟨vu, vs, vM, hu, hs, hM, e1⟩ := F32.mul_error _ _ h1
  obtain ⟨vM2, vd, vb, hM2, hd, hb, e2⟩ := F32.mul_error _ _ h2
  obtain ⟨vu', vs', vM', hu', hs', hM', e1'⟩ := F32.mul_error _ _ h1'
  obtain ⟨vM2', vd', va, hM2', hd', ha, e2'⟩ := F32.mul_error _ _ h2'
  have a1 : vM2 = vM := Option.some.inj (hM2.symm.trans hM)
  have a2 : vu' = vu := Option.some.inj (hu'.symm.trans hu)
  have a3 : vM2' = vM' := Option.some.inj (hM2'.symm.trans hM')
  have a4 : vd' = vd := Option.some.inj (hd'.symm.trans hd)
  subst a1 a2 a3 a4
  have hMne : vM2 ≠ 0 := F32.toRat_ne_zero_of_isNormal _ _ h1 hM
  have hsne : vs ≠ 0 := by
    intro h0
    rw [h0, mul_zero, sub_zero] at e1
    have hpos : 0 < |vM2| := abs_pos.2 hMne
    have : |vM2| / 2 ^ 24 < |vM2| := by
      rw [div_lt_iff₀ (by positivity)]
      linarith [mul_lt_mul_of_pos_left (show (1 : ℚ) < 2 ^ 24 by norm_num) hpos]
    linarith
  exact ⟨vs, vs', vb, va, hs, hs', hsne, hb, ha,
    F32.slope_ratio_chain _ _ _ _ _ _ _ _ hsne e1 e2 e1' e2'⟩

/-- C14, as the binary32 code computes it, channel by channel and axis by
axis: `setSlope` leaves the stored offsets and the unit unchanged. When the
channel's burst read returns 1 with the buffer `bytes` and the full-scale
getter decodes `F`, the reading of axis `i` before `setSlope(x, y, z)` is the
rounded product of `unit * slope[i]` and `d[i] = scale * raw[i] - offset[i]`,
and after it the rounded product of `unit * [x, y, z][i]` and the same
`d[i]`, every operation rounded to binary32. A sample whose `d[i]` is zero
reads zero before the change when `unit * slope[i]` is finite, and zero after
it when `unit * [x, y, z][i]` is finite. The ratio law holds up to rounding:
when both products `unit * slope` and both readings are normal numbers (no
overflow, no underflow), the old slope `s` is non-zero and the reading after
the change differs from `s'/s` times the reading before it by at most `2^-21`
times its own magnitude. Nothing is assumed about the other channels or the
other axes. -/
theorem slope_after_offset_binary32 (w : TwoWire σ) (self : Binary32.LSM9DS1Class)
    (data : List Nat) (s : σ) (x y z : F32) :
    ((Binary32.setAccelSlope self x y z).accelOffset = self.accelOffset
      ∧ (Binary32.setAccelSlope self x y z).accelUnit = self.accelUnit
      ∧ ∀ (bytes : List Nat) (s1 : σ) (F : F32),
        readRegisters w LSM9DS1_ADDRESS LSM9DS1_OUT_X_XL data 6 s = (1, bytes, s1) →
        (Binary32.getAccelFS w s1).1 = some F →
        ∃ b a : Binary32.Reading,
          (Binary32.readAccel w self data s).1 = some b ∧ b.ret = 1
          ∧ (Binary32.readAccel w (Binary32.setAccelSlope self x y z) data s).1 = some a
          ∧ a.ret = 1
          ∧ ∀ i : Fin 3,
              b.axis i = F32.mul (F32.mul self.accelUnit (self.accelSlope i))
                (Binary32.corrected F (samples bytes i) (self.accelOffset i))
              ∧ a.axis i = F32.mul (F32.mul self.accelUnit (![x, y, z] i))
                (Binary32.corrected F (samples bytes i) (self.accelOffset i))
              ∧ ((Binary32.corrected F (samples bytes i) (self.accelOffset i)).isZero = true →
                  (F32.mul self.accelUnit (self.accelSlope i)).isFinite = true →
                  (b.axis i).isZero = true)
              ∧ ((Binary32.corrected F (samples bytes i) (self.accelOffset i)).isZero = true →
                  (F32.mul self.accelUnit (![x, y, z] i)).isFinite = true →
                  (a.axis i).isZero = true)
              ∧ ((F32.mul self.accelUnit (self.accelSlope i)).isNormal = true →
                  (b.axis i).isNormal = true →
                  (F32.mul self.accelUnit (![x, y, z] i)).isNormal = true →
                  (a.axis i).isNormal = true →
                  ∃ vs vs' vb va : ℚ, F32.toRat (self.accelSlope i) = some vs
                    ∧ F32.toRat (![x, y, z] i) = some vs' ∧ vs ≠ 0
                    ∧ F32.toRat (b.axis i) = some vb ∧ F32.toRat (a.axis i) = some va
                    ∧ |va - vs' / vs * vb| ≤ |va| / 2 ^ 21))
    ∧ ((Binary32.setGyroSlope self x y z).gyroOffset = self.gyroOffset
      ∧ (Binary32.setGyroSlope self x y z).gyroUnit = self.gyroUnit
      ∧ ∀ (bytes : List Nat) (s1 : σ) (F : F32),
        readRegisters w LSM9DS1_ADDRESS LSM9DS1_OUT_X_G data 6 s = (1, bytes, s1) →
        (Binary32.getGyroFS w s1).1 = some F →
        ∃ b a : Binary32.Reading,
          (Binary32.readGyro w self data s).1 = some b ∧ b.ret = 1
          ∧ (Binary32.readGyro w (Binary32.setGyroSlope self x y z) data s).1 = some a
          ∧ a.ret = 1
          ∧ ∀ i : Fin 3,
              b.axis i = F32.mul (F32.mul self.gyroUnit (self.gyroSlope i))
                (Binary32.corrected F (samples bytes i) (self.gyroOffset i))
              ∧ a.axis i = F32.mul (F32.mul self.gyroUnit (![x, y, z] i))
                (Binary32.corrected F (samples bytes i) (self.gyroOffset i))
              ∧ ((Binary32.corrected F (samples bytes i) (self.gyroOffset i)).isZero = true →
                  (F32.mul self.gyroUnit (self.gyroSlope i)).isFinite = true →
                  (b.axis i).isZero = true)
              ∧ ((Binary32.corrected F (samples bytes i) (self.gyroOffset i)).isZero = true →
                  (F32.mul self.gyroUnit (![x, y, z] i)).isFinite = true →
                  (a.axis i).isZero = true)
              ∧ ((F32.mul self.gyroUnit (self.gyroSlope i)).isNormal = true →
                  (b.axis i).isNormal = true →
                  (F32.mul self.gyroUnit (![x, y, z] i)).isNormal = true →
                  (a.axis i).isNormal = true →
                  ∃ vs vs' vb va : ℚ, F32.toRat (self.gyroSlope i) = some vs
                    ∧ F32.toRat (![x, y, z] i) = some vs' ∧ vs ≠ 0
                    ∧ F32.toRat (b.axis i) = some vb ∧ F32.toRat (a.axis i) = some va
                    ∧ |va - vs' / vs * vb| ≤ |va| / 2 ^ 21))
    ∧ ((Binary32.setMagnetSlope self x y z).magnetOffset = self.magnetOffset
      ∧ (Binary32.setMagnetSlope self x y z).magnetUnit = self.magnetUnit
      ∧ ∀ (bytes : List Nat) (s1 : σ) (F : F32),
        readRegisters w LSM9DS1_ADDRESS_M LSM9DS1_OUT_X_L_M data 6 s = (1, bytes, s1) →
        (Binary32.getMagnetFS w s1).1 = some F →
        ∃ b a : Binary32.Reading,
          (Binary32.readMagneticField w self data s).1 = some b ∧ b.ret = 1
          ∧ (Binary32.readMagneticField w (Binary32.setMagnetSlope self x y z) data s).1 = some a
          ∧ a.ret = 1
          ∧ ∀ i : Fin 3,
              b.axis i = F32.mul (F32.mul self.magnetUnit (self.magnetSlope i))
                (Binary32.corrected F (samples bytes i) (self.magnetOffset i))
              ∧ a.axis i = F32.mul (F32.mul self.magnetUnit (![x, y, z] i))
                (Binary32.corrected F (samples bytes i) (self.magnetOffset i))
              ∧ ((Binary32.corrected F (samples bytes i) (self.magnetOffset i)).isZero = true →
                  (F32.mul self.magnetUnit (self.magnetSlope i)).isFinite = true →
                  (b.axis i).isZero = true)
              ∧ ((Binary32.corrected F (samples bytes i) (self.magnetOffset i)).isZero = true →
                  (F32.mul self.magnetUnit (![x, y, z] i)).isFinite = true →
                  (a.axis i).isZero = true)
              ∧ ((F32.mul self.magnetUnit (self.magnetSlope i)).isNormal = true →
                  (b.axis i).isNormal = true →
                  (F32.mul self.magnetUnit (![x, y, z] i)).isNormal = true →
                  (a.axis i).isNormal = true →
                  ∃ vs vs' vb va : ℚ, F32.toRat (self.magnetSlope i) = some vs
                    ∧ F32.toRat (![x, y, z] i) = some vs' ∧ vs ≠ 0
                    ∧ F32.toRat (b.axis i) = some vb ∧ F32.toRat (a.axis i) = some va
                    ∧ |va - vs' / vs * vb| ≤ |va| / 2 ^ 21)) := by
  refine ⟨⟨rfl, rfl, ?_⟩, ⟨rfl, rfl, ?_⟩, ⟨rfl, rfl, ?_⟩⟩
  · intro bytes s1 F hb hF
    refine ⟨_, _, Binary32.readAccel_of_burst32 w _ data bytes s s1 F hb hF, rfl,
      Binary32.readAccel_of_burst32 w _ data bytes s s1 F hb hF, rfl, ?_⟩
    intro i
    fin_cases i
    · exact ⟨rfl, rfl, fun hd hM => F32.mul_isZero _ _ hM hd,
        fun hd hM => F32.mul_isZero _ _ hM hd,
        fun h1 h2 h3 h4 => F32.slope_ratio_tolerance _ _ _ _ h1 h2 h3 h4⟩
    · exact ⟨rfl, rfl, fun hd hM => F32.mul_isZero _ _ hM hd,
        fun hd hM => F32.mul_isZero _ _ hM hd,
        fun h1 h2 h3 h4 => F32.slope_ratio_tolerance _ _ _ _ h1 h2 h3 h4⟩
    · exact ⟨rfl, rfl, fun hd hM => F32.mul_isZero _ _ hM hd,
        fun hd hM => F32.mul_isZero _ _ hM hd,
        fun h1 h2 h3 h4 => F32.slope_ratio_tolerance _ _ _ _ h1 h2 h3 h4⟩
  · intro bytes s1 F hb hF
    refine ⟨_, _, Binary32.readGyro_of_burst32 w _ data bytes s s1 F hb hF, rfl,
      Binary32.readGyro_of_burst32 w _ data bytes s s1 F hb hF, rfl, ?_⟩
    intro i
    fin_cases i
    · exact ⟨rfl, rfl, fun hd hM => F32.mul_isZero _ _ hM hd,
        fun hd hM => F32.mul_isZero _ _ hM hd,
        fun h1 h2 h3 h4 => F32.slope_ratio_tolerance _ _ _ _ h1 h2 h3 h4⟩
    · exact ⟨rfl, rfl, fun hd hM => F32.mul_isZero _ _ hM hd,
        fun hd hM => F32.mul_isZero _ _ hM hd,
        fun h1 h2 h3 h4 => F32.slope_ratio_tolerance _ _ _ _ h1 h2 h3 h4⟩
    · exact ⟨rfl, rfl, fun hd hM => F32.mul_isZero _ _ hM hd,
        fun hd hM => F32.mul_isZero _ _ hM hd,
        fun h1 h2 h3 h4 => F32.slope_ratio_tolerance _ _ _ _ h1 h2 h3 h4⟩
  · intro bytes s1 F hb hF
    refine ⟨_, _, Binary32.readMagneticField_of_burst32 w _ data bytes s s1 F hb hF, rfl,
      Binary32.readMagneticField_of_burst32 w _ data bytes s s1 F hb hF, rfl, ?_⟩
    intro i
    fin_cases i
    · exact ⟨rfl, rfl, fun hd hM => F32.mul_isZero _ _ hM hd,
        fun hd hM => F32.mul_isZero _ _ hM hd,
        fun h1 h2 h3 h4 => F32.slope_ratio_tolerance _ _ _ _ h1 h2 h3 h4⟩
    · exact ⟨rfl, rfl, fun hd hM => F32.mul_isZero _ _ hM hd,
        fun hd hM => F32.mul_isZero _ _ hM hd,
        fun h1 h2 h3 h4 => F32.slope_ratio_tolerance _ _ _ _ h1 h2 h3 h4⟩
    · exact ⟨rfl, rfl, fun hd hM => F32.mul_isZero _ _ hM hd,
        fun hd hM => F32.mul_isZero _ _ hM hd,
        fun h1 h2 h3 h4 => F32.slope_ratio_tolerance _ _ _ _ h1 h2 h3 h4⟩

/-- C14 on the reference bus, each channel on its own: identity calibration
with the offset set to the reading of the samples (`setAccelOffset(1, 0, 0)`
at 16 g with samples `[2048, 0, 0]`, `setGyroOffset(250, 0, 0)`,
`setMagnetOffset(25, 0, 0)`), so that the samples read zero; after the slopes
are changed to 2, `1.0f / 3.0f` and 3 the same samples still read zero on
every axis. With identity calibration, `setAccelOffset(0, 0, 0)` and samples
`[-16383, 1000, 6144]` at 16 g, which read `-16383/2048`, `125/256` and 3,
changing the slopes from 1 to `1.0f / 3.0f` gives readings `-5461/2048`,
`10922667 / 2^26` and 1, each within `2^-21` of its size from `s'/s` times the
earlier reading. -/
theorem slope_after_offset_binary32_witness :
    ((readRegisters simWire LSM9DS1_ADDRESS LSM9DS1_OUT_X_XL [0, 0, 0, 0, 0, 0] 6
          zeroPointBus).1 = 1
      ∧ (Binary32.getAccelFS simWire (readRegisters simWire LSM9DS1_ADDRESS LSM9DS1_OUT_X_XL
          [0, 0, 0, 0, 0, 0] 6 zeroPointBus).2.2).1 = some (F32.ofInt 16)
      ∧ ∃ b a : Binary32.Reading,
          (Binary32.readAccel simWire
            (Binary32.setAccelOffset Binary32.identityCal (.fin false 1 0) (.fin false 0 0)
              (.fin false 0 0)) [0, 0, 0, 0, 0, 0] zeroPointBus).1 = some b
          ∧ (Binary32.readAccel simWire
              (Binary32.setAccelSlope
                (Binary32.setAccelOffset Binary32.identityCal (.fin false 1 0) (.fin false 0 0)
                  (.fin false 0 0))
                (F32.ofInt 2) (F32.div (F32.ofInt 1) (F32.ofInt 3)) (F32.ofInt 3))
              [0, 0, 0, 0, 0, 0] zeroPointBus).1 = some a
          ∧ ∀ i : Fin 3, (b.axis i).isZero = true ∧ (a.axis i).isZero = true)
    ∧ ((readRegisters simWire LSM9DS1_ADDRESS LSM9DS1_OUT_X_G [0, 0, 0, 0, 0, 0] 6
          zeroPointBus).1 = 1
      ∧ (Binary32.getGyroFS simWire (readRegisters simWire LSM9DS1_ADDRESS LSM9DS1_OUT_X_G
          [0, 0, 0, 0, 0, 0] 6 zeroPointBus).2.2).1 = some (F32.ofInt 2000)
      ∧ ∃ b a : Binary32.Reading,
          (Binary32.readGyro simWire
            (Binary32.setGyroOffset Binary32.identityCal (.fin false 125 1) (.fin false 0 0)
              (.fin false 0 0)) [0, 0, 0, 0, 0, 0] zeroPointBus).1 = some b
          ∧ (Binary32.readGyro simWire
              (Binary32.setGyroSlope
                (Binary32.setGyroOffset Binary32.identityCal (.fin false 125 1) (.fin false 0 0)
                  (.fin false 0 0))
                (F32.ofInt 2) (F32.div (F32.ofInt 1) (F32.ofInt 3)) (F32.ofInt 3))
              [0, 0, 0, 0, 0, 0] zeroPointBus).1 = some a
          ∧ ∀ i : Fin 3, (b.axis i).isZero = true ∧ (a.axis i).isZero = true)
    ∧ ((readRegisters simWire LSM9DS1_ADDRESS_M LSM9DS1_OUT_X_L_M [0, 0, 0, 0, 0, 0] 6
          zeroPointBus).1 = 1
      ∧ (Binary32.getMagnetFS simWire (readRegisters simWire LSM9DS1_ADDRESS_M
          LSM9DS1_OUT_X_L_M [0, 0, 0, 0, 0, 0] 6 zeroPointBus).2.2).1 = some (F32.ofInt 400)
      ∧ ∃ b a : Binary32.Reading,
          (Binary32.readMagneticField simWire
            (Binary32.setMagnetOffset Binary32.identityCal (.fin false 25 0) (.fin false 0 0)
              (.fin false 0 0)) [0, 0, 0, 0, 0, 0] zeroPointBus).1 = some b
          ∧ (Binary32.readMagneticField simWire
              (Binary32.setMagnetSlope
                (Binary32.setMagnetOffset Binary32.identityCal (.fin false 25 0)
                  (.fin false 0 0) (.fin false 0 0))
                (F32.ofInt 2) (F32.div (F32.ofInt 1) (F32.ofInt 3)) (F32.ofInt 3))
              [0, 0, 0, 0, 0, 0] zeroPointBus).1 = some a
          ∧ ∀ i : Fin 3, (b.axis i).isZero = true ∧ (a.axis i).isZero = true)
    ∧ ((readRegisters simWire LSM9DS1_ADDRESS LSM9DS1_OUT_X_XL [0, 0, 0, 0, 0, 0] 6
          roundingBus).1 = 1
      ∧ (Binary32.getAccelFS simWire (readRegisters simWire LSM9DS1_ADDRESS LSM9DS1_OUT_X_XL
          [0, 0, 0, 0, 0, 0] 6 roundingBus).2.2).1 = some (F32.ofInt 16)
      ∧ (Binary32.readAccel simWire
          (Binary32.setAccelOffset Binary32.identityCal (F32.ofInt 0) (F32.ofInt 0)
            (F32.ofInt 0)) [0, 0, 0, 0, 0, 0] roundingBus).1
          = some ⟨1, .fin true 16383 (-11), .fin false 125 (-8), .fin false 3 0⟩
      ∧ (Binary32.readAccel simWire
          (Binary32.setAccelSlope
            (Binary32.setAccelOffset Binary32.identityCal (F32.ofInt 0) (F32.ofInt 0)
              (F32.ofInt 0))
            (.fin false 11184811 (-25)) (.fin false 11184811 (-25))
            (.fin false 11184811 (-25)))
          [0, 0, 0, 0, 0, 0] roundingBus).1
          = some ⟨1, .fin true 5461 (-11), .fin false 10922667 (-26), .fin false 1 0⟩
      ∧ (∃ vs vs' vb va : ℚ, F32.toRat (F32.ofInt 1) = some vs
          ∧ F32.toRat (.fin false 11184811 (-25)) = some vs' ∧ vs ≠ 0
          ∧ F32.toRat (.fin true 16383 (-11)) = some vb ∧ F32.toRat (.fin true 5461 (-11)) = some va
          ∧ |va - vs' / vs * vb| ≤ |va| / 2 ^ 21)
      ∧ (∃ vs vs' vb va : ℚ, F32.toRat (F32.ofInt 1) = some vs
          ∧ F32.toRat (.fin false 11184811 (-25)) = some vs' ∧ vs ≠ 0
          ∧ F32.toRat (.fin false 125 (-8)) = some vb ∧ F32.toRat (.fin false 10922667 (-26)) = some va
          ∧ |va - vs' / vs * vb| ≤ |va| / 2 ^ 21)
      ∧ (∃ vs vs' vb va : ℚ, F32.toRat (F32.ofInt 1) = some vs
          ∧ F32.toRat (.fin false 11184811 (-25)) = some vs' ∧ vs ≠ 0
          ∧ F32.toRat (.fin false 3 0) = some vb ∧ F32.toRat (.fin false 1 0) = some va
          ∧ |va - vs' / vs * vb| ≤ |va| / 2 ^ 21)) := by
  refine ⟨?_, ?_, ?_, ?_⟩
  · obtain ⟨b, a, hb, -, ha, -, hax⟩ :=
      (slope_after_offset_binary32 simWire
        (Binary32.setAccelOffset Binary32.identityCal (.fin false 1 0) (.fin false 0 0)
          (.fin false 0 0)) [0, 0, 0, 0, 0, 0] zeroPointBus
        (F32.ofInt 2) (F32.div (F32.ofInt 1) (F32.ofInt 3)) (F32.ofInt 3)).1.2.2 _ _ _
        zeroPointBus_bursts.1.1 zeroPointBus_bursts.1.2
    refine ⟨rfl, zeroPointBus_bursts.1.2, b, a, hb, ha, ?_⟩
    intro i
    fin_cases i
    · exact ⟨(hax 0).2.2.1 (by decide!) (by decide!), (hax 0).2.2.2.1 (by decide!) (by decide!)⟩
    · exact ⟨(hax 1).2.2.1 (by decide!) (by decide!), (hax 1).2.2.2.1 (by decide!) (by decide!)⟩
    · exact ⟨(hax 2).2.2.1 (by decide!) (by decide!), (hax 2).2.2.2.1 (by decide!) (by decide!)⟩
  · obtain ⟨b, a, hb, -, ha, -, hax⟩ :=
      (slope_after_offset_binary32 simWire
        (Binary32.setGyroOffset Binary32.identityCal (.fin false 125 1) (.fin false 0 0)
          (.fin false 0 0)) [0, 0, 0, 0, 0, 0] zeroPointBus
        (F32.ofInt 2) (F32.div (F32.ofInt 1) (F32.ofInt 3)) (F32.ofInt 3)).2.1.2.2 _ _ _
        zeroPointBus_bursts.2.1.1 zeroPointBus_bursts.2.1.2
    refine ⟨rfl, zeroPointBus_bursts.2.1.2, b, a, hb, ha, ?_⟩
    intro i
    fin_cases i
    · exact ⟨(hax 0).2.2.1 (by decide!) (by decide!), (hax 0).2.2.2.1 (by decide!) (by decide!)⟩
    · exact ⟨(hax 1).2.2.1 (by decide!) (by decide!), (hax 1).2.2.2.1 (by decide!) (by decide!)⟩
    · exact ⟨(hax 2).2.2.1 (by decide!) (by decide!), (hax 2).2.2.2.1 (by decide!) (by decide!)⟩
  · obtain ⟨b, a, hb, -, ha, -, hax⟩ :=
      (slope_after_offset_binary32 simWire
        (Binary32.setMagnetOffset Binary32.identityCal (.fin false 25 0) (.fin false 0 0)
          (.fin false 0 0)) [0, 0, 0, 0, 0, 0] zeroPointBus
        (F32.ofInt 2) (F32.div (F32.ofInt 1) (F32.ofInt 3)) (F32.ofInt 3)).2.2.2.2 _ _ _
        zeroPointBus_bursts.2.2.1 zeroPointBus_bursts.2.2.2
    refine ⟨rfl, zeroPointBus_bursts.2.2.2, b, a, hb, ha, ?_⟩
    intro i
    fin_cases i
    · exact ⟨(hax 0).2.2.1 (by decide!) (by decide!), (hax 0).2.2.2.1 (by decide!) (by decide!)⟩
    · exact ⟨(hax 1).2.2.1 (by decide!) (by decide!), (hax 1).2.2.2.1 (by decide!) (by decide!)⟩
    · exact ⟨(hax 2).2.2.1 (by decide!) (by decide!), (hax 2).2.2.2.1 (by decide!) (by decide!)⟩
  · have h0 := (Binary32.readAccel_of_burst32 simWire
      (Binary32.setAccelOffset Binary32.identityCal (F32.ofInt 0) (F32.ofInt 0) (F32.ofInt 0))
      _ _ _ _ _ roundingBus_accel_burst.1 roundingBus_accel_burst.2.1).trans
        third_slope_values.2.1
    have h1 := (Binary32.readAccel_of_burst32 simWire
      (Binary32.setAccelSlope
        (Binary32.setAccelOffset Binary32.identityCal (F32.ofInt 0) (F32.ofInt 0) (F32.ofInt 0))
        (.fin false 11184811 (-25)) (.fin false 11184811 (-25)) (.fin false 11184811 (-25)))
      _ _ _ _ _ roundingBus_accel_burst.1 roundingBus_accel_burst.2.1).trans
        third_slope_values.2.2
    obtain ⟨b, a, hb, -, ha, -, hax⟩ :=
      (slope_after_offset_binary32 simWire
        (Binary32.setAccelOffset Binary32.identityCal (F32.ofInt 0) (F32.ofInt 0) (F32.ofInt 0))
        [0, 0, 0, 0, 0, 0] roundingBus
        (.fin false 11184811 (-25)) (.fin false 11184811 (-25))
        (.fin false 11184811 (-25))).1.2.2 _ _ _
        roundingBus_accel_burst.1 roundingBus_accel_burst.2.1
    have hb0 := Option.some.inj (hb.symm.trans h0)
    subst hb0
    have ha0 := Option.some.inj (ha.symm.trans h1)
    subst ha0
    exact ⟨rfl, roundingBus_accel_burst.2.1, h0, h1,
      (hax 0).2.2.2.2 (by decide!) (by decide!) (by decide!) (by decide!),
      (hax 1).2.2.2.2 (by decide!) (by decide!) (by decide!) (by decide!),
      (hax 2).2.2.2.2 (by decide!) (by decide!) (by decide!) (by decide!)⟩

/-! ## C15: the configuration `begin` leaves behind -/

theorem simWire_writeRegister (a reg v : Nat) (s : SimBus) (h : s.responding) :
    writeRegister simWire a reg v s
      = (1, { s with txAddress := a, txBuffer := [reg % 256, v % 256], pointer := reg % 256 % 128,
                     regs := fun d r => if d = a ∧ r = reg % 256 % 128 then v % 256 % 256
                       else s.regs d r }) := by
  simp [writeRegister, simWire, h.1 a, SimBus.store]

theorem simWire_readRegister (a reg : Nat) (s : SimBus) (h : s.responding) :
    readRegister simWire a reg s
      = (((s.regs a (reg % 256 % 128) % 256 : Nat) : Int),
          { s with txAddress := a, txBuffer := [reg % 256], pointer := reg % 256 % 128,
                   rxBuffer := [] }) := by
  have hr : List.range 1 = [0] := rfl
  simp [readRegister, simWire, h.1 a, h.2 a, hr, SimBus.store]

theorem simWire_lastWriteBus : LastWriteBus simWire SimBus.responding where
  begin_ok := fun _ h => h
  write_ok := fun s a reg v h => by
    rw [simWire_writeRegister a reg v s h]
    exact h
  read_ok := fun s a reg h => by
    rw [simWire_readRegister a reg s h]
    exact h
  read_written := fun s a reg v h hreg hv => by
    have h2 : (writeRegister simWire a reg v s).2.responding := by
      rw [simWire_writeRegister a reg v s h]
      exact h
    rw [simWire_readRegister a reg _ h2, simWire_writeRegister a reg v s h]
    simp [Nat.mod_eq_of_lt hv]
  read_other := fun s a reg a2 reg2 v h hreg hreg2 hne => by
    have h2 : (writeRegister simWire a2 reg2 v s).2.responding := by
      rw [simWire_writeRegister a2 reg2 v s h]
      exact h
    rw [simWire_readRegister a reg _ h2, simWire_writeRegister a2 reg2 v s h,
      simWire_readRegister a reg s h]
    have e1 : reg % 256 % 128 = reg := by omega
    have e2 : reg2 % 256 % 128 = reg2 := by omega
    simp only [e1, e2]
    rcases hne with hne | hne <;> simp [hne]

theorem begin_snd_of_success (w : TwoWire σ) (s : σ) (hb : (begin w s).1 = 1) :
    (begin w s).2 =
      (writeRegister w LSM9DS1_ADDRESS_M LSM9DS1_CTRL_REG3_M 0x00
        (writeRegister w LSM9DS1_ADDRESS_M LSM9DS1_CTRL_REG2_M 0x00
          (writeRegister w LSM9DS1_ADDRESS_M LSM9DS1_CTRL_REG1_M 0xb4
            (writeRegister w LSM9DS1_ADDRESS LSM9DS1_CTRL_REG6_XL 0x70
              (writeRegister w LSM9DS1_ADDRESS LSM9DS1_CTRL_REG1_G 0x78
                (readRegister w LSM9DS1_ADDRESS_M LSM9DS1_WHO_AM_I
                  (readRegister w LSM9DS1_ADDRESS LSM9DS1_WHO_AM_I
                    (begin.afterReset w s)).2).2).2).2).2).2).2 := by
  rw [begin_fst] at hb
  split_ifs at hb with h1 h2
  · exact absurd hb (by decide)
  · exact absurd hb (by decide)
  · simp only [begin, begin.afterReset] at h1 h2 ⊢
    simp only [h1, h2, if_false]

/-- C15: on a bus whose register writes take effect and whose reads return the
last byte written, once `begin` has returned 1 and before any setter is called,
`getAccelODR` returns 119, `getAccelFS` 4, `getGyroODR` 119, `getGyroFS` 2000
and `getMagnetODR` 20. -/
theorem default_configuration (w : TwoWire σ) (ok : σ → Prop) (hbus : LastWriteBus w ok)
    (s : σ) (hs : ok s) (hb : (begin w s).1 = 1) :
    (getAccelODR w (begin w s).2).1 = some 119
    ∧ (getAccelFS w (begin w s).2).1 = some 4
    ∧ (getGyroODR w (begin w s).2).1 = some 119
    ∧ (getGyroFS w (begin w s).2).1 = some 2000
    ∧ (getMagnetODR w (begin w s).2).1 = some 20 := by
  have h0 : ok (readRegister w LSM9DS1_ADDRESS_M LSM9DS1_WHO_AM_I
      (readRegister w LSM9DS1_ADDRESS LSM9DS1_WHO_AM_I (begin.afterReset w s)).2).2 :=
    hbus.read_ok _ _ _ (hbus.read_ok _ _ _
      (hbus.write_ok _ _ _ _ (hbus.write_ok _ _ _ _ (hbus.begin_ok _ hs))))
  have h1 := hbus.write_ok _ LSM9DS1_ADDRESS LSM9DS1_CTRL_REG1_G 0x78 h0
  have h2 := hbus.write_ok _ LSM9DS1_ADDRESS LSM9DS1_CTRL_REG6_XL 0x70 h1
  have h3 := hbus.write_ok _ LSM9DS1_ADDRESS_M LSM9DS1_CTRL_REG1_M 0xb4 h2
  have h4 := hbus.write_ok _ LSM9DS1_ADDRESS_M LSM9DS1_CTRL_REG2_M 0x00 h3
  have rXL : (readRegister w LSM9DS1_ADDRESS LSM9DS1_CTRL_REG6_XL (begin w s).2).1 = 0x70 := by
    rw [begin_snd_of_success w s hb,
      hbus.read_other _ _ _ _ _ _ h4 (by decide) (by decide) (Or.inl (by decide)),
      hbus.read_other _ _ _ _ _ _ h3 (by decide) (by decide) (Or.inl (by decide)),
      hbus.read_other _ _ _ _ _ _ h2 (by decide) (by decide) (Or.inl (by decide)),
      hbus.read_written _ _ _ _ h1 (by decide) (by decide)]
    rfl
  have rG : (readRegister w LSM9DS1_ADDRESS LSM9DS1_CTRL_REG1_G (begin w s).2).1 = 0x78 := by
    rw [begin_snd_of_success w s hb,
      hbus.read_other _ _ _ _ _ _ h4 (by decide) (by decide) (Or.inl (by decide)),
      hbus.read_other _ _ _ _ _ _ h3 (by decide) (by decide) (Or.inl (by decide)),
      hbus.read_other _ _ _ _ _ _ h2 (by decide) (by decide) (Or.inl (by decide)),
      hbus.read_other _ _ _ _ _ _ h1 (by decide) (by decide) (Or.inr (by decide)),
      hbus.read_written _ _ _ _ h0 (by decide) (by decide)]
    rfl
  have rM : (readRegister w LSM9DS1_ADDRESS_M LSM9DS1_CTRL_REG1_M (begin w s).2).1 = 0xb4 := by
    rw [begin_snd_of_success w s hb,
      hbus.read_other _ _ _ _ _ _ h4 (by decide) (by decide) (Or.inr (by decide)),
      hbus.read_other _ _ _ _ _ _ h3 (by decide) (by decide) (Or.inr (by decide)),
      hbus.read_written _ _ _ _ h2 (by decide) (by decide)]
    rfl
  refine ⟨?_, ?_, ?_, ?_, ?_⟩
  · rw [getAccelODR_fst, rXL]
    rfl
  · rw [getAccelFS_fst, rXL]
    rfl
  · rw [getGyroODR_fst, rG]
    rfl
  · rw [getGyroFS_fst, rG]
    rfl
  · rw [getMagnetODR_fst, rM]
    have e : getMagnetODR.ranges[getMagnetODR.setting 0xb4]? = some 20.0 := rfl
    rw [e]
    norm_num

theorem scenarioBus_responding : scenarioBus.responding :=
  ⟨fun _ => rfl, fun _ => rfl⟩

/-- C15 on the reference bus: both `WHO_AM_I` registers hold their identity
values, `begin` returns 1 and the five getters return the defaults. -/
theorem default_configuration_witness :
    (LastWriteBus simWire SimBus.responding ∧ scenarioBus.responding
      ∧ (begin simWire scenarioBus).1 = 1)
    ∧ (getAccelODR simWire (begin simWire scenarioBus).2).1 = some 119
    ∧ (getAccelFS simWire (begin simWire scenarioBus).2).1 = some 4
    ∧ (getGyroODR simWire (begin simWire scenarioBus).2).1 = some 119
    ∧ (getGyroFS simWire (begin simWire scenarioBus).2).1 = some 2000
    ∧ (getMagnetODR simWire (begin simWire scenarioBus).2).1 = some 20 :=
  ⟨⟨simWire_lastWriteBus, scenarioBus_responding, rfl⟩,
   default_configuration simWire SimBus.responding simWire_lastWriteBus scenarioBus
    scenarioBus_responding rfl⟩

/-! ## C16: the continuous-mode flag and `accelAvailable` -/

theorem accelAvailable_fst (w : TwoWire σ) (self : LSM9DS1Class) (s : σ) :
    (accelAvailable w self s).1 =
      if self.continuousMode = true then
        (if Int.land (readRegister w LSM9DS1_ADDRESS 0x2F s).1 63 ≠ 0 then 1 else 0)
      else
        (if Int.land (readRegister w LSM9DS1_ADDRESS LSM9DS1_STATUS_REG s).1 0x01 ≠ 0
          then 1 else 0) := by
  simp only [accelAvailable]
  split_ifs <;> rfl

set_option maxRecDepth 100000 in
theorem status_masks : ∀ n : Nat, n < 256 →
    (Int.land (n : Int) 63 ≠ 0 ↔ ∃ k, k < 6 ∧ n.testBit k = true)
    ∧ (Int.land (n : Int) 0x01 ≠ 0 ↔ n.testBit 0 = true)
    ∧ (Int.land (n : Int) 0x02 ≠ 0 ↔ n.testBit 1 = true)
    ∧ (Int.land (n : Int) 0x08 ≠ 0 ↔ n.testBit 3 = true) := by
  decide

theorem setOffset_keeps_flag (self c : LSM9DS1Class) (x y z : ℚ) :
    (setAccelOffset self x y z = some c → c.continuousMode = self.continuousMode)
    ∧ (setGyroOffset self x y z = some c → c.continuousMode = self.continuousMode)
    ∧ (setMagnetOffset self x y z = some c → c.continuousMode = self.continuousMode) := by
  refine ⟨?_, ?_, ?_⟩
  · intro h
    simp only [setAccelOffset, fdiv, bind, Option.bind, pure] at h
    split_ifs at h
    all_goals (cases h; rfl)
  · intro h
    simp only [setGyroOffset, fdiv, bind, Option.bind, pure] at h
    split_ifs at h
    all_goals (cases h; rfl)
  · intro h
    simp only [setMagnetOffset, fdiv, bind, Option.bind, pure] at h
    split_ifs at h
    all_goals (cases h; rfl)

/-- C16: continuous mode is one boolean: false after construction, true after
`setContinuousMode`, false after `setOneShotMode`, and kept by the only other
operations that alter the object, the slope and offset setters. With a
successful register read, `accelAvailable` returns 1 exactly when the flag is
true and one of the low six bits of `FIFO_SRC` (0x2F) is set, or the flag is
false and bit 0 of `STATUS_REG` (0x17) is set, and returns 0 otherwise. -/
theorem continuous_mode_flag (w : TwoWire σ) (self cal : LSM9DS1Class) (s : σ) (x y z : ℚ)
    (hF : 0 ≤ (readRegister w LSM9DS1_ADDRESS 0x2F s).1
      ∧ (readRegister w LSM9DS1_ADDRESS 0x2F s).1 ≤ 255)
    (hS : 0 ≤ (readRegister w LSM9DS1_ADDRESS LSM9DS1_STATUS_REG s).1
      ∧ (readRegister w LSM9DS1_ADDRESS LSM9DS1_STATUS_REG s).1 ≤ 255) :
    (LSM9DS1Class.new cal).continuousMode = false
    ∧ (setContinuousMode w self s).1.continuousMode = true
    ∧ (setOneShotMode w self s).1.continuousMode = false
    ∧ (setAccelSlope self x y z).continuousMode = self.continuousMode
    ∧ (setGyroSlope self x y z).continuousMode = self.continuousMode
    ∧ (setMagnetSlope self x y z).continuousMode = self.continuousMode
    ∧ (∀ c, setAccelOffset self x y z = some c → c.continuousMode = self.continuousMode)
    ∧ (∀ c, setGyroOffset self x y z = some c → c.continuousMode = self.continuousMode)
    ∧ (∀ c, setMagnetOffset self x y z = some c → c.continuousMode = self.continuousMode)
    ∧ ((accelAvailable w self s).1 = 1 ↔
        (self.continuousMode = true
          ∧ ∃ k, k < 6 ∧ (readRegister w LSM9DS1_ADDRESS 0x2F s).1.toNat.testBit k = true)
        ∨ (self.continuousMode = false
          ∧ (readRegister w LSM9DS1_ADDRESS LSM9DS1_STATUS_REG s).1.toNat.testBit 0 = true))
    ∧ ((accelAvailable w self s).1 = 1 ∨ (accelAvailable w self s).1 = 0) := by
  have mF := int_byte_cases
    (P := fun r => Int.land r 63 ≠ 0 ↔ ∃ k, k < 6 ∧ r.toNat.testBit k = true)
    (fun n hn => (status_masks n hn).1) _ hF.1 hF.2
  have mS := int_byte_cases
    (P := fun r => Int.land r 0x01 ≠ 0 ↔ r.toNat.testBit 0 = true)
    (fun n hn => (status_masks n hn).2.1) _ hS.1 hS.2
  beta_reduce at mF mS
  refine ⟨rfl, rfl, rfl, rfl, rfl, rfl,
    fun c => (setOffset_keeps_flag self c x y z).1,
    fun c => (setOffset_keeps_flag self c x y z).2.1,
    fun c => (setOffset_keeps_flag self c x y z).2.2, ?_, ?_⟩
  · rw [accelAvailable_fst]
    by_cases hc : self.continuousMode = true
    · rw [if_pos hc, ← mF]
      simp [hc]
    · rw [if_neg hc, ← mS]
      have hc2 : self.continuousMode = false := by simpa using hc
      simp [hc2]
  · rw [accelAvailable_fst]
    split_ifs <;> simp

/-- C16 on the reference bus whose registers all hold 0xff: one-shot mode
after construction, bit 0 of `STATUS_REG` set, `accelAvailable` returns 1; in
continuous mode the low six bits of `FIFO_SRC` are set and it returns 1 too. -/
theorem continuous_mode_flag_witness :
    ((readRegister simWire LSM9DS1_ADDRESS 0x2F allOnesBus).1 = 0xff
      ∧ (readRegister simWire LSM9DS1_ADDRESS LSM9DS1_STATUS_REG allOnesBus).1 = 0xff)
    ∧ ((LSM9DS1Class.new identityCal).continuousMode = false
      ∧ (setContinuousMode simWire identityCal allOnesBus).1.continuousMode = true
      ∧ (setOneShotMode simWire identityCal allOnesBus).1.continuousMode = false
      ∧ (setAccelSlope identityCal 2 3 4).continuousMode = identityCal.continuousMode
      ∧ (setGyroSlope identityCal 2 3 4).continuousMode = identityCal.continuousMode
      ∧ (setMagnetSlope identityCal 2 3 4).continuousMode = identityCal.continuousMode
      ∧ (∀ c, setAccelOffset identityCal 2 3 4 = some c
          → c.continuousMode = identityCal.continuousMode)
      ∧ (∀ c, setGyroOffset identityCal 2 3 4 = some c
          → c.continuousMode = identityCal.continuousMode)
      ∧ (∀ c, setMagnetOffset identityCal 2 3 4 = some c
          → c.continuousMode = identityCal.continuousMode)
      ∧ ((accelAvailable simWire identityCal allOnesBus).1 = 1 ↔
          (identityCal.continuousMode = true
            ∧ ∃ k, k < 6 ∧ (readRegister simWire LSM9DS1_ADDRESS 0x2F
                allOnesBus).1.toNat.testBit k = true)
          ∨ (identityCal.continuousMode = false
            ∧ (readRegister simWire LSM9DS1_ADDRESS LSM9DS1_STATUS_REG
                allOnesBus).1.toNat.testBit 0 = true))
      ∧ ((accelAvailable simWire identityCal allOnesBus).1 = 1
          ∨ (accelAvailable simWire identityCal allOnesBus).1 = 0))
    ∧ (accelAvailable simWire identityCal allOnesBus).1 = 1
    ∧ (accelAvailable simWire (setContinuousMode simWire identityCal allOnesBus).1
        allOnesBus).1 = 1 :=
  ⟨⟨rfl, rfl⟩,
   continuous_mode_flag simWire identityCal identityCal allOnesBus 2 3 4
    (by decide) (by decide),
   rfl, rfl⟩

/-! ## C17: the device `setMagnetFS` and `getMagnetFS` address -/

/-- C17 at its failing input: the magnetometer's `CTRL_REG2_M` holds 0x60
(code 3, 1600 µT) and register 0x21 of the device at 0x6b holds 0.
`getMagnetFS` returns 400, decoding the register of the device at 0x6b;
`setMagnetFS(1)` returns 1, its one register write goes to (0x6b, 0x21), which
changes from 0x00 to 0x20, and the magnetometer's register still holds 0x60. -/
theorem setMagnetFS_addresses_accelerometer_device :
    magnetFSBus.regs LSM9DS1_ADDRESS_M LSM9DS1_CTRL_REG2_M = 0x60
    ∧ magnetFSBus.regs LSM9DS1_ADDRESS LSM9DS1_CTRL_REG2_M = 0x00
    ∧ (getMagnetFS simWire magnetFSBus).1 = some 400
    ∧ getMagnetFS.Ranges[getMagnetFS.setting 0x60]? = some 1600
    ∧ (setMagnetFS simWire 1 magnetFSBus).1 = 1
    ∧ registerWrites (setMagnetFS (logged simWire) 1 (magnetFSBus, [])).2.2
        = [(0x6b, 0x21, 0x20)]
    ∧ (setMagnetFS simWire 1 magnetFSBus).2.regs LSM9DS1_ADDRESS_M LSM9DS1_CTRL_REG2_M = 0x60
    ∧ (setMagnetFS simWire 1 magnetFSBus).2.regs LSM9DS1_ADDRESS LSM9DS1_CTRL_REG2_M = 0x20
    ∧ (getMagnetFS simWire (setMagnetFS simWire 1 magnetFSBus).2).1 = some 800 := by
  refine ⟨rfl, rfl, rfl, rfl, rfl, ?_, rfl, rfl, rfl⟩
  decide

/-! ## C18: the data-ready queries after a failed read -/

theorem gyroAvailable_fst (w : TwoWire σ) (s : σ) :
    (gyroAvailable w s).1 =
      if Int.land (readRegister w LSM9DS1_ADDRESS LSM9DS1_STATUS_REG s).1 0x02 ≠ 0
        then 1 else 0 := by
  simp only [gyroAvailable]
  split_ifs <;> rfl

theorem magneticFieldAvailable_fst (w : TwoWire σ) (s : σ) :
    (magneticFieldAvailable w s).1 =
      if Int.land (readRegister w LSM9DS1_ADDRESS_M LSM9DS1_STATUS_REG_M s).1 0x08 ≠ 0
        then 1 else 0 := by
  simp only [magneticFieldAvailable]
  split_ifs <;> rfl

theorem neg_one_masks :
    Int.land (-1) 63 ≠ 0 ∧ Int.land (-1) 0x01 ≠ 0 ∧ Int.land (-1) 0x02 ≠ 0
    ∧ Int.land (-1) 0x08 ≠ 0 :=
  ⟨fun h0 => absurd ((land_neg_one 63).symm.trans h0) (by decide),
   fun h0 => absurd ((land_neg_one 0x01).symm.trans h0) (by decide),
   fun h0 => absurd ((land_neg_one 0x02).symm.trans h0) (by decide),
   fun h0 => absurd ((land_neg_one 0x08).symm.trans h0) (by decide)⟩

theorem available_of_failed_read (w : TwoWire σ) (self : LSM9DS1Class) (s : σ) :
    ((readRegister w LSM9DS1_ADDRESS 0x2F s).1 = -1 → self.continuousMode = true
      → (accelAvailable w self s).1 = 1)
    ∧ ((readRegister w LSM9DS1_ADDRESS LSM9DS1_STATUS_REG s).1 = -1
      → self.continuousMode = false → (accelAvailable w self s).1 = 1)
    ∧ ((readRegister w LSM9DS1_ADDRESS LSM9DS1_STATUS_REG s).1 = -1
      → (gyroAvailable w s).1 = 1)
    ∧ ((readRegister w LSM9DS1_ADDRESS_M LSM9DS1_STATUS_REG_M s).1 = -1
      → (magneticFieldAvailable w s).1 = 1) := by
  refine ⟨?_, ?_, ?_, ?_⟩
  · intro h hc
    rw [accelAvailable_fst, if_pos hc, h, if_pos neg_one_masks.1]
  · intro h hc
    rw [accelAvailable_fst, if_neg (by simp [hc]), h, if_pos neg_one_masks.2.1]
  · intro h
    rw [gyroAvailable_fst, h, if_pos neg_one_masks.2.2.1]
  · intro h
    rw [magneticFieldAvailable_fst, h, if_pos neg_one_masks.2.2.2]

/-- C18 at its failing input: on a bus where every register read fails (-1),
`accelAvailable` in one-shot mode and in continuous mode, `gyroAvailable` and
`magneticFieldAvailable` all return 1, not 0: `-1 & mask` is non-zero for each
mask. On the bus where only the magnetometer fails to acknowledge,
`magneticFieldAvailable` returns 1 as well. -/
theorem available_reports_data_after_failed_read :
    (readRegister simWire LSM9DS1_ADDRESS LSM9DS1_STATUS_REG readFaultBus).1 = -1
    ∧ (readRegister simWire LSM9DS1_ADDRESS 0x2F readFaultBus).1 = -1
    ∧ (readRegister simWire LSM9DS1_ADDRESS_M LSM9DS1_STATUS_REG_M readFaultBus).1 = -1
    ∧ identityCal.continuousMode = false
    ∧ (accelAvailable simWire identityCal readFaultBus).1 = 1
    ∧ (setContinuousMode simWire identityCal readFaultBus).1.continuousMode = true
    ∧ (accelAvailable simWire (setContinuousMode simWire identityCal readFaultBus).1
        readFaultBus).1 = 1
    ∧ (gyroAvailable simWire readFaultBus).1 = 1
    ∧ (magneticFieldAvailable simWire readFaultBus).1 = 1
    ∧ (1 : Int) ≠ 0
    ∧ (readRegister simWire LSM9DS1_ADDRESS_M LSM9DS1_STATUS_REG_M magnetNackBus).1 = -1
    ∧ (magneticFieldAvailable simWire magnetNackBus).1 = 1 :=
  ⟨rfl, rfl, rfl, rfl,
   (available_of_failed_read simWire identityCal readFaultBus).2.1 rfl rfl,
   rfl,
   (available_of_failed_read simWire _ readFaultBus).1 rfl rfl,
   (available_of_failed_read simWire identityCal readFaultBus).2.2.1 rfl,
   (available_of_failed_read simWire identityCal readFaultBus).2.2.2 rfl,
   by decide, rfl,
   (available_of_failed_read simWire identityCal magnetNackBus).2.2.2 rfl⟩

/-! ## C19: table indices after a failed read -/

theorem getMagnetODR_setting_neg_one : getMagnetODR.setting (-1) = 7 := by
  unfold getMagnetODR.setting
  rw [show (0b00011100 : Int) = ((0b00011100 : Nat) : Int) from rfl, land_neg_one]
  decide

/-- C19 at its failing input: no device acknowledges, so `readRegister` returns
-1. `getAccelODR`, `getGyroODR` and `getMagnetFS` compute `-1 >> 5 = -1`,
truncated to the index 255, beyond their tables of 8, 8 and 4 entries: the
lookups are out of bounds. The masked indices of `getAccelFS`, `getGyroFS` (3)
and `getMagnetODR` (7) and the indices (7, 3) of `getGyroBW` stay in bounds. -/
theorem getter_indices_after_failed_read :
    (readRegister simWire LSM9DS1_ADDRESS LSM9DS1_CTRL_REG6_XL nackBus).1 = -1
    ∧ (readRegister simWire LSM9DS1_ADDRESS LSM9DS1_CTRL_REG1_G nackBus).1 = -1
    ∧ (readRegister simWire LSM9DS1_ADDRESS LSM9DS1_CTRL_REG2_M nackBus).1 = -1
    ∧ (getAccelODR.setting (-1) = 255 ∧ getAccelODR.Ranges.length = 8
      ∧ ¬ getAccelODR.setting (-1) < getAccelODR.Ranges.length
      ∧ (getAccelODR simWire nackBus).1 = none)
    ∧ (getGyroODR.setting (-1) = 255 ∧ getGyroODR.Ranges.length = 8
      ∧ ¬ getGyroODR.setting (-1) < getGyroODR.Ranges.length
      ∧ (getGyroODR simWire nackBus).1 = none)
    ∧ (getMagnetFS.setting (-1) = 255 ∧ getMagnetFS.Ranges.length = 4
      ∧ ¬ getMagnetFS.setting (-1) < getMagnetFS.Ranges.length
      ∧ (getMagnetFS simWire nackBus).1 = none)
    ∧ getAccelFS.setting (-1) = 3
    ∧ getGyroFS.setting (-1) = 3
    ∧ getMagnetODR.setting (-1) = 7
    ∧ toUInt8 (-1) >>> 5 = 7
    ∧ toUInt8 (-1) &&& 0b00000011 = 3 :=
  ⟨rfl, rfl, rfl,
   ⟨by decide, rfl, by decide, rfl⟩,
   ⟨by decide, rfl, by decide, rfl⟩,
   ⟨by decide, rfl, by decide, rfl⟩,
   getAccelFS_setting_neg_one, getGyroFS_setting_neg_one, getMagnetODR_setting_neg_one,
   by decide, by decide⟩

end LSM9DS1
